import Mathlib

/-!
# LMMS `SetupDialog` (src/gui/SetupDialog.cpp)

A shallow embedding of the setup dialog: the registries of audio and MIDI
setup widgets, the combo boxes that offer them, the resolution of the persisted
device preference in the constructor, the interface-changed slots, `accept()`
and the file/directory picker slots.

Qt containers and widgets are modelled by the part of their state the dialog
reads or writes:

* `QString` is a `String`; `QString::operator<` (which orders `QMap`) compares
  code units lexicographically, modelled by `QString.lt` on code points.
* `QMap<QString, V>` is a list of entries kept sorted by key, keys unique.
* a setup widget is its explicit hidden/shown flag; a widget pointer that would
  be null is never stored: the call through it is undefined behaviour and the
  function modelling it returns `none`.
* calls made on collaborators (configuration manager, setup widgets, message
  box) are recorded in order in `World.calls`.
-/

namespace LMMS

abbrev QString := String

/-- Lexicographic comparison of two character sequences by code. -/
def lexLt : List Char → List Char → Bool
  | [], [] => false
  | [], _ :: _ => true
  | _ :: _, [] => false
  | a :: as, b :: bs =>
    if a.toNat < b.toNat then true
    else if b.toNat < a.toNat then false
    else lexLt as bs

/-- The order of `QString::operator<`, the key order of `QMap<QString, V>`. -/
def QString.lt (a b : QString) : Bool := lexLt a.toList b.toList

/-! ## QMap -/

/-- The entries of a `QMap<QString, V>`, in key order. -/
abbrev QMap (V : Type) := List (QString × V)

/-- Keys of the map in iteration order (`QMap::keys()`). -/
def QMap.keys {V : Type} (m : QMap V) : List QString := m.map Prod.fst

/-- Assignment `m[k] = v` (`QMap::insert`): replaces the value of an existing
key, otherwise inserts the entry at its place in key order. -/
def QMap.insert {V : Type} (k : QString) (v : V) : QMap V → QMap V
  | [] => [(k, v)]
  | (k', v') :: rest =>
    if QString.lt k k' then (k, v) :: (k', v') :: rest
    else if k = k' then (k, v) :: rest
    else (k', v') :: QMap.insert k v rest

/-- Lookup of a key (`QMap::find`). -/
def QMap.find {V : Type} (k : QString) : QMap V → Option V
  | [] => none
  | (k', v') :: rest => if k = k' then some v' else QMap.find k rest

/-- The rvalue `m[k]` of a non-const map: the value of `k`; a missing key is
first inserted with the default-constructed value `dflt`. -/
def QMap.index {V : Type} (dflt : V) (k : QString) (m : QMap V) : V × QMap V :=
  match QMap.find k m with
  | some v => (v, m)
  | none => (dflt, QMap.insert k dflt m)

/-- Replaces the value stored under `k` by `f` of it; other entries are kept. -/
def QMap.adjust {V : Type} (f : V → V) (k : QString) (m : QMap V) : QMap V :=
  m.map fun e => if e.1 = k then (e.1, f e.2) else e

/-! ## Widgets -/

/-- A backend setup widget (`AudioDeviceSetupWidget`, `MidiSetupWidget`): the
flag set by `hide()` and cleared by `show()`. A widget created with a parent is
not hidden: it appears when its parent is shown. -/
structure SetupWidget where
  hidden : Bool
  deriving DecidableEq, Repr

/-- The widget as `new ...::setupWidget( parent )` leaves it. -/
def SetupWidget.new : SetupWidget := { hidden := false }

/-- The call `hide()` on a widget. -/
def SetupWidget.hide (_w : SetupWidget) : SetupWidget := { hidden := true }

/-- The call `show()` on a widget. -/
def SetupWidget.show (_w : SetupWidget) : SetupWidget := { hidden := false }

abbrev AswMap := QMap SetupWidget
abbrev MswMap := QMap SetupWidget
abbrev trMap := QMap QString

/-- The statement `widgets[k]->hide()`. On a missing key `operator[]` inserts a
null pointer and the call through it is undefined: `none`. -/
def derefHide (widgets : QMap SetupWidget) (k : QString) : Option (QMap SetupWidget) :=
  match QMap.find k widgets with
  | some _ => some (QMap.adjust SetupWidget.hide k widgets)
  | none => none

/-- The statement `widgets[k]->show()`, undefined on a missing key as `derefHide`. -/
def derefShow (widgets : QMap SetupWidget) (k : QString) : Option (QMap SetupWidget) :=
  match QMap.find k widgets with
  | some _ => some (QMap.adjust SetupWidget.show k widgets)
  | none => none

/-- A `QComboBox` of plain text items. `currentIndex` is `-1` when no item is
current. -/
structure QComboBox where
  items : List QString
  currentIndex : Int
  deriving DecidableEq, Repr

/-- A combo box as constructed: no items, no current item. -/
def QComboBox.new : QComboBox := { items := [], currentIndex := -1 }

/-- The call `addItem( text )`: appends; the first item added to an empty box becomes
the current one. -/
def QComboBox.addItem (c : QComboBox) (text : QString) : QComboBox :=
  { items := c.items ++ [text],
    currentIndex := if c.items = [] then 0 else c.currentIndex }

/-- The call `findText( text )` with the default flags (exact, case sensitive): the
index of the first item equal to `text`, or `-1`. -/
def QComboBox.findText (c : QComboBox) (text : QString) : Int :=
  if c.items.indexOf text < c.items.length then (c.items.indexOf text : Int) else -1

/-- The call `setCurrentIndex( index )`: an index outside the items clears the current
item. -/
def QComboBox.setCurrentIndex (c : QComboBox) (index : Int) : QComboBox :=
  { c with currentIndex := if 0 ≤ index ∧ index < c.items.length then index else -1 }

/-- The call `currentText()`: the text of the current item, empty when there is none. -/
def QComboBox.currentText (c : QComboBox) : QString :=
  if 0 ≤ c.currentIndex then c.items.getD c.currentIndex.toNat "" else ""

/-! ## Collaborators -/

/-- A call made by the dialog on one of its collaborators. -/
inductive Call where
  | information
  | dialogAccept
  | setValue (cls attr value : QString)
  | setWorkingDir (v : QString)
  | setVSTDir (v : QString)
  | setGIGDir (v : QString)
  | setSF2Dir (v : QString)
  | setArtworkDir (v : QString)
  | setLADSPADir (v : QString)
  | setDefaultSoundfont (v : QString)
  | setSTKDir (v : QString)
  | setBackgroundArtwork (v : QString)
  | audioSaveSettings (name : QString)
  | midiSaveSettings (name : QString)
  | saveConfigFile
  deriving DecidableEq, Repr

/-- The state outside the dialog: the key/value settings held by
`ConfigManager::inst()` and the calls made on collaborators so far, oldest
first. -/
structure World where
  settings : List ((QString × QString) × QString)
  calls : List Call
  deriving DecidableEq, Repr

/-- Replaces the value of `key` in a settings list or appends the pair. -/
def upsert (key : QString × QString) (v : QString) :
    List ((QString × QString) × QString) → List ((QString × QString) × QString)
  | [] => [(key, v)]
  | (k', v') :: rest => if key = k' then (key, v) :: rest else (k', v') :: upsert key v rest

/-- Reads a settings list: the value stored under `key`, empty when absent. -/
def lookupSetting (key : QString × QString) : List ((QString × QString) × QString) → QString
  | [] => ""
  | (k', v') :: rest => if key = k' then v' else lookupSetting key rest

/-- Modelled from the spec: `ConfigManager::value( cls, attribute )`, the
string-keyed get of the settings store grouped by section; an absent key reads
as the empty string. -/
def World.value (w : World) (cls attr : QString) : QString :=
  lookupSetting (cls, attr) w.settings

/-- Modelled from the spec: `ConfigManager::setValue( cls, attribute, value )`,
the string-keyed set of the settings store; the call is recorded. -/
def World.setValue (w : World) (cls attr value : QString) : World :=
  { settings := upsert (cls, attr) value w.settings,
    calls := w.calls ++ [Call.setValue cls attr value] }

/-- Appends a call on a collaborator whose effect the dialog does not read. -/
def World.call (w : World) (c : Call) : World := { w with calls := w.calls ++ [c] }

/-- The preprocessor flags the file tests. -/
structure BuildConfig where
  LMMS_HAVE_JACK : Bool
  LMMS_HAVE_ALSA : Bool
  LMMS_HAVE_PULSEAUDIO : Bool
  LMMS_HAVE_PORTAUDIO : Bool
  LMMS_HAVE_SOUNDIO : Bool
  LMMS_HAVE_SDL : Bool
  LMMS_HAVE_OSS : Bool
  LMMS_HAVE_SNDIO : Bool
  LMMS_BUILD_WIN32 : Bool
  LMMS_BUILD_APPLE : Bool
  LMMS_HAVE_STK : Bool
  LMMS_HAVE_FLUIDSYNTH : Bool
  deriving DecidableEq, Repr

/-- The values of `AudioJack::name()`, ..., `AudioDummy::name()`; the headers
that define them are not part of the file. -/
structure AudioNames where
  AudioJack : QString
  AudioAlsa : QString
  AudioPulseAudio : QString
  AudioPortAudio : QString
  AudioSoundIo : QString
  AudioSdl : QString
  AudioOss : QString
  AudioSndio : QString
  AudioDummy : QString
  deriving DecidableEq, Repr

/-- The values of `MidiAlsaSeq::name()`, ..., `MidiDummy::name()`. -/
structure MidiNames where
  MidiAlsaSeq : QString
  MidiAlsaRaw : QString
  MidiJack : QString
  MidiOss : QString
  MidiSndio : QString
  MidiWinMM : QString
  MidiApple : QString
  MidiDummy : QString
  deriving DecidableEq, Repr

/-- What the constructor reads from outside the file: the build flags, the
backend names, the translation `tr( key.toLatin1() )` of a backend name in the
dialog's context, and the names `Engine::mixer()->audioDevName()` and
`Engine::mixer()->midiClientName()` of the backends the engine runs. -/
structure Env where
  build : BuildConfig
  audio : AudioNames
  midi : MidiNames
  tr : QString → QString
  audioDevName : QString
  midiClientName : QString
  fromNativeSeparators : QString → QString

/-! ## The dialog -/

/-- A `QLineEdit`: its text. -/
structure QLineEdit where
  text : QString
  deriving DecidableEq, Repr

/-- A `QSlider`: its range, value and enabled flag. -/
structure QSlider where
  minimum : Int
  maximum : Int
  value : Int
  enabled : Bool
  deriving DecidableEq, Repr

/-- A `LedCheckBox`: checked and visible flags. -/
structure LedCheckBox where
  checked : Bool
  visible : Bool
  deriving DecidableEq, Repr

/-- The members of `SetupDialog`. `vstEmbedCurrentData` stands for
`m_vstEmbedComboBox->currentData().toString()`, the labels for the text they
show. -/
structure SetupDialog where
  m_bufferSize : Int
  m_toolTips : Bool
  m_warnAfterSetup : Bool
  m_displaydBFS : Bool
  m_MMPZ : Bool
  m_disableBackup : Bool
  m_openLastProject : Bool
  m_hqAudioDev : Bool
  m_lang : QString
  m_languages : List QString
  m_workingDir : QString
  m_vstDir : QString
  m_artworkDir : QString
  m_ladDir : QString
  m_gigDir : QString
  m_sf2Dir : QString
  m_defaultSoundfont : QString
  m_stkDir : QString
  m_backgroundArtwork : QString
  m_smoothScroll : Bool
  m_enableAutoSave : Bool
  m_enableRunningAutoSave : Bool
  m_saveInterval : Int
  m_oneInstrumentTrackWindow : Bool
  m_compactTrackButtons : Bool
  m_syncVSTPlugins : Bool
  m_animateAFP : Bool
  m_printNoteLabels : Bool
  m_displayWaveform : Bool
  m_disableAutoQuit : Bool
  m_vstEmbedMethod : QString
  vstEmbedCurrentData : QString
  m_bufSizeSlider : QSlider
  m_bufSizeLbl : QString
  m_wdLineEdit : QLineEdit
  m_gigLineEdit : QLineEdit
  m_sf2LineEdit : QLineEdit
  m_vdLineEdit : QLineEdit
  m_ladLineEdit : QLineEdit
  m_stkLineEdit : QLineEdit
  m_sfLineEdit : QLineEdit
  m_adLineEdit : QLineEdit
  m_baLineEdit : QLineEdit
  m_saveIntervalSlider : QSlider
  m_saveIntervalLbl : QString
  m_autoSave : LedCheckBox
  m_runningAutoSave : LedCheckBox
  m_audioInterfaces : QComboBox
  m_audioIfaceSetupWidgets : AswMap
  m_audioIfaceNames : trMap
  m_midiInterfaces : QComboBox
  m_midiIfaceSetupWidgets : MswMap
  m_midiIfaceNames : trMap
  deriving DecidableEq, Repr

/-! ### Constructor: the audio and MIDI interface pages -/

/-- Constructor, lines 543-583: the registry `m_audioIfaceSetupWidgets`, one
assignment per backend compiled in, `AudioDummy` unconditionally last. -/
def audioIfaceSetupWidgets (b : BuildConfig) (n : AudioNames) : AswMap :=
  let m : AswMap := []
  let m := if b.LMMS_HAVE_JACK then QMap.insert n.AudioJack SetupWidget.new m else m
  let m := if b.LMMS_HAVE_ALSA then QMap.insert n.AudioAlsa SetupWidget.new m else m
  let m := if b.LMMS_HAVE_PULSEAUDIO then QMap.insert n.AudioPulseAudio SetupWidget.new m else m
  let m := if b.LMMS_HAVE_PORTAUDIO then QMap.insert n.AudioPortAudio SetupWidget.new m else m
  let m := if b.LMMS_HAVE_SOUNDIO then QMap.insert n.AudioSoundIo SetupWidget.new m else m
  let m := if b.LMMS_HAVE_SDL then QMap.insert n.AudioSdl SetupWidget.new m else m
  let m := if b.LMMS_HAVE_OSS then QMap.insert n.AudioOss SetupWidget.new m else m
  let m := if b.LMMS_HAVE_SNDIO then QMap.insert n.AudioSndio SetupWidget.new m else m
  QMap.insert n.AudioDummy SetupWidget.new m

/-- Constructor, lines 647-680: the registry `m_midiIfaceSetupWidgets`. -/
def midiIfaceSetupWidgets (b : BuildConfig) (n : MidiNames) : MswMap :=
  let m : MswMap := []
  let m := if b.LMMS_HAVE_ALSA then
      QMap.insert n.MidiAlsaRaw SetupWidget.new (QMap.insert n.MidiAlsaSeq SetupWidget.new m)
    else m
  let m := if b.LMMS_HAVE_JACK then QMap.insert n.MidiJack SetupWidget.new m else m
  let m := if b.LMMS_HAVE_OSS then QMap.insert n.MidiOss SetupWidget.new m else m
  let m := if b.LMMS_HAVE_SNDIO then QMap.insert n.MidiSndio SetupWidget.new m else m
  let m := if b.LMMS_BUILD_WIN32 then QMap.insert n.MidiWinMM SetupWidget.new m else m
  let m := if b.LMMS_BUILD_APPLE then QMap.insert n.MidiApple SetupWidget.new m else m
  QMap.insert n.MidiDummy SetupWidget.new m

/-- The first loop (lines 586-590, 683-687): over the registry in key order,
`names[tr( it.key().toLatin1() )] = it.key()`. -/
def ifaceNames (tr : QString → QString) : List QString → trMap → trMap
  | [], names => names
  | key :: rest, names => ifaceNames tr rest (QMap.insert (tr key) key names)

/-- The second loop (lines 591-598, 688-695): over the name map in key order,
hide the widget registered under `it.value()` and add `it.key()` to the combo
box. -/
def hideAndAddItems : List (QString × QString) → QMap SetupWidget → QComboBox →
    Option (QMap SetupWidget × QComboBox)
  | [], widgets, combo => some (widgets, combo)
  | (label, name) :: rest, widgets, combo =>
    match derefHide widgets name with
    | none => none
    | some widgets' => hideAndAddItems rest widgets' (combo.addItem label)

/-- The labels the combo box of a registry offers: the keys of the name map
built by the first loop. -/
def ifaceLabels (tr : QString → QString) (widgets : QMap SetupWidget) : List QString :=
  QMap.keys (ifaceNames tr (QMap.keys widgets) [])

/-- Lines 600-608 (and 697-704): the device name after the lookup of the
persisted preference `"mixer"/attr` among the combo box items; a preference
that is not found is replaced by the engine's name, which is written back. -/
def resolveDevName (attr engineName : QString) (combo : QComboBox) (w : World) :
    QString × World :=
  let devName := w.value "mixer" attr
  if combo.findText devName < 0 then
    (engineName, w.setValue "mixer" attr engineName)
  else
    (devName, w)

/-- Constructor, lines 543-611: the audio interface page. -/
def SetupDialog.constructAudio (env : Env) (w : World) (d : SetupDialog) :
    Option (World × SetupDialog) :=
  let widgets := audioIfaceSetupWidgets env.build env.audio
  let names := ifaceNames env.tr (QMap.keys widgets) []
  match hideAndAddItems names widgets QComboBox.new with
  | none => none
  | some (widgets, combo) =>
    let r := resolveDevName "audiodev" env.audioDevName combo w
    let combo := combo.setCurrentIndex (combo.findText r.1)
    match derefShow widgets r.1 with
    | none => none
    | some widgets =>
      some (r.2, { d with m_audioInterfaces := combo,
                          m_audioIfaceSetupWidgets := widgets,
                          m_audioIfaceNames := names })

/-- Constructor, lines 647-707: the MIDI interface page. -/
def SetupDialog.constructMidi (env : Env) (w : World) (d : SetupDialog) :
    Option (World × SetupDialog) :=
  let widgets := midiIfaceSetupWidgets env.build env.midi
  let names := ifaceNames env.tr (QMap.keys widgets) []
  match hideAndAddItems names widgets QComboBox.new with
  | none => none
  | some (widgets, combo) =>
    let r := resolveDevName "mididev" env.midiClientName combo w
    let combo := combo.setCurrentIndex (combo.findText r.1)
    match derefShow widgets r.1 with
    | none => none
    | some widgets =>
      some (r.2, { d with m_midiInterfaces := combo,
                          m_midiIfaceSetupWidgets := widgets,
                          m_midiIfaceNames := names })

/-- Constructor, lines 543-707: the audio page, then the MIDI page. -/
def SetupDialog.constructInterfaces (env : Env) (w : World) (d : SetupDialog) :
    Option (World × SetupDialog) :=
  match SetupDialog.constructAudio env w d with
  | none => none
  | some (w, d) => SetupDialog.constructMidi env w d

/-- The audio device name the constructor resolves to (`audioDevName` after
line 608) and the world it leaves. The lookup reads the items of the combo box
only, which are the labels of the registry (`constructAudio_spec`). -/
def resolveAudio (env : Env) (w : World) : QString × World :=
  resolveDevName "audiodev" env.audioDevName
    { items := ifaceLabels env.tr (audioIfaceSetupWidgets env.build env.audio),
      currentIndex := 0 } w

/-- The MIDI device name the constructor resolves to (`midiDevName` after line
704) and the world it leaves (`constructMidi_spec`). -/
def resolveMidi (env : Env) (w : World) : QString × World :=
  resolveDevName "mididev" env.midiClientName
    { items := ifaceLabels env.tr (midiIfaceSetupWidgets env.build env.midi),
      currentIndex := 0 } w

/-! ### The interface-changed slots -/

/-- The loop `it.value()->hide()` over a whole registry. -/
def hideAll (widgets : QMap SetupWidget) : QMap SetupWidget :=
  widgets.map fun e => (e.1, e.2.hide)

/-- Slot `audioInterfaceChanged( _iface )`, lines 1298-1307. -/
def SetupDialog.audioInterfaceChanged (d : SetupDialog) (_iface : QString) :
    Option SetupDialog :=
  let widgets := hideAll d.m_audioIfaceSetupWidgets
  let r := QMap.index "" _iface d.m_audioIfaceNames
  match derefShow widgets r.1 with
  | none => none
  | some widgets =>
    some { d with m_audioIfaceSetupWidgets := widgets, m_audioIfaceNames := r.2 }

/-- Slot `midiInterfaceChanged( _iface )`, lines 1312-1321. -/
def SetupDialog.midiInterfaceChanged (d : SetupDialog) (_iface : QString) :
    Option SetupDialog :=
  let widgets := hideAll d.m_midiIfaceSetupWidgets
  let r := QMap.index "" _iface d.m_midiIfaceNames
  match derefShow widgets r.1 with
  | none => none
  | some widgets =>
    some { d with m_midiIfaceSetupWidgets := widgets, m_midiIfaceNames := r.2 }

/-- The user picks item `i` of the audio combo box: the item becomes current
and the signal `activated( text )` runs the slot connected at line 613. -/
def SetupDialog.activatedAudio (d : SetupDialog) (i : Nat) : Option SetupDialog :=
  if i < d.m_audioInterfaces.items.length then
    SetupDialog.audioInterfaceChanged
      { d with m_audioInterfaces := d.m_audioInterfaces.setCurrentIndex i }
      (d.m_audioInterfaces.items.getD i "")
  else some d

/-- The user picks item `i` of the MIDI combo box (connection at line 709). -/
def SetupDialog.activatedMidi (d : SetupDialog) (i : Nat) : Option SetupDialog :=
  if i < d.m_midiInterfaces.items.length then
    SetupDialog.midiInterfaceChanged
      { d with m_midiInterfaces := d.m_midiInterfaces.setCurrentIndex i }
      (d.m_midiInterfaces.items.getD i "")
  else some d

/-- The keys of the widgets of a registry that are not hidden. -/
def shownWidgets (widgets : QMap SetupWidget) : List QString :=
  QMap.keys (widgets.filter fun e => !e.2.hidden)

/-- The audio backend the combo box selects: the name the current text stands
for in `m_audioIfaceNames`, none when the current text is no key of it. -/
def SetupDialog.selectedAudio (d : SetupDialog) : Option QString :=
  QMap.find d.m_audioInterfaces.currentText d.m_audioIfaceNames

/-- The MIDI backend the combo box selects. -/
def SetupDialog.selectedMidi (d : SetupDialog) : Option QString :=
  QMap.find d.m_midiInterfaces.currentText d.m_midiIfaceNames

/-! ### accept -/

/-- The text `QString::number( b )` of a `bool`. -/
def numberOfBool (b : Bool) : QString := if b then "1" else "0"

/-- The text `QString::number( n )` of an `int`. -/
def numberOfInt (n : Int) : QString := toString n

/-- The loops of lines 861-872 of `accept()`: `it.value()->saveSettings()` over a registry in
key order. What a widget writes is outside the file; the call is recorded. -/
def saveAll (mk : QString → Call) : QMap SetupWidget → World → World
  | [], w => w
  | (name, _) :: rest, w => saveAll mk rest (w.call (mk name))

/-- The slot `SetupDialog::accept()`, lines 784-875. -/
def SetupDialog.accept (env : Env) (w : World) (d : SetupDialog) : World × SetupDialog :=
  let w := if d.m_warnAfterSetup then w.call Call.information else w
  let w := w.call Call.dialogAccept
  let w := w.setValue "mixer" "framesperaudiobuffer" (numberOfInt d.m_bufferSize)
  let audio := QMap.index "" d.m_audioInterfaces.currentText d.m_audioIfaceNames
  let w := w.setValue "mixer" "audiodev" audio.1
  let midi := QMap.index "" d.m_midiInterfaces.currentText d.m_midiIfaceNames
  let w := w.setValue "mixer" "mididev" midi.1
  let w := w.setValue "tooltips" "disabled" (numberOfBool (!d.m_toolTips))
  let w := w.setValue "app" "nomsgaftersetup" (numberOfBool (!d.m_warnAfterSetup))
  let w := w.setValue "app" "displaydbfs" (numberOfBool d.m_displaydBFS)
  let w := w.setValue "app" "nommpz" (numberOfBool (!d.m_MMPZ))
  let w := w.setValue "app" "disablebackup" (numberOfBool (!d.m_disableBackup))
  let w := w.setValue "app" "openlastproject" (numberOfBool d.m_openLastProject)
  let w := w.setValue "mixer" "hqaudio" (numberOfBool d.m_hqAudioDev)
  let w := w.setValue "ui" "smoothscroll" (numberOfBool d.m_smoothScroll)
  let w := w.setValue "ui" "enableautosave" (numberOfBool d.m_enableAutoSave)
  let w := w.setValue "ui" "saveinterval" (numberOfInt d.m_saveInterval)
  let w := w.setValue "ui" "enablerunningautosave" (numberOfBool d.m_enableRunningAutoSave)
  let w := w.setValue "ui" "oneinstrumenttrackwindow"
    (numberOfBool d.m_oneInstrumentTrackWindow)
  let w := w.setValue "ui" "compacttrackbuttons" (numberOfBool d.m_compactTrackButtons)
  let w := w.setValue "ui" "syncvstplugins" (numberOfBool d.m_syncVSTPlugins)
  let w := w.setValue "ui" "animateafp" (numberOfBool d.m_animateAFP)
  let w := w.setValue "ui" "printnotelabels" (numberOfBool d.m_printNoteLabels)
  let w := w.setValue "ui" "displaywaveform" (numberOfBool d.m_displayWaveform)
  let w := w.setValue "ui" "disableautoquit" (numberOfBool d.m_disableAutoQuit)
  let w := w.setValue "app" "language" d.m_lang
  let w := w.setValue "ui" "vstembedmethod" d.vstEmbedCurrentData
  let w := w.call (Call.setWorkingDir (env.fromNativeSeparators d.m_workingDir))
  let w := w.call (Call.setVSTDir (env.fromNativeSeparators d.m_vstDir))
  let w := w.call (Call.setGIGDir (env.fromNativeSeparators d.m_gigDir))
  let w := w.call (Call.setSF2Dir (env.fromNativeSeparators d.m_sf2Dir))
  let w := w.call (Call.setArtworkDir (env.fromNativeSeparators d.m_artworkDir))
  let w := w.call (Call.setLADSPADir (env.fromNativeSeparators d.m_ladDir))
  let w := if env.build.LMMS_HAVE_FLUIDSYNTH then
      w.call (Call.setDefaultSoundfont d.m_defaultSoundfont)
    else w
  let w := if env.build.LMMS_HAVE_STK then
      w.call (Call.setSTKDir (env.fromNativeSeparators d.m_stkDir))
    else w
  let w := w.call (Call.setBackgroundArtwork d.m_backgroundArtwork)
  let w := saveAll Call.audioSaveSettings d.m_audioIfaceSetupWidgets w
  let w := saveAll Call.midiSaveSettings d.m_midiIfaceSetupWidgets w
  let w := w.call Call.saveConfigFile
  (w, { d with m_audioIfaceNames := audio.2, m_midiIfaceNames := midi.2 })

/-- Whether a call is a `saveSettings()` of a setup widget. -/
def Call.isSaveSettings : Call → Bool
  | Call.audioSaveSettings _ => true
  | Call.midiSaveSettings _ => true
  | _ => false

/-! ### The file and directory pickers -/

/-- The modal pickers `FileDialog::getExistingDirectory( this, caption, dir )`
and `FileDialog::getOpenFileName( this, caption, dir, filter )`: the path the
user chose, empty on cancel. -/
structure FileDialog where
  getExistingDirectory : QString → QString → QString
  getOpenFileName : QString → QString → QString → QString

/-- Slot `setWorkingDir`, lines 1091-1094. -/
def SetupDialog.setWorkingDir (d : SetupDialog) (_wd : QString) : SetupDialog :=
  { d with m_workingDir := _wd }

/-- Slot `setVSTDir`, lines 1113-1116. -/
def SetupDialog.setVSTDir (d : SetupDialog) (_vd : QString) : SetupDialog :=
  { d with m_vstDir := _vd }

/-- Slot `setGIGDir`, lines 1118-1121. -/
def SetupDialog.setGIGDir (d : SetupDialog) (_gd : QString) : SetupDialog :=
  { d with m_gigDir := _gd }

/-- Slot `setSF2Dir`, lines 1123-1126. -/
def SetupDialog.setSF2Dir (d : SetupDialog) (_sfd : QString) : SetupDialog :=
  { d with m_sf2Dir := _sfd }

/-- Slot `setArtworkDir`, lines 1145-1148. -/
def SetupDialog.setArtworkDir (d : SetupDialog) (_ad : QString) : SetupDialog :=
  { d with m_artworkDir := _ad }

/-- Slot `setLADSPADir`, lines 1239-1242. -/
def SetupDialog.setLADSPADir (d : SetupDialog) (_fd : QString) : SetupDialog :=
  { d with m_ladDir := _fd }

/-- Slot `setSTKDir`, lines 1247-1252; its body is compiled under `LMMS_HAVE_STK`. -/
def SetupDialog.setSTKDir (b : BuildConfig) (d : SetupDialog) (_fd : QString) : SetupDialog :=
  if b.LMMS_HAVE_STK then { d with m_stkDir := _fd } else d

/-- Slot `setDefaultSoundfont`, lines 1257-1262; its body is compiled under
`LMMS_HAVE_FLUIDSYNTH`. -/
def SetupDialog.setDefaultSoundfont (b : BuildConfig) (d : SetupDialog) (_sf : QString) :
    SetupDialog :=
  if b.LMMS_HAVE_FLUIDSYNTH then { d with m_defaultSoundfont := _sf } else d

/-- Slot `setBackgroundArtwork`, lines 1267-1270. -/
def SetupDialog.setBackgroundArtwork (d : SetupDialog) (_ba : QString) : SetupDialog :=
  { d with m_backgroundArtwork := _ba }

/-- The call `edit->setText( text )` on a line edit whose `textChanged` signal is
connected to `slot` (lines 370-371): the signal is emitted when the text
differs from the one shown. `put` stores the new text in the dialog. -/
def setTextOf (old : QLineEdit) (put : QLineEdit → SetupDialog)
    (slot : SetupDialog → QString → SetupDialog) (text : QString) (d : SetupDialog) :
    SetupDialog :=
  if old.text = text then d else slot (put { text := text }) text

/-- Slot `openWorkingDir`, lines 1056-1064. -/
def SetupDialog.openWorkingDir (tr : QString → QString) (fd : FileDialog)
    (d : SetupDialog) : SetupDialog :=
  let new_dir := fd.getExistingDirectory (tr "Choose LMMS working directory") d.m_workingDir
  if !new_dir.isEmpty then
    setTextOf d.m_wdLineEdit (fun e => { d with m_wdLineEdit := e })
      SetupDialog.setWorkingDir new_dir d
  else d

/-- Slot `openGIGDir`, lines 1066-1075. -/
def SetupDialog.openGIGDir (tr : QString → QString) (fd : FileDialog)
    (d : SetupDialog) : SetupDialog :=
  let new_dir := fd.getExistingDirectory (tr "Choose your GIG directory") d.m_gigDir
  if !new_dir.isEmpty then
    setTextOf d.m_gigLineEdit (fun e => { d with m_gigLineEdit := e })
      SetupDialog.setGIGDir new_dir d
  else d

/-- Slot `openSF2Dir`, lines 1077-1086. -/
def SetupDialog.openSF2Dir (tr : QString → QString) (fd : FileDialog)
    (d : SetupDialog) : SetupDialog :=
  let new_dir := fd.getExistingDirectory (tr "Choose your SF2 directory") d.m_sf2Dir
  if !new_dir.isEmpty then
    setTextOf d.m_sf2LineEdit (fun e => { d with m_sf2LineEdit := e })
      SetupDialog.setSF2Dir new_dir d
  else d

/-- Slot `openVSTDir`, lines 1099-1108. -/
def SetupDialog.openVSTDir (tr : QString → QString) (fd : FileDialog)
    (d : SetupDialog) : SetupDialog :=
  let new_dir := fd.getExistingDirectory (tr "Choose your VST-plugin directory") d.m_vstDir
  if !new_dir.isEmpty then
    setTextOf d.m_vdLineEdit (fun e => { d with m_vdLineEdit := e })
      SetupDialog.setVSTDir new_dir d
  else d

/-- Slot `openArtworkDir`, lines 1131-1140. -/
def SetupDialog.openArtworkDir (tr : QString → QString) (fd : FileDialog)
    (d : SetupDialog) : SetupDialog :=
  let new_dir := fd.getExistingDirectory (tr "Choose artwork-theme directory") d.m_artworkDir
  if !new_dir.isEmpty then
    setTextOf d.m_adLineEdit (fun e => { d with m_adLineEdit := e })
      SetupDialog.setArtworkDir new_dir d
  else d

/-- Slot `openLADSPADir`, lines 1153-1170: a chosen directory is appended to a
non-empty list after a comma. -/
def SetupDialog.openLADSPADir (tr : QString → QString) (fd : FileDialog)
    (d : SetupDialog) : SetupDialog :=
  let new_dir := fd.getExistingDirectory (tr "Choose LADSPA plugin directory") d.m_ladDir
  if !new_dir.isEmpty then
    if d.m_ladLineEdit.text = "" then
      setTextOf d.m_ladLineEdit (fun e => { d with m_ladLineEdit := e })
        SetupDialog.setLADSPADir new_dir d
    else
      setTextOf d.m_ladLineEdit (fun e => { d with m_ladLineEdit := e })
        SetupDialog.setLADSPADir (d.m_ladLineEdit.text ++ "," ++ new_dir) d
  else d

/-- Slot `openSTKDir`, lines 1174-1185; its body is compiled under `LMMS_HAVE_STK`. -/
def SetupDialog.openSTKDir (b : BuildConfig) (tr : QString → QString) (fd : FileDialog)
    (d : SetupDialog) : SetupDialog :=
  if b.LMMS_HAVE_STK then
    let new_dir := fd.getExistingDirectory (tr "Choose STK rawwave directory") d.m_stkDir
    if !new_dir.isEmpty then
      setTextOf d.m_stkLineEdit (fun e => { d with m_stkLineEdit := e })
        (SetupDialog.setSTKDir b) new_dir d
    else d
  else d

/-- Slot `openDefaultSoundfont`, lines 1190-1202; its body is compiled under
`LMMS_HAVE_FLUIDSYNTH`. -/
def SetupDialog.openDefaultSoundfont (b : BuildConfig) (tr : QString → QString)
    (fd : FileDialog) (d : SetupDialog) : SetupDialog :=
  if b.LMMS_HAVE_FLUIDSYNTH then
    let new_file := fd.getOpenFileName (tr "Choose default SoundFont") d.m_defaultSoundfont
      "SoundFont2 Files (*.sf2)"
    if !new_file.isEmpty then
      setTextOf d.m_sfLineEdit (fun e => { d with m_sfLineEdit := e })
        (SetupDialog.setDefaultSoundfont b) new_file d
    else d
  else d

/-- The loop of lines 1209-1221 over `QImageReader::supportedImageFormats()`:
the formats that are not all upper case, as `*.fmt` separated by blanks. -/
def imageFileTypes : List QString → QString → QString
  | [], fileTypes => fileTypes
  | fmt :: rest, fileTypes =>
    if fmt ≠ fmt.toUpper then
      let fileTypes := if !fileTypes.isEmpty then fileTypes ++ " " else fileTypes
      imageFileTypes rest (fileTypes ++ ("*." ++ fmt))
    else imageFileTypes rest fileTypes

/-- Slot `openBackgroundArtwork`, lines 1207-1234. -/
def SetupDialog.openBackgroundArtwork (supportedImageFormats : List QString)
    (tr : QString → QString) (fd : FileDialog) (d : SetupDialog) : SetupDialog :=
  let fileTypes := imageFileTypes supportedImageFormats ""
  let dir := if d.m_backgroundArtwork.isEmpty then d.m_artworkDir else d.m_backgroundArtwork
  let new_file := fd.getOpenFileName (tr "Choose background artwork") dir
    ("Image Files (" ++ fileTypes ++ ")")
  if !new_file.isEmpty then
    setTextOf d.m_baLineEdit (fun e => { d with m_baLineEdit := e })
      SetupDialog.setBackgroundArtwork new_file d
  else d

/-! ### Sample inputs -/

/-- The audio backend names of the upstream headers. -/
def upstreamAudio : AudioNames :=
  { AudioJack := "JACK (JACK Audio Connection Kit)",
    AudioAlsa := "ALSA (Advanced Linux Sound Architecture)",
    AudioPulseAudio := "PulseAudio",
    AudioPortAudio := "PortAudio",
    AudioSoundIo := "soundio",
    AudioSdl := "SDL (Simple DirectMedia Layer)",
    AudioOss := "OSS (Open Sound System)",
    AudioSndio := "sndio",
    AudioDummy := "Dummy (no sound output)" }

/-- The MIDI backend names of the upstream headers. -/
def upstreamMidi : MidiNames :=
  { MidiAlsaSeq := "ALSA-Sequencer (Advanced Linux Sound Architecture)",
    MidiAlsaRaw := "ALSA Raw-MIDI (Advanced Linux Sound Architecture)",
    MidiJack := "Jack-MIDI",
    MidiOss := "OSS Raw-MIDI (Open Sound System)",
    MidiSndio := "sndio MIDI",
    MidiWinMM := "WinMM MIDI",
    MidiApple := "Apple MIDI",
    MidiDummy := "Dummy (no MIDI support)" }

/-- A build with ALSA and SDL and without JACK. -/
def alsaBuild : BuildConfig :=
  { LMMS_HAVE_JACK := false, LMMS_HAVE_ALSA := true, LMMS_HAVE_PULSEAUDIO := false,
    LMMS_HAVE_PORTAUDIO := false, LMMS_HAVE_SOUNDIO := false, LMMS_HAVE_SDL := true,
    LMMS_HAVE_OSS := false, LMMS_HAVE_SNDIO := false, LMMS_BUILD_WIN32 := false,
    LMMS_BUILD_APPLE := false, LMMS_HAVE_STK := true, LMMS_HAVE_FLUIDSYNTH := true }

/-- The ALSA build with untranslated backend names and an engine that runs the
ALSA audio device and the ALSA sequencer. -/
def alsaEnv : Env :=
  { build := alsaBuild, audio := upstreamAudio, midi := upstreamMidi,
    tr := fun s => s,
    audioDevName := "ALSA (Advanced Linux Sound Architecture)",
    midiClientName := "ALSA-Sequencer (Advanced Linux Sound Architecture)",
    fromNativeSeparators := fun s => s }

/-- A translation that renders every backend name differently. -/
def trDe (s : QString) : QString := s ++ " [de]"

/-- The ALSA build with every backend name offered in translation. -/
def alsaEnvDe : Env := { alsaEnv with tr := trDe }

/-- A translation that offers the ALSA audio device under the name of the JACK
device and leaves every other name as it is. -/
def trJackForAlsa (s : QString) : QString :=
  if s = "ALSA (Advanced Linux Sound Architecture)" then "JACK (JACK Audio Connection Kit)"
  else s

/-- A settings store with the given device preferences. -/
def worldWith (audiodev mididev : QString) : World :=
  { settings := [(("mixer", "audiodev"), audiodev), (("mixer", "mididev"), mididev)],
    calls := [] }

/-- A dialog before its pages are built: empty members. -/
def SetupDialog.blank : SetupDialog :=
  { m_bufferSize := 256, m_toolTips := true, m_warnAfterSetup := true,
    m_displaydBFS := false, m_MMPZ := true, m_disableBackup := true,
    m_openLastProject := false, m_hqAudioDev := false, m_lang := "en",
    m_languages := [], m_workingDir := "", m_vstDir := "", m_artworkDir := "",
    m_ladDir := "", m_gigDir := "", m_sf2Dir := "", m_defaultSoundfont := "",
    m_stkDir := "", m_backgroundArtwork := "", m_smoothScroll := false,
    m_enableAutoSave := true, m_enableRunningAutoSave := false, m_saveInterval := 2,
    m_oneInstrumentTrackWindow := false, m_compactTrackButtons := false,
    m_syncVSTPlugins := false, m_animateAFP := true, m_printNoteLabels := false,
    m_displayWaveform := false, m_disableAutoQuit := false, m_vstEmbedMethod := "none",
    vstEmbedCurrentData := "none",
    m_bufSizeSlider := { minimum := 1, maximum := 128, value := 8, enabled := true },
    m_bufSizeLbl := "", m_wdLineEdit := { text := "" }, m_gigLineEdit := { text := "" },
    m_sf2LineEdit := { text := "" }, m_vdLineEdit := { text := "" },
    m_ladLineEdit := { text := "" }, m_stkLineEdit := { text := "" },
    m_sfLineEdit := { text := "" }, m_adLineEdit := { text := "" },
    m_baLineEdit := { text := "" },
    m_saveIntervalSlider := { minimum := 1, maximum := 20, value := 2, enabled := true },
    m_saveIntervalLbl := "", m_autoSave := { checked := true, visible := true },
    m_runningAutoSave := { checked := false, visible := true },
    m_audioInterfaces := QComboBox.new, m_audioIfaceSetupWidgets := [],
    m_audioIfaceNames := [], m_midiInterfaces := QComboBox.new,
    m_midiIfaceSetupWidgets := [], m_midiIfaceNames := [] }

/-- The keys of a map are strictly increasing. -/
def QMap.Ordered {V : Type} (m : QMap V) : Prop :=
  List.Pairwise (fun a b => QString.lt a b = true) (QMap.keys m)

/-- The calls of `w₁` are those of `w` followed by calls that are neither a
`saveSettings()` of a setup widget nor `saveConfigFile()`. -/
def CallsExtend (w w₁ : World) : Prop :=
  ∃ pre, w₁.calls = w.calls ++ pre ∧
    ∀ c ∈ pre, Call.isSaveSettings c = false ∧ c ≠ Call.saveConfigFile

/-- A picker that is cancelled whatever it is asked. -/
def cancelled : FileDialog :=
  { getExistingDirectory := fun _ _ => "", getOpenFileName := fun _ _ _ => "" }

/-- A dialog with paths entered in its line edits. -/
def SetupDialog.withPaths : SetupDialog :=
  { SetupDialog.blank with
    m_workingDir := "/home/u/lmms", m_wdLineEdit := { text := "/home/u/lmms" },
    m_ladDir := "/usr/lib/ladspa", m_ladLineEdit := { text := "/usr/lib/ladspa" },
    m_backgroundArtwork := "", m_artworkDir := "/usr/share/lmms/themes/default",
    m_adLineEdit := { text := "/usr/share/lmms/themes/default" } }

/-! ### The buffer size -/

/-- The constant `BUFFERSIZE_RESOLUTION`, line 69. -/
def BUFFERSIZE_RESOLUTION : Int := 32

/-- The call `setValue( v )` on a slider (`QAbstractSlider::setValue`): the value
is bounded to the range; when it differs from the current one it is stored and
`valueChanged` is emitted with it. The result is the slider and the value
emitted, if any. -/
def QSlider.setValue (s : QSlider) (v : Int) : QSlider × Option Int :=
  let bounded := max s.minimum (min s.maximum v)
  if s.value = bounded then (s, none) else ({ s with value := bounded }, some bounded)

/-- Slot `setBufferSize( _value )`, lines 880-908. `DEFAULT_BUFFER_SIZE` is
declared outside the file; `bufSizeText` is the label text for a buffer size
(frames, and latency at the engine's sample rate). The slider's `valueChanged`
signal is connected to this slot (line 188), so `m_bufSizeSlider->setValue`
invokes it again when the value changes; the first argument bounds the depth of
nested invocations, and `none` is returned when it is used up. The test
`_value % step` with `step` zero is undefined: `none`. -/
def SetupDialog.setBufferSize (DEFAULT_BUFFER_SIZE : Int) (bufSizeText : Int → QString) :
    Nat → SetupDialog → Int → Option SetupDialog
  | 0 => fun _ _ => none
  | fuel + 1 => fun d _value =>
    let step := DEFAULT_BUFFER_SIZE.tdiv BUFFERSIZE_RESOLUTION
    let setSlider := fun (d : SetupDialog) (v : Int) =>
      let r := d.m_bufSizeSlider.setValue v
      match r.2 with
      | none => some { d with m_bufSizeSlider := r.1 }
      | some emitted =>
        SetupDialog.setBufferSize DEFAULT_BUFFER_SIZE bufSizeText fuel
          { d with m_bufSizeSlider := r.1 } emitted
    let tail := fun (d : SetupDialog) =>
      match (if d.m_bufSizeSlider.value ≠ _value then setSlider d _value else some d) with
      | none => none
      | some d =>
        some { d with m_bufferSize := _value * BUFFERSIZE_RESOLUTION,
                      m_bufSizeLbl := bufSizeText (_value * BUFFERSIZE_RESOLUTION) }
    if _value > step then
      if step = 0 then none
      else if _value.tmod step ≠ 0 then
        let mod_value := _value.tmod step
        if mod_value < step.tdiv 2 then setSlider d (_value - mod_value)
        else setSlider d (_value + step - mod_value)
      else tail d
    else tail d

/-- Slot `resetBufSize()`, lines 913-916. -/
def SetupDialog.resetBufSize (DEFAULT_BUFFER_SIZE : Int) (bufSizeText : Int → QString)
    (fuel : Nat) (d : SetupDialog) : Option SetupDialog :=
  SetupDialog.setBufferSize DEFAULT_BUFFER_SIZE bufSizeText fuel d
    (DEFAULT_BUFFER_SIZE.tdiv BUFFERSIZE_RESOLUTION)

/-- Constructor, lines 87-88 and 180-193: `m_bufferSize` is read from the
configuration with `toInt()`, the slider is created with the range 1..128 and
set to `m_bufferSize / BUFFERSIZE_RESOLUTION` before its signal is connected,
then `setBufferSize( m_bufSizeSlider->value() )` is called. -/
def SetupDialog.constructBufferSize (DEFAULT_BUFFER_SIZE : Int)
    (bufSizeText : Int → QString) (toInt : QString → Int) (fuel : Nat) (w : World)
    (d : SetupDialog) : Option SetupDialog :=
  let d := { d with m_bufferSize := toInt (w.value "mixer" "framesperaudiobuffer") }
  let slider : QSlider := { minimum := 1, maximum := 128, value := 1, enabled := true }
  let slider := (slider.setValue (d.m_bufferSize.tdiv BUFFERSIZE_RESOLUTION)).1
  let d := { d with m_bufSizeSlider := slider }
  SetupDialog.setBufferSize DEFAULT_BUFFER_SIZE bufSizeText fuel d d.m_bufSizeSlider.value

/-- A label text for a buffer size, for sample inputs. -/
def framesText (n : Int) : QString := "Frames: " ++ numberOfInt n

/-- The slider value the dialog settles on for a slider value `v` with step 8:
`v` itself up to 8 and on multiples of 8, else the nearest multiple of 8. -/
def settledValue (v : Int) : Int :=
  if v ≤ 8 ∨ v % 8 = 0 then v else if v % 8 < 4 then v - v % 8 else v + 8 - v % 8

/-! ### What accept writes -/

/-- The world `w₁` is `w` after the writes `l` (section and key, value) were
made with `setValue`, in order, and possibly other calls: its settings are
those of `w` with the writes applied, and each write is among its calls. -/
def WritesAfter (w w₁ : World) (l : List ((QString × QString) × QString)) : Prop :=
  w₁.settings = l.foldl (fun s e => upsert e.1 e.2 s) w.settings ∧
  ∀ e ∈ l, Call.setValue e.1.1 e.1.2 e.2 ∈ w₁.calls

/-! ### The auto-save page -/

/-- Replaces the place markers `%1` and `%2` of a text by `a` and `b` in one
pass from left to right. -/
def replaceMarkers (a b : List Char) : List Char → List Char
  | [] => []
  | '%' :: '1' :: rest => a ++ replaceMarkers a b rest
  | '%' :: '2' :: rest => b ++ replaceMarkers a b rest
  | c :: rest => c :: replaceMarkers a b rest

/-- The call `s.arg( a )` of `QString` on a text whose place marker is `%1`:
every `%1` is replaced by `a`. -/
def QString.arg (s a : QString) : QString :=
  String.mk (replaceMarkers a.toList ['%', '2'] s.toList)

/-- The call `s.arg( a, b )` of `QString` on a text with the place markers `%1`
and `%2`: replaced by `a` and `b` in one pass. -/
def QString.arg2 (s a b : QString) : QString :=
  String.mk (replaceMarkers a.toList b.toList s.toList)

/-- The call `setChecked( state )` on a check box: when the state changes it is
stored and `toggled` is emitted with it. The result is the box and the value
emitted, if any. -/
def LedCheckBox.setChecked (b : LedCheckBox) (state : Bool) : LedCheckBox × Option Bool :=
  if b.checked = state then (b, none) else ({ b with checked := state }, some state)

/-- Slot `setAutoSaveInterval( value )`, lines 1275-1283. The slider's
`valueChanged` signal is connected to this slot (line 456), so
`m_saveIntervalSlider->setValue` invokes it again when the value changes; the
first argument bounds the depth of nested invocations, and `none` is returned
when it is used up. The label is built from the members as they are after the
nested invocation. -/
def SetupDialog.setAutoSaveInterval (tr : QString → QString) :
    Nat → SetupDialog → Int → Option SetupDialog
  | 0 => fun _ _ => none
  | fuel + 1 => fun d value =>
    let d := { d with m_saveInterval := value }
    let r := d.m_saveIntervalSlider.setValue d.m_saveInterval
    let d := { d with m_saveIntervalSlider := r.1 }
    match (match r.2 with
      | none => some d
      | some emitted => SetupDialog.setAutoSaveInterval tr fuel d emitted) with
    | none => none
    | some d =>
      let minutes := if d.m_saveInterval > 1 then tr "minutes" else tr "minute"
      let minutes := QString.arg2 "%1 %2" (numberOfInt d.m_saveInterval) minutes
      let minutes := if d.m_enableAutoSave then minutes else tr "Disabled"
      some { d with m_saveIntervalLbl := QString.arg (tr "Auto-save interval: %1") minutes }

/-- Slot `toggleAutoSave( _enabled )`, lines 985-991. -/
def SetupDialog.toggleAutoSave (tr : QString → QString) (fuel : Nat) (d : SetupDialog)
    (_enabled : Bool) : Option SetupDialog :=
  let d := { d with m_enableAutoSave := _enabled }
  let d := { d with m_saveIntervalSlider := { d.m_saveIntervalSlider with enabled := _enabled } }
  let d := { d with m_runningAutoSave := { d.m_runningAutoSave with visible := _enabled } }
  SetupDialog.setAutoSaveInterval tr fuel d d.m_saveIntervalSlider.value

/-- Slot `toggleRunningAutoSave( _enabled )`, lines 996-999. -/
def SetupDialog.toggleRunningAutoSave (d : SetupDialog) (_enabled : Bool) : SetupDialog :=
  { d with m_enableRunningAutoSave := _enabled }

/-- The call `m_autoSave->setChecked( state )` with `toggled` connected to
`toggleAutoSave` (line 467). -/
def SetupDialog.setAutoSaveChecked (tr : QString → QString) (fuel : Nat) (d : SetupDialog)
    (state : Bool) : Option SetupDialog :=
  let r := d.m_autoSave.setChecked state
  let d := { d with m_autoSave := r.1 }
  match r.2 with
  | none => some d
  | some emitted => SetupDialog.toggleAutoSave tr fuel d emitted

/-- The call `m_runningAutoSave->setChecked( state )` with `toggled` connected to
`toggleRunningAutoSave` (line 474). -/
def SetupDialog.setRunningAutoSaveChecked (d : SetupDialog) (state : Bool) : SetupDialog :=
  let r := d.m_runningAutoSave.setChecked state
  let d := { d with m_runningAutoSave := r.1 }
  match r.2 with
  | none => d
  | some emitted => d.toggleRunningAutoSave emitted

/-- Slot `resetAutoSave()`, lines 1288-1293.
`DEFAULT_SAVE_INTERVAL_MINUTES` is a constant of `MainWindow`, declared outside
the file. -/
def SetupDialog.resetAutoSave (DEFAULT_SAVE_INTERVAL_MINUTES : Int) (tr : QString → QString)
    (fuel : Nat) (d : SetupDialog) : Option SetupDialog :=
  match SetupDialog.setAutoSaveInterval tr fuel d DEFAULT_SAVE_INTERVAL_MINUTES with
  | none => none
  | some d =>
    match SetupDialog.setAutoSaveChecked tr fuel d true with
    | none => none
    | some d => some (d.setRunningAutoSaveChecked false)

/-- Constructor, lines 448-485: the auto-save page, from the members
`m_saveInterval`, `m_enableAutoSave` and `m_enableRunningAutoSave` as the
initialisers left them. The slider and the check boxes are new; a new slider is
at its minimum after `setRange`, a new check box is unchecked and visible. The
check boxes are set before their signals are connected. -/
def SetupDialog.constructAutoSave (tr : QString → QString) (fuel : Nat) (d : SetupDialog) :
    Option SetupDialog :=
  let slider : QSlider := { minimum := 1, maximum := 20, value := 1, enabled := true }
  let slider := (slider.setValue d.m_saveInterval).1
  let d := { d with m_saveIntervalSlider := slider, m_saveIntervalLbl := "" }
  match SetupDialog.setAutoSaveInterval tr fuel d d.m_saveIntervalSlider.value with
  | none => none
  | some d =>
    let box : LedCheckBox := { checked := false, visible := true }
    let d := { d with m_autoSave := (box.setChecked d.m_enableAutoSave).1 }
    let d := { d with m_runningAutoSave := (box.setChecked d.m_enableRunningAutoSave).1 }
    let d := { d with
      m_saveIntervalSlider := { d.m_saveIntervalSlider with enabled := d.m_enableAutoSave } }
    some { d with m_runningAutoSave := { d.m_runningAutoSave with visible := d.m_enableAutoSave } }

/-- The text of the interval label for an interval, with auto-save enabled or
not, as `setAutoSaveInterval` builds it (lines 1279-1282). -/
def saveIntervalText (tr : QString → QString) (enable : Bool) (interval : Int) : QString :=
  let minutes := if interval > 1 then tr "minutes" else tr "minute"
  let minutes := QString.arg2 "%1 %2" (numberOfInt interval) minutes
  let minutes := if enable then minutes else tr "Disabled"
  QString.arg (tr "Auto-save interval: %1") minutes

/-- The wiring of the auto-save page that the constructor establishes: the
slider ranges over 1..20 (line 449) and is enabled exactly when auto-save is
(lines 484 and 988), and the second check box is visible exactly then (lines 485
and 989). -/
def SetupDialog.AutoSaveWired (d : SetupDialog) : Prop :=
  d.m_saveIntervalSlider.minimum = 1 ∧ d.m_saveIntervalSlider.maximum = 20 ∧
  d.m_saveIntervalSlider.enabled = d.m_enableAutoSave ∧
  d.m_runningAutoSave.visible = d.m_enableAutoSave

instance (d : SetupDialog) : Decidable d.AutoSaveWired := by
  unfold SetupDialog.AutoSaveWired; infer_instance

/-- A sample dialog with auto-save switched off: the field and the first check
box are off, the slider is disabled at 7 minutes, the second check box is
checked and hidden. -/
def SetupDialog.autoSaveOff : SetupDialog :=
  { SetupDialog.blank with
    m_enableAutoSave := false, m_enableRunningAutoSave := true, m_saveInterval := 7,
    m_saveIntervalSlider := { minimum := 1, maximum := 20, value := 7, enabled := false },
    m_saveIntervalLbl := "Auto-save interval: Disabled",
    m_autoSave := { checked := false, visible := true },
    m_runningAutoSave := { checked := true, visible := false } }

/-! ### The language page -/

/-- The call `s.lastIndexOf( c )` of `QString`: the position of the last `c` in
`s`, or `-1` when there is none. -/
def QString.lastIndexOf (s : QString) (c : Char) : Int :=
  (s.toList.foldl
    (fun (acc : Int × Int) ch => (if ch = c then acc.2 else acc.1, acc.2 + 1)) (-1, 0)).1

/-- The call `s.truncate( position )` of `QString`: the text up to `position`; a
negative position counts as zero. -/
def QString.truncate (s : QString) (position : Int) : QString :=
  String.mk (s.toList.take position.toNat)

/-- The call `s.left( n )` of `QString`: the first `n` characters, the whole
text when it is shorter. -/
def QString.left (s : QString) (n : Nat) : QString := String.mk (s.toList.take n)

/-- The signal of `setCurrentIndex( index )` on a combo box: the index that
`currentIndexChanged` is emitted with, if the current index changes. -/
def QComboBox.currentIndexChanged (c : QComboBox) (index : Int) : Option Int :=
  if (c.setCurrentIndex index).currentIndex = c.currentIndex then none
  else some (c.setCurrentIndex index).currentIndex

/-- Slot `setLanguage( lang )`, lines 1047-1050: `m_languages[lang]` outside the
list is undefined, `none`. -/
def SetupDialog.setLanguage (d : SetupDialog) (lang : Int) : Option SetupDialog :=
  if 0 ≤ lang then
    match d.m_languages.get? lang.toNat with
    | some l => some { d with m_lang := l }
    | none => none
  else none

/-- Constructor, lines 303-310: the loop that makes the configured language the
current item of the combo box, from index `i` with `n` items left. The signal
`currentIndexChanged` is connected to `setLanguage` (line 286) by then. -/
def SetupDialog.selectLang : Nat → Nat → SetupDialog → QComboBox →
    Option (SetupDialog × QComboBox)
  | 0, _, d, changeLang => some (d, changeLang)
  | n + 1, i, d, changeLang =>
    match d.m_languages.get? i with
    | none => none
    | some l =>
      if d.m_lang = l then
        match changeLang.currentIndexChanged i with
        | none => some (d, changeLang.setCurrentIndex i)
        | some emitted =>
          match d.setLanguage emitted with
          | none => none
          | some d => some (d, changeLang.setCurrentIndex i)
      else SetupDialog.selectLang n (i + 1) d changeLang

/-- Constructor, lines 278-285: the loop over the locale files. The name is cut
at its last dot and appended to `m_languages`; the native name of
`m_languages.last()` becomes an item of the combo box. -/
def SetupDialog.addLanguages (nativeLanguageName : QString → QString) :
    List QString → SetupDialog × QComboBox → SetupDialog × QComboBox
  | [], acc => acc
  | fileName :: rest, acc =>
    let fileName := QString.truncate fileName (QString.lastIndexOf fileName '.')
    let d := { acc.1 with m_languages := acc.1.m_languages ++ [fileName] }
    let lang := nativeLanguageName (d.m_languages.getLastD "")
    SetupDialog.addLanguages nativeLanguageName rest (d, acc.2.addItem lang)

/-- Constructor, lines 289-301: the fallback when the language is unset. -/
def SetupDialog.fallbackLanguage (systemLocaleName : QString) (d : SetupDialog) :
    SetupDialog :=
  if d.m_lang = "" then
    let tmp := QString.left systemLocaleName 2
    if d.m_languages.contains tmp then { d with m_lang := tmp } else { d with m_lang := "en" }
  else d

/-- Constructor, initialiser lines 105-106 and lines 276-310: the language page.
`fileNames` is what `dir.entryList( "*.qm" )` gives for the locale directory,
`nativeLanguageName` the native name `QLocale` has for a locale name,
`systemLocaleName` is `QLocale::system().name()`. `m_languages` starts empty;
the items are added before the signal is connected. The result is the dialog
and the combo box `changeLang`. -/
def SetupDialog.constructLanguage (fileNames : List QString)
    (nativeLanguageName : QString → QString) (systemLocaleName : QString)
    (w : World) (d : SetupDialog) : Option (SetupDialog × QComboBox) :=
  let d := { d with m_lang := w.value "app" "language", m_languages := [] }
  let r := SetupDialog.addLanguages nativeLanguageName fileNames (d, QComboBox.new)
  let changeLang := r.2
  let d := SetupDialog.fallbackLanguage systemLocaleName r.1
  SetupDialog.selectLang changeLang.items.length 0 d changeLang

/-- Sample locale files. -/
def sampleLocaleFiles : List QString := ["de.qm", "en.qm", "fr.qm", "pt_br.qm"]

/-- Sample native language names. -/
def sampleNativeName (l : QString) : QString :=
  if l = "de" then "Deutsch" else if l = "fr" then "français" else
    if l = "en" then "English" else l

/-- A world whose stored language is `lang`. -/
def worldWithLanguage (lang : QString) : World :=
  { settings := [(("app", "language"), lang)], calls := [] }

/-! # Theorems -/

/-! ## The key order -/

theorem charToNat_inj {a b : Char} (h : a.toNat = b.toNat) : a = b := by
  apply Char.eq_of_val_eq
  apply UInt32.ext
  exact h

theorem lexLt_irrefl (a : List Char) : lexLt a a = false := by
  induction a with
  | nil => rfl
  | cons x xs ih => simp [lexLt, ih]

theorem lexLt_trans : ∀ (a b c : List Char), lexLt a b = true → lexLt b c = true →
    lexLt a c = true
  | [], [], _, h, _ => by simp [lexLt] at h
  | [], _ :: _, [], _, h => by simp [lexLt] at h
  | [], _ :: _, _ :: _, _, _ => by simp [lexLt]
  | _ :: _, [], _, h, _ => by simp [lexLt] at h
  | _ :: _, _ :: _, [], _, h => by simp [lexLt] at h
  | x :: xs, y :: ys, z :: zs, h₁, h₂ => by
    simp only [lexLt] at h₁ h₂ ⊢
    split at h₁
    · split at h₂
      · have : x.toNat < z.toNat := by omega
        simp [this]
      · split at h₂
        · simp at h₂
        · have : x.toNat < z.toNat := by omega
          simp [this]
    · split at h₁
      · simp at h₁
      · split at h₂
        · have : x.toNat < z.toNat := by omega
          simp [this]
        · split at h₂
          · simp at h₂
          · have h3 : ¬ x.toNat < z.toNat := by omega
            have h4 : ¬ z.toNat < x.toNat := by omega
            simp only [h3, h4, if_false]
            exact lexLt_trans xs ys zs h₁ h₂

theorem lexLt_total : ∀ (a b : List Char), lexLt a b = false → a ≠ b → lexLt b a = true
  | [], [], _, h => absurd rfl h
  | [], _ :: _, h, _ => by simp [lexLt] at h
  | _ :: _, [], _, _ => by simp [lexLt]
  | x :: xs, y :: ys, h₁, h₂ => by
    simp only [lexLt] at h₁ ⊢
    split at h₁
    · simp at h₁
    · split at h₁
      · rename_i h3 h4
        simp [h4]
      · rename_i h3 h4
        simp only [h3, h4, if_false]
        have hxy : x = y := charToNat_inj (by omega)
        apply lexLt_total xs ys h₁
        intro hxs
        exact h₂ (by rw [hxy, hxs])

theorem QString.lt_irrefl (a : QString) : QString.lt a a = false := lexLt_irrefl _

theorem QString.lt_trans {a b c : QString} (h₁ : QString.lt a b = true)
    (h₂ : QString.lt b c = true) : QString.lt a c = true :=
  lexLt_trans _ _ _ h₁ h₂

theorem QString.lt_total {a b : QString} (h₁ : QString.lt a b = false) (h₂ : a ≠ b) :
    QString.lt b a = true :=
  lexLt_total _ _ h₁ (fun h => h₂ (String.toList_inj.mp h))

theorem QMap.mem_keys_insert {V : Type} (k : QString) (v : V) (x : QString) :
    ∀ m : QMap V, x ∈ QMap.keys (QMap.insert k v m) ↔ x = k ∨ x ∈ QMap.keys m
  | [] => by simp [QMap.insert, QMap.keys]
  | (k', v') :: rest => by
    have ih := QMap.mem_keys_insert k v x rest
    simp only [QMap.keys] at ih
    simp only [QMap.insert]
    split
    · simp [QMap.keys]
    · split
      · rename_i h; subst h; simp [QMap.keys]
      · simp only [QMap.keys, List.map_cons, List.mem_cons, ih]
        tauto

theorem QMap.mem_insert {V : Type} (k : QString) (v : V) (e : QString × V) :
    ∀ m : QMap V, e ∈ QMap.insert k v m → e = (k, v) ∨ e ∈ m
  | [] => by simp [QMap.insert]
  | (k', v') :: rest => by
    have ih := QMap.mem_insert k v e rest
    simp only [QMap.insert]
    split
    · simp
    · split
      · simp; tauto
      · simp only [List.mem_cons]
        rintro (h | h)
        · exact Or.inr (Or.inl h)
        · rcases ih h with h | h
          · exact Or.inl h
          · exact Or.inr (Or.inr h)

theorem QMap.ordered_insert {V : Type} (k : QString) (v : V) :
    ∀ m : QMap V, QMap.Ordered m → QMap.Ordered (QMap.insert k v m)
  | [], _ => by simp [QMap.insert, QMap.Ordered, QMap.keys]
  | (k', v') :: rest, h => by
    have ih := QMap.ordered_insert k v rest
    simp only [QMap.Ordered, QMap.keys, List.map_cons, List.pairwise_cons] at h ih ⊢
    simp only [QMap.insert]
    split
    · rename_i hlt
      simp only [List.map_cons, List.pairwise_cons, List.mem_cons]
      refine ⟨?_, h⟩
      rintro a (rfl | ha)
      · exact hlt
      · exact QString.lt_trans hlt (h.1 a ha)
    · split
      · rename_i h1 h2
        subst h2
        simp only [List.map_cons, List.pairwise_cons]
        exact h
      · rename_i h1 h2
        simp only [List.map_cons, List.pairwise_cons]
        refine ⟨?_, ih h.2⟩
        intro a ha
        have := (QMap.mem_keys_insert k v a rest).mp (by simpa [QMap.keys] using ha)
        rcases this with rfl | h3
        · exact QString.lt_total (by simpa using h1) h2
        · exact h.1 a (by simpa [QMap.keys] using h3)

theorem QMap.nodup_keys_of_ordered {V : Type} (m : QMap V) (h : QMap.Ordered m) :
    (QMap.keys m).Nodup := by
  unfold QMap.Ordered at h
  refine List.Pairwise.imp ?_ h
  intro a b hab heq
  subst heq
  rw [QString.lt_irrefl] at hab
  exact Bool.noConfusion hab

theorem QMap.find_isSome {V : Type} (k : QString) :
    ∀ m : QMap V, (QMap.find k m).isSome = true ↔ k ∈ QMap.keys m
  | [] => by simp [QMap.find, QMap.keys]
  | (k', v') :: rest => by
    have ih := QMap.find_isSome k rest
    simp only [QMap.find, QMap.keys, List.map_cons, List.mem_cons] at ih ⊢
    split
    · rename_i h; simp [h]
    · rename_i h; simp [h, ih]

theorem QMap.find_eq_none {V : Type} (k : QString) (m : QMap V) :
    QMap.find k m = none ↔ k ∉ QMap.keys m := by
  rw [← QMap.find_isSome k m]
  cases QMap.find k m <;> simp

theorem QMap.keys_adjust {V : Type} (f : V → V) (k : QString) (m : QMap V) :
    QMap.keys (QMap.adjust f k m) = QMap.keys m := by
  simp only [QMap.keys, QMap.adjust, List.map_map]
  apply List.map_congr_left
  intro e _
  simp only [Function.comp]
  split <;> rfl

/-! ## Registries and name maps -/

theorem QMap.mem_keys_ite_insert {V : Type} (c : Bool) (k : QString) (v : V) (x : QString)
    (m : QMap V) :
    x ∈ QMap.keys (if c = true then QMap.insert k v m else m) ↔
      (c = true ∧ x = k) ∨ x ∈ QMap.keys m := by
  cases c <;> simp [QMap.mem_keys_insert]

theorem QMap.ordered_ite_insert {V : Type} (c : Bool) (k : QString) (v : V) (m : QMap V)
    (h : QMap.Ordered m) : QMap.Ordered (if c = true then QMap.insert k v m else m) := by
  cases c
  · simpa using h
  · simpa using QMap.ordered_insert k v m h

theorem QMap.mem_keys_nil {V : Type} (x : QString) :
    x ∈ QMap.keys ([] : QMap V) ↔ False := by
  simp [QMap.keys]

theorem QMap.ordered_nil {V : Type} : QMap.Ordered ([] : QMap V) := by
  simp [QMap.Ordered, QMap.keys]

theorem audioIfaceSetupWidgets_ordered (b : BuildConfig) (n : AudioNames) :
    QMap.Ordered (audioIfaceSetupWidgets b n) := by
  unfold audioIfaceSetupWidgets
  repeat first
    | apply QMap.ordered_insert
    | apply QMap.ordered_ite_insert
    | exact QMap.ordered_nil

theorem midiIfaceSetupWidgets_ordered (b : BuildConfig) (n : MidiNames) :
    QMap.Ordered (midiIfaceSetupWidgets b n) := by
  unfold midiIfaceSetupWidgets
  apply QMap.ordered_insert
  repeat apply QMap.ordered_ite_insert
  cases b.LMMS_HAVE_ALSA
  · exact QMap.ordered_nil
  · exact QMap.ordered_insert _ _ _ (QMap.ordered_insert _ _ _ QMap.ordered_nil)

theorem mem_audioIfaceSetupWidgets (b : BuildConfig) (n : AudioNames) (x : QString) :
    x ∈ QMap.keys (audioIfaceSetupWidgets b n) ↔
      x = n.AudioDummy ∨ (b.LMMS_HAVE_SNDIO = true ∧ x = n.AudioSndio) ∨
      (b.LMMS_HAVE_OSS = true ∧ x = n.AudioOss) ∨ (b.LMMS_HAVE_SDL = true ∧ x = n.AudioSdl) ∨
      (b.LMMS_HAVE_SOUNDIO = true ∧ x = n.AudioSoundIo) ∨
      (b.LMMS_HAVE_PORTAUDIO = true ∧ x = n.AudioPortAudio) ∨
      (b.LMMS_HAVE_PULSEAUDIO = true ∧ x = n.AudioPulseAudio) ∨
      (b.LMMS_HAVE_ALSA = true ∧ x = n.AudioAlsa) ∨
      (b.LMMS_HAVE_JACK = true ∧ x = n.AudioJack) := by
  simp only [audioIfaceSetupWidgets, QMap.mem_keys_insert, QMap.mem_keys_ite_insert,
    QMap.mem_keys_nil, or_false]

theorem mem_midiIfaceSetupWidgets (b : BuildConfig) (n : MidiNames) (x : QString) :
    x ∈ QMap.keys (midiIfaceSetupWidgets b n) ↔
      x = n.MidiDummy ∨ (b.LMMS_BUILD_APPLE = true ∧ x = n.MidiApple) ∨
      (b.LMMS_BUILD_WIN32 = true ∧ x = n.MidiWinMM) ∨
      (b.LMMS_HAVE_SNDIO = true ∧ x = n.MidiSndio) ∨
      (b.LMMS_HAVE_OSS = true ∧ x = n.MidiOss) ∨ (b.LMMS_HAVE_JACK = true ∧ x = n.MidiJack) ∨
      (b.LMMS_HAVE_ALSA = true ∧ (x = n.MidiAlsaRaw ∨ x = n.MidiAlsaSeq)) := by
  simp only [midiIfaceSetupWidgets, QMap.mem_keys_insert, QMap.mem_keys_ite_insert]
  cases b.LMMS_HAVE_ALSA <;>
    simp [QMap.mem_keys_insert, QMap.mem_keys_nil]

theorem ifaceNames_ordered (tr : QString → QString) :
    ∀ (ks : List QString) (acc : trMap), QMap.Ordered acc → QMap.Ordered (ifaceNames tr ks acc)
  | [], _, h => h
  | k :: rest, acc, h =>
    ifaceNames_ordered tr rest _ (QMap.ordered_insert (tr k) k acc h)

theorem mem_keys_ifaceNames (tr : QString → QString) (x : QString) :
    ∀ (ks : List QString) (acc : trMap),
      x ∈ QMap.keys (ifaceNames tr ks acc) ↔ x ∈ QMap.keys acc ∨ ∃ k ∈ ks, tr k = x
  | [], acc => by simp [ifaceNames]
  | k :: rest, acc => by
    simp only [ifaceNames, mem_keys_ifaceNames tr x rest, QMap.mem_keys_insert,
      List.mem_cons, exists_eq_or_imp]
    constructor
    · rintro ((h | h) | h)
      · exact Or.inr (Or.inl h.symm)
      · exact Or.inl h
      · exact Or.inr (Or.inr h)
    · rintro (h | h | h)
      · exact Or.inl (Or.inr h)
      · exact Or.inl (Or.inl h.symm)
      · exact Or.inr h

theorem mem_ifaceNames (tr : QString → QString) (e : QString × QString) :
    ∀ (ks : List QString) (acc : trMap),
      e ∈ ifaceNames tr ks acc → e ∈ acc ∨ (e.2 ∈ ks ∧ e.1 = tr e.2)
  | [], acc, h => Or.inl h
  | k :: rest, acc, h => by
    rcases mem_ifaceNames tr e rest _ h with h1 | h1
    · rcases QMap.mem_insert _ _ _ _ h1 with h2 | h2
      · subst h2
        exact Or.inr ⟨List.mem_cons_self _ _, rfl⟩
      · exact Or.inl h2
    · exact Or.inr ⟨List.mem_cons_of_mem _ h1.1, h1.2⟩

/-- The labels of a registry are the translations of its keys. -/
theorem mem_ifaceLabels (tr : QString → QString) (widgets : QMap SetupWidget) (x : QString) :
    x ∈ ifaceLabels tr widgets ↔ ∃ k ∈ QMap.keys widgets, tr k = x := by
  simp only [ifaceLabels, mem_keys_ifaceNames, QMap.mem_keys_nil, false_or]

/-- With untranslated names the labels are the keys of the registry. -/
theorem mem_ifaceLabels_of_untranslated (tr : QString → QString)
    (widgets : QMap SetupWidget) (htr : ∀ k ∈ QMap.keys widgets, tr k = k) (x : QString) :
    x ∈ ifaceLabels tr widgets ↔ x ∈ QMap.keys widgets := by
  rw [mem_ifaceLabels]
  constructor
  · rintro ⟨k, hk, rfl⟩
    rw [htr k hk]
    exact hk
  · intro hx
    exact ⟨x, hx, htr x hx⟩

theorem ifaceLabels_nodup (tr : QString → QString) (widgets : QMap SetupWidget) :
    (ifaceLabels tr widgets).Nodup :=
  QMap.nodup_keys_of_ordered _ (ifaceNames_ordered tr _ _ QMap.ordered_nil)

/-! ## The combo box -/

theorem QComboBox.findText_neg_iff (c : QComboBox) (text : QString) :
    c.findText text < 0 ↔ text ∉ c.items := by
  unfold QComboBox.findText
  constructor
  · intro h hmem
    have := List.indexOf_lt_length.mpr hmem
    rw [if_pos this] at h
    omega
  · intro h
    have : ¬ List.indexOf text c.items < c.items.length := by
      rw [List.indexOf_lt_length]
      exact h
    rw [if_neg this]
    omega

theorem resolveDevName_fst (attr engineName : QString) (c : QComboBox) (w : World) :
    (resolveDevName attr engineName c w).1 =
      if w.value "mixer" attr ∈ c.items then w.value "mixer" attr else engineName := by
  unfold resolveDevName
  by_cases h : w.value "mixer" attr ∈ c.items
  · have : ¬ c.findText (w.value "mixer" attr) < 0 := by
      rw [QComboBox.findText_neg_iff]; exact not_not.mpr h
    simp [this, h]
  · have : c.findText (w.value "mixer" attr) < 0 := by
      rw [QComboBox.findText_neg_iff]; exact h
    simp [this, h]

theorem resolveDevName_snd (attr engineName : QString) (c : QComboBox) (w : World) :
    (resolveDevName attr engineName c w).2 =
      if w.value "mixer" attr ∈ c.items then w else w.setValue "mixer" attr engineName := by
  unfold resolveDevName
  by_cases h : w.value "mixer" attr ∈ c.items
  · have : ¬ c.findText (w.value "mixer" attr) < 0 := by
      rw [QComboBox.findText_neg_iff]; exact not_not.mpr h
    simp [this, h]
  · have : c.findText (w.value "mixer" attr) < 0 := by
      rw [QComboBox.findText_neg_iff]; exact h
    simp [this, h]

theorem resolveDevName_congr (attr engineName : QString) (c c' : QComboBox) (w : World)
    (h : c.items = c'.items) :
    resolveDevName attr engineName c w = resolveDevName attr engineName c' w := by
  apply Prod.ext
  · rw [resolveDevName_fst, resolveDevName_fst, h]
  · rw [resolveDevName_snd, resolveDevName_snd, h]

/-! ## The settings store -/

theorem lookupSetting_upsert_self (key : QString × QString) (v : QString) :
    ∀ l, lookupSetting key (upsert key v l) = v
  | [] => by simp [upsert, lookupSetting]
  | (k', v') :: rest => by
    simp only [upsert]
    split
    · simp [lookupSetting]
    · rename_i h
      simp [lookupSetting, h, lookupSetting_upsert_self key v rest]

theorem lookupSetting_upsert_of_ne (key key' : QString × QString) (v : QString)
    (hne : key' ≠ key) : ∀ l, lookupSetting key' (upsert key v l) = lookupSetting key' l
  | [] => by simp [upsert, lookupSetting, hne]
  | (k', v') :: rest => by
    simp only [upsert]
    split
    · rename_i h
      subst h
      simp [lookupSetting, hne]
    · simp only [lookupSetting]
      split
      · rfl
      · exact lookupSetting_upsert_of_ne key key' v hne rest

theorem World.value_setValue_self (w : World) (cls attr v : QString) :
    (w.setValue cls attr v).value cls attr = v :=
  lookupSetting_upsert_self _ _ _

theorem World.value_setValue_of_ne (w : World) (cls attr v cls' attr' : QString)
    (hne : (cls', attr') ≠ (cls, attr)) :
    (w.setValue cls attr v).value cls' attr' = w.value cls' attr' :=
  lookupSetting_upsert_of_ne _ _ _ hne _

/-! ## The constructor pages -/

theorem derefHide_of_mem (widgets : QMap SetupWidget) (k : QString)
    (h : k ∈ QMap.keys widgets) :
    derefHide widgets k = some (QMap.adjust SetupWidget.hide k widgets) := by
  unfold derefHide
  have := (QMap.find_isSome k widgets).mpr h
  cases hf : QMap.find k widgets with
  | none => rw [hf] at this; exact Bool.noConfusion this
  | some v => rfl

theorem derefShow_of_mem (widgets : QMap SetupWidget) (k : QString)
    (h : k ∈ QMap.keys widgets) :
    derefShow widgets k = some (QMap.adjust SetupWidget.show k widgets) := by
  unfold derefShow
  have := (QMap.find_isSome k widgets).mpr h
  cases hf : QMap.find k widgets with
  | none => rw [hf] at this; exact Bool.noConfusion this
  | some v => rfl

theorem QMap.find_adjust_self {V : Type} (f : V → V) (k : QString) :
    ∀ m : QMap V, QMap.find k (QMap.adjust f k m) = (QMap.find k m).map f
  | [] => rfl
  | (k', v') :: rest => by
    have ih := QMap.find_adjust_self f k rest
    unfold QMap.adjust at ih ⊢
    rw [List.map_cons]
    by_cases h : k' = k
    · subst h
      rw [if_pos rfl]
      simp only [QMap.find, if_true, Option.map]
    · have h' : ¬ k = k' := fun e => h e.symm
      rw [if_neg h]
      simp only [QMap.find, h', if_false]
      exact ih

/-- The widget registered under a key is shown after the call through it. -/
theorem find_adjust_show (widgets : QMap SetupWidget) (k : QString)
    (h : k ∈ QMap.keys widgets) :
    QMap.find k (QMap.adjust SetupWidget.show k widgets) = some { hidden := false } := by
  rw [QMap.find_adjust_self]
  have := (QMap.find_isSome k widgets).mpr h
  cases hf : QMap.find k widgets with
  | none => rw [hf] at this; exact Bool.noConfusion this
  | some v => rfl

theorem derefShow_of_not_mem (widgets : QMap SetupWidget) (k : QString)
    (h : k ∉ QMap.keys widgets) : derefShow widgets k = none := by
  unfold derefShow
  rw [(QMap.find_eq_none k widgets).mpr h]

/-- The second loop completes when every name of the map is registered; it
keeps the keys of the registry and appends the labels to the combo box. -/
theorem hideAndAddItems_spec :
    ∀ (names : List (QString × QString)) (widgets : QMap SetupWidget) (combo : QComboBox),
      (∀ e ∈ names, e.2 ∈ QMap.keys widgets) →
      ∃ ws c, hideAndAddItems names widgets combo = some (ws, c) ∧
        QMap.keys ws = QMap.keys widgets ∧ c.items = combo.items ++ names.map Prod.fst
  | [], widgets, combo, _ => ⟨widgets, combo, rfl, rfl, by simp⟩
  | (label, name) :: rest, widgets, combo, h => by
    have hname : name ∈ QMap.keys widgets := h (label, name) (List.mem_cons_self _ _)
    have hrest : ∀ e ∈ rest, e.2 ∈ QMap.keys (QMap.adjust SetupWidget.hide name widgets) := by
      intro e he
      rw [QMap.keys_adjust]
      exact h e (List.mem_cons_of_mem _ he)
    obtain ⟨ws, c, h1, h2, h3⟩ :=
      hideAndAddItems_spec rest (QMap.adjust SetupWidget.hide name widgets)
        (combo.addItem label) hrest
    refine ⟨ws, c, ?_, ?_, ?_⟩
    · simp only [hideAndAddItems, derefHide_of_mem widgets name hname]
      exact h1
    · rw [h2, QMap.keys_adjust]
    · rw [h3]
      simp [QComboBox.addItem]

/-- Both loops of a page: they complete, keep the keys of the registry and
leave a combo box whose items are the labels. -/
theorem populate_spec (tr : QString → QString) (widgets : QMap SetupWidget) :
    ∃ ws c, hideAndAddItems (ifaceNames tr (QMap.keys widgets) []) widgets QComboBox.new
        = some (ws, c) ∧
      QMap.keys ws = QMap.keys widgets ∧ c.items = ifaceLabels tr widgets := by
  have h : ∀ e ∈ ifaceNames tr (QMap.keys widgets) [], e.2 ∈ QMap.keys widgets := by
    intro e he
    rcases mem_ifaceNames tr e _ _ he with h1 | h1
    · simp at h1
    · exact h1.1
  obtain ⟨ws, c, h1, h2, h3⟩ := hideAndAddItems_spec _ widgets QComboBox.new h
  refine ⟨ws, c, h1, h2, ?_⟩
  rw [h3]
  simp [QComboBox.new, ifaceLabels, QMap.keys]

theorem QComboBox.currentIndex_setCurrentIndex_findText (c : QComboBox) (x : QString) :
    (c.setCurrentIndex (c.findText x)).currentIndex =
      if x ∈ c.items then (c.items.indexOf x : Int) else -1 := by
  simp only [QComboBox.setCurrentIndex, QComboBox.findText]
  by_cases hl : x ∈ c.items
  · have := List.indexOf_lt_length.mpr hl
    simp only [this, hl, if_true]
    rw [if_pos]
    constructor <;> omega
  · have : ¬ List.indexOf x c.items < c.items.length := by
      rw [List.indexOf_lt_length]; exact hl
    simp [this, hl]

/-- The audio page completes exactly when the resolved name is registered; it
then leaves the world of the resolution, the labels in the combo box, the
registry keys and the MIDI members untouched. -/
theorem constructAudio_spec (env : Env) (w : World) (d : SetupDialog) :
    ((resolveAudio env w).1 ∉ QMap.keys (audioIfaceSetupWidgets env.build env.audio) ∧
      SetupDialog.constructAudio env w d = none) ∨
    ((resolveAudio env w).1 ∈ QMap.keys (audioIfaceSetupWidgets env.build env.audio) ∧
      ∃ d', SetupDialog.constructAudio env w d = some ((resolveAudio env w).2, d') ∧
        QMap.keys d'.m_audioIfaceSetupWidgets =
          QMap.keys (audioIfaceSetupWidgets env.build env.audio) ∧
        QMap.find (resolveAudio env w).1 d'.m_audioIfaceSetupWidgets = some { hidden := false } ∧
        d'.m_audioInterfaces.items =
          ifaceLabels env.tr (audioIfaceSetupWidgets env.build env.audio) ∧
        d'.m_audioInterfaces.currentIndex =
          (if (resolveAudio env w).1 ∈
              ifaceLabels env.tr (audioIfaceSetupWidgets env.build env.audio)
            then ((ifaceLabels env.tr (audioIfaceSetupWidgets env.build env.audio)).indexOf
              (resolveAudio env w).1 : Int) else -1) ∧
        d'.m_audioIfaceNames =
          ifaceNames env.tr (QMap.keys (audioIfaceSetupWidgets env.build env.audio)) [] ∧
        d'.m_midiInterfaces = d.m_midiInterfaces ∧
        d'.m_midiIfaceSetupWidgets = d.m_midiIfaceSetupWidgets ∧
        d'.m_midiIfaceNames = d.m_midiIfaceNames) := by
  obtain ⟨ws, c, h1, h2, h3⟩ :=
    populate_spec env.tr (audioIfaceSetupWidgets env.build env.audio)
  have hr : resolveDevName "audiodev" env.audioDevName c w = resolveAudio env w :=
    resolveDevName_congr _ _ _ _ _ h3
  by_cases hmem : (resolveAudio env w).1 ∈
      QMap.keys (audioIfaceSetupWidgets env.build env.audio)
  · right
    refine ⟨hmem, ?_⟩
    have hshow := derefShow_of_mem ws (resolveAudio env w).1 (by rw [h2]; exact hmem)
    refine ⟨{ d with
        m_audioInterfaces := c.setCurrentIndex (c.findText (resolveAudio env w).1),
        m_audioIfaceSetupWidgets := QMap.adjust SetupWidget.show (resolveAudio env w).1 ws,
        m_audioIfaceNames :=
          ifaceNames env.tr (QMap.keys (audioIfaceSetupWidgets env.build env.audio)) [] },
      ?_, ?_, ?_, ?_, ?_, rfl, rfl, rfl, rfl⟩
    · simp only [SetupDialog.constructAudio, h1, hr, hshow]
    · simp only [QMap.keys_adjust, h2]
    · exact find_adjust_show ws _ (by rw [h2]; exact hmem)
    · simp only [QComboBox.setCurrentIndex, h3]
    · simp only [QComboBox.currentIndex_setCurrentIndex_findText, h3]
  · left
    refine ⟨hmem, ?_⟩
    have hshow := derefShow_of_not_mem ws (resolveAudio env w).1 (by rw [h2]; exact hmem)
    simp only [SetupDialog.constructAudio, h1, hr, hshow]

/-- The MIDI page completes exactly when the resolved name is registered; it
then leaves the world of the resolution, the labels in the combo box, the
registry keys and the audio members untouched. -/
theorem constructMidi_spec (env : Env) (w : World) (d : SetupDialog) :
    ((resolveMidi env w).1 ∉ QMap.keys (midiIfaceSetupWidgets env.build env.midi) ∧
      SetupDialog.constructMidi env w d = none) ∨
    ((resolveMidi env w).1 ∈ QMap.keys (midiIfaceSetupWidgets env.build env.midi) ∧
      ∃ d', SetupDialog.constructMidi env w d = some ((resolveMidi env w).2, d') ∧
        QMap.keys d'.m_midiIfaceSetupWidgets =
          QMap.keys (midiIfaceSetupWidgets env.build env.midi) ∧
        QMap.find (resolveMidi env w).1 d'.m_midiIfaceSetupWidgets = some { hidden := false } ∧
        d'.m_midiInterfaces.items =
          ifaceLabels env.tr (midiIfaceSetupWidgets env.build env.midi) ∧
        d'.m_midiInterfaces.currentIndex =
          (if (resolveMidi env w).1 ∈
              ifaceLabels env.tr (midiIfaceSetupWidgets env.build env.midi)
            then ((ifaceLabels env.tr (midiIfaceSetupWidgets env.build env.midi)).indexOf
              (resolveMidi env w).1 : Int) else -1) ∧
        d'.m_midiIfaceNames =
          ifaceNames env.tr (QMap.keys (midiIfaceSetupWidgets env.build env.midi)) [] ∧
        d'.m_audioInterfaces = d.m_audioInterfaces ∧
        d'.m_audioIfaceSetupWidgets = d.m_audioIfaceSetupWidgets ∧
        d'.m_audioIfaceNames = d.m_audioIfaceNames) := by
  obtain ⟨ws, c, h1, h2, h3⟩ :=
    populate_spec env.tr (midiIfaceSetupWidgets env.build env.midi)
  have hr : resolveDevName "mididev" env.midiClientName c w = resolveMidi env w :=
    resolveDevName_congr _ _ _ _ _ h3
  by_cases hmem : (resolveMidi env w).1 ∈
      QMap.keys (midiIfaceSetupWidgets env.build env.midi)
  · right
    refine ⟨hmem, ?_⟩
    have hshow := derefShow_of_mem ws (resolveMidi env w).1 (by rw [h2]; exact hmem)
    refine ⟨{ d with
        m_midiInterfaces := c.setCurrentIndex (c.findText (resolveMidi env w).1),
        m_midiIfaceSetupWidgets := QMap.adjust SetupWidget.show (resolveMidi env w).1 ws,
        m_midiIfaceNames :=
          ifaceNames env.tr (QMap.keys (midiIfaceSetupWidgets env.build env.midi)) [] },
      ?_, ?_, ?_, ?_, ?_, rfl, rfl, rfl, rfl⟩
    · simp only [SetupDialog.constructMidi, h1, hr, hshow]
    · simp only [QMap.keys_adjust, h2]
    · exact find_adjust_show ws _ (by rw [h2]; exact hmem)
    · simp only [QComboBox.setCurrentIndex, h3]
    · simp only [QComboBox.currentIndex_setCurrentIndex_findText, h3]
  · left
    refine ⟨hmem, ?_⟩
    have hshow := derefShow_of_not_mem ws (resolveMidi env w).1 (by rw [h2]; exact hmem)
    simp only [SetupDialog.constructMidi, h1, hr, hshow]

/-- The name resolved for a kind: the preference when it is a label, else the
engine's name. -/
theorem resolveAudio_fst (env : Env) (w : World) :
    (resolveAudio env w).1 =
      if w.value "mixer" "audiodev" ∈
          ifaceLabels env.tr (audioIfaceSetupWidgets env.build env.audio)
      then w.value "mixer" "audiodev" else env.audioDevName :=
  resolveDevName_fst _ _ _ _

theorem resolveMidi_fst (env : Env) (w : World) :
    (resolveMidi env w).1 =
      if w.value "mixer" "mididev" ∈
          ifaceLabels env.tr (midiIfaceSetupWidgets env.build env.midi)
      then w.value "mixer" "mididev" else env.midiClientName :=
  resolveDevName_fst _ _ _ _

theorem resolveAudio_snd (env : Env) (w : World) :
    (resolveAudio env w).2 =
      if w.value "mixer" "audiodev" ∈
          ifaceLabels env.tr (audioIfaceSetupWidgets env.build env.audio)
      then w else w.setValue "mixer" "audiodev" env.audioDevName :=
  resolveDevName_snd _ _ _ _

theorem resolveMidi_snd (env : Env) (w : World) :
    (resolveMidi env w).2 =
      if w.value "mixer" "mididev" ∈
          ifaceLabels env.tr (midiIfaceSetupWidgets env.build env.midi)
      then w else w.setValue "mixer" "mididev" env.midiClientName :=
  resolveDevName_snd _ _ _ _

/-- The audio resolution leaves the MIDI preference as it was. -/
theorem resolveAudio_value_mididev (env : Env) (w : World) :
    (resolveAudio env w).2.value "mixer" "mididev" = w.value "mixer" "mididev" := by
  rw [resolveAudio_snd]
  split
  · rfl
  · exact World.value_setValue_of_ne _ _ _ _ _ _ (by decide)

/-- The MIDI resolution leaves the audio preference as it was. -/
theorem resolveMidi_value_audiodev (env : Env) (w : World) :
    (resolveMidi env w).2.value "mixer" "audiodev" = w.value "mixer" "audiodev" := by
  rw [resolveMidi_snd]
  split
  · rfl
  · exact World.value_setValue_of_ne _ _ _ _ _ _ (by decide)

/-- After the resolution the persisted preference is the resolved name. -/
theorem resolveAudio_value_audiodev (env : Env) (w : World) :
    (resolveAudio env w).2.value "mixer" "audiodev" = (resolveAudio env w).1 := by
  rw [resolveAudio_snd, resolveAudio_fst]
  split
  · rfl
  · exact World.value_setValue_self _ _ _ _

theorem resolveMidi_value_mididev (env : Env) (w : World) :
    (resolveMidi env w).2.value "mixer" "mididev" = (resolveMidi env w).1 := by
  rw [resolveMidi_snd, resolveMidi_fst]
  split
  · rfl
  · exact World.value_setValue_self _ _ _ _

/-- The MIDI resolution does not depend on the audio resolution before it. -/
theorem resolveMidi_after_audio_fst (env : Env) (w : World) :
    (resolveMidi env (resolveAudio env w).2).1 = (resolveMidi env w).1 := by
  rw [resolveMidi_fst, resolveMidi_fst, resolveAudio_value_mididev]

/-- Both pages: the constructor completes exactly when both resolved names are
registered, and then ends in the state the two pages leave. -/
theorem constructInterfaces_spec (env : Env) (w : World) (d : SetupDialog) :
    (((resolveAudio env w).1 ∉ QMap.keys (audioIfaceSetupWidgets env.build env.audio) ∨
        (resolveMidi env w).1 ∉ QMap.keys (midiIfaceSetupWidgets env.build env.midi)) ∧
      SetupDialog.constructInterfaces env w d = none) ∨
    ((resolveAudio env w).1 ∈ QMap.keys (audioIfaceSetupWidgets env.build env.audio) ∧
      (resolveMidi env w).1 ∈ QMap.keys (midiIfaceSetupWidgets env.build env.midi) ∧
      ∃ d', SetupDialog.constructInterfaces env w d =
          some ((resolveMidi env (resolveAudio env w).2).2, d') ∧
        (QMap.keys d'.m_audioIfaceSetupWidgets =
            QMap.keys (audioIfaceSetupWidgets env.build env.audio) ∧
          QMap.find (resolveAudio env w).1 d'.m_audioIfaceSetupWidgets =
            some { hidden := false } ∧
          d'.m_audioInterfaces.items =
            ifaceLabels env.tr (audioIfaceSetupWidgets env.build env.audio) ∧
          d'.m_audioInterfaces.currentIndex =
            (if (resolveAudio env w).1 ∈
                ifaceLabels env.tr (audioIfaceSetupWidgets env.build env.audio)
              then ((ifaceLabels env.tr (audioIfaceSetupWidgets env.build env.audio)).indexOf
                (resolveAudio env w).1 : Int) else -1)) ∧
        (QMap.keys d'.m_midiIfaceSetupWidgets =
            QMap.keys (midiIfaceSetupWidgets env.build env.midi) ∧
          QMap.find (resolveMidi env w).1 d'.m_midiIfaceSetupWidgets =
            some { hidden := false } ∧
          d'.m_midiInterfaces.items =
            ifaceLabels env.tr (midiIfaceSetupWidgets env.build env.midi) ∧
          d'.m_midiInterfaces.currentIndex =
            (if (resolveMidi env w).1 ∈
                ifaceLabels env.tr (midiIfaceSetupWidgets env.build env.midi)
              then ((ifaceLabels env.tr (midiIfaceSetupWidgets env.build env.midi)).indexOf
                (resolveMidi env w).1 : Int) else -1))) := by
  rcases constructAudio_spec env w d with
    ⟨ha, hca⟩ | ⟨ha, da, hca, ha1, ha2, ha3, ha4, -, -, -, -⟩
  · left
    exact ⟨Or.inl ha, by simp only [SetupDialog.constructInterfaces, hca]⟩
  · rcases constructMidi_spec env (resolveAudio env w).2 da with
      ⟨hm, hcm⟩ | ⟨hm, dm, hcm, hm1, hm2, hm3, hm4, -, hm5, hm6, -⟩
    · left
      rw [resolveMidi_after_audio_fst] at hm
      exact ⟨Or.inr hm, by simp only [SetupDialog.constructInterfaces, hca, hcm]⟩
    · right
      rw [resolveMidi_after_audio_fst] at hm hm2 hm4
      refine ⟨ha, hm, dm, ?_, ⟨?_, ?_, ?_, ?_⟩, ⟨hm1, hm2, hm3, hm4⟩⟩
      · simp only [SetupDialog.constructInterfaces, hca, hcm]
      · rw [hm6]; exact ha1
      · rw [hm6]; exact ha2
      · rw [hm5]; exact ha3
      · rw [hm5]; exact ha4

/-- The current text of a combo box whose current index is the position of an
item is that item. -/
theorem QComboBox.currentText_of_index (c : QComboBox) (x : QString) (hx : x ∈ c.items)
    (h : c.currentIndex = (c.items.indexOf x : Int)) : c.currentText = x := by
  unfold QComboBox.currentText
  rw [h]
  have hlt := List.indexOf_lt_length.mpr hx
  simp only [Int.ofNat_nonneg, if_true, Int.toNat_ofNat]
  rw [List.getD_eq_getElem _ _ hlt]
  exact List.getElem_indexOf hlt

/-- A preference that is no label: the audio resolution takes the engine's
name and appends one write of it. -/
theorem resolveAudio_of_not_label (env : Env) (w : World)
    (h : w.value "mixer" "audiodev" ∉
      ifaceLabels env.tr (audioIfaceSetupWidgets env.build env.audio)) :
    (resolveAudio env w).1 = env.audioDevName ∧
    (resolveAudio env w).2.calls =
      w.calls ++ [Call.setValue "mixer" "audiodev" env.audioDevName] := by
  constructor
  · rw [resolveAudio_fst, if_neg h]
  · rw [resolveAudio_snd, if_neg h]
    rfl

/-- A preference that is no label: the MIDI resolution takes the engine's name
and appends one write of it. -/
theorem resolveMidi_of_not_label (env : Env) (w : World)
    (h : w.value "mixer" "mididev" ∉
      ifaceLabels env.tr (midiIfaceSetupWidgets env.build env.midi)) :
    (resolveMidi env w).1 = env.midiClientName ∧
    (resolveMidi env w).2.calls =
      w.calls ++ [Call.setValue "mixer" "mididev" env.midiClientName] := by
  constructor
  · rw [resolveMidi_fst, if_neg h]
  · rw [resolveMidi_snd, if_neg h]
    rfl

/-- A completed construction ends in the world the two resolutions leave. -/
theorem constructInterfaces_world (env : Env) (w : World) (d : SetupDialog) (w' : World)
    (d' : SetupDialog) (hc : SetupDialog.constructInterfaces env w d = some (w', d')) :
    w' = (resolveMidi env (resolveAudio env w).2).2 := by
  rcases constructInterfaces_spec env w d with ⟨-, hn⟩ | ⟨-, -, d'', hs, -⟩
  · rw [hn] at hc
    exact Option.noConfusion hc
  · rw [hs] at hc
    exact (congrArg Prod.fst (Option.some.inj hc)).symm

/-! ## Untranslated labels and activation: where C2 and C8 hold -/

/-- With untranslated labels a registered audio preference is resolved to
itself and nothing is written. -/
theorem resolveAudio_of_registered_untranslated (env : Env) (w : World)
    (htr : ∀ k ∈ QMap.keys (audioIfaceSetupWidgets env.build env.audio), env.tr k = k)
    (hp : w.value "mixer" "audiodev" ∈
      QMap.keys (audioIfaceSetupWidgets env.build env.audio)) :
    resolveAudio env w = (w.value "mixer" "audiodev", w) := by
  have hl := (mem_ifaceLabels_of_untranslated _ _ htr _).mpr hp
  apply Prod.ext
  · rw [resolveAudio_fst, if_pos hl]
  · rw [resolveAudio_snd, if_pos hl]

/-- With untranslated labels a registered MIDI preference is resolved to itself
and nothing is written. -/
theorem resolveMidi_of_registered_untranslated (env : Env) (w : World)
    (htr : ∀ k ∈ QMap.keys (midiIfaceSetupWidgets env.build env.midi), env.tr k = k)
    (hp : w.value "mixer" "mididev" ∈
      QMap.keys (midiIfaceSetupWidgets env.build env.midi)) :
    resolveMidi env w = (w.value "mixer" "mididev", w) := by
  have hl := (mem_ifaceLabels_of_untranslated _ _ htr _).mpr hp
  apply Prod.ext
  · rw [resolveMidi_fst, if_pos hl]
  · rw [resolveMidi_snd, if_pos hl]

theorem keys_hideAll (ws : QMap SetupWidget) : QMap.keys (hideAll ws) = QMap.keys ws := by
  simp only [QMap.keys, hideAll, List.map_map]
  rfl

theorem shownWidgets_hideAll (ws : QMap SetupWidget) : shownWidgets (hideAll ws) = [] := by
  induction ws with
  | nil => rfl
  | cons e rest ih =>
    simp only [shownWidgets, hideAll, List.map_cons, SetupWidget.hide] at ih ⊢
    rw [List.filter_cons_of_neg (by simp)]
    exact ih

theorem QMap.adjust_of_not_mem {V : Type} (f : V → V) (k : QString) (m : QMap V)
    (h : k ∉ QMap.keys m) : QMap.adjust f k m = m := by
  induction m with
  | nil => rfl
  | cons e rest ih =>
    simp only [QMap.keys, List.map_cons, List.mem_cons, not_or] at h
    have h1 : ¬ e.1 = k := fun x => h.1 x.symm
    unfold QMap.adjust at ih ⊢
    rw [List.map_cons, if_neg h1, ih h.2]

/-- After hiding every widget and showing the one registered under `k`, the
widget of `k` is the only one shown. -/
theorem shownWidgets_show_hideAll (k : QString) :
    ∀ ws : QMap SetupWidget, k ∈ QMap.keys ws → (QMap.keys ws).Nodup →
      shownWidgets (QMap.adjust SetupWidget.show k (hideAll ws)) = [k]
  | [], h, _ => by simp [QMap.keys] at h
  | (k', v) :: rest, h, hnd => by
    simp only [QMap.keys, List.map_cons, List.nodup_cons] at hnd
    by_cases hk : k' = k
    · subst hk
      have hrest : k' ∉ QMap.keys (hideAll rest) := by
        rw [keys_hideAll]; exact hnd.1
      have h1 : QMap.adjust SetupWidget.show k' (hideAll ((k', v) :: rest)) =
          (k', SetupWidget.show (SetupWidget.hide v)) :: hideAll rest := by
        have := QMap.adjust_of_not_mem SetupWidget.show k' (hideAll rest) hrest
        unfold QMap.adjust at this ⊢
        simp only [hideAll, List.map_cons] at this ⊢
        rw [if_pos trivial, this]
      rw [h1]
      have h2 := shownWidgets_hideAll rest
      simp only [shownWidgets, QMap.keys] at h2 ⊢
      rw [List.filter_cons_of_pos (by simp [SetupWidget.show]), List.map_cons, h2]
    · have hmem : k ∈ QMap.keys rest := by
        simp only [QMap.keys, List.map_cons, List.mem_cons] at h
        rcases h with h | h
        · exact absurd h.symm hk
        · exact h
      have ih := shownWidgets_show_hideAll k rest hmem hnd.2
      have h1 : QMap.adjust SetupWidget.show k (hideAll ((k', v) :: rest)) =
          (k', SetupWidget.hide v) :: QMap.adjust SetupWidget.show k (hideAll rest) := by
        unfold QMap.adjust
        simp only [hideAll, List.map_cons]
        rw [if_neg hk]
      rw [h1]
      simp only [shownWidgets, QMap.keys] at ih ⊢
      rw [List.filter_cons_of_neg (by simp [SetupWidget.hide])]
      exact ih

theorem QMap.find_of_mem_keys {V : Type} (k : QString) :
    ∀ m : QMap V, k ∈ QMap.keys m → ∃ v, QMap.find k m = some v ∧ (k, v) ∈ m
  | [], h => by simp [QMap.keys] at h
  | (k', v') :: rest, h => by
    by_cases hk : k = k'
    · subst hk
      exact ⟨v', by simp [QMap.find], List.mem_cons_self _ _⟩
    · have hmem : k ∈ QMap.keys rest := by
        simp only [QMap.keys, List.map_cons, List.mem_cons] at h
        rcases h with h | h
        · exact absurd h hk
        · exact h
      obtain ⟨v, h1, h2⟩ := QMap.find_of_mem_keys k rest hmem
      exact ⟨v, by simp [QMap.find, hk, h1], List.mem_cons_of_mem _ h2⟩

/-- The slot `audioInterfaceChanged`, called with a label that stands for a
registered name: it completes, the widget of that name is the only one shown,
and the name map is unchanged. -/
theorem audioInterfaceChanged_spec (d : SetupDialog) (_iface name : QString)
    (hfind : QMap.find _iface d.m_audioIfaceNames = some name)
    (hname : name ∈ QMap.keys d.m_audioIfaceSetupWidgets)
    (hnd : (QMap.keys d.m_audioIfaceSetupWidgets).Nodup) :
    ∃ d', SetupDialog.audioInterfaceChanged d _iface = some d' ∧
      shownWidgets d'.m_audioIfaceSetupWidgets = [name] ∧
      d'.m_audioIfaceNames = d.m_audioIfaceNames ∧
      d'.m_audioInterfaces = d.m_audioInterfaces := by
  have hidx : QMap.index "" _iface d.m_audioIfaceNames = (name, d.m_audioIfaceNames) := by
    simp only [QMap.index, hfind]
  have hshow := derefShow_of_mem (hideAll d.m_audioIfaceSetupWidgets) name
    (by rw [keys_hideAll]; exact hname)
  refine ⟨{ d with
    m_audioIfaceSetupWidgets :=
      QMap.adjust SetupWidget.show name (hideAll d.m_audioIfaceSetupWidgets) },
    ?_, ?_, rfl, rfl⟩
  · simp only [SetupDialog.audioInterfaceChanged, hidx, hshow]
  · exact shownWidgets_show_hideAll name _ hname hnd

/-- The slot `midiInterfaceChanged`, called with a label that stands for a
registered name. -/
theorem midiInterfaceChanged_spec (d : SetupDialog) (_iface name : QString)
    (hfind : QMap.find _iface d.m_midiIfaceNames = some name)
    (hname : name ∈ QMap.keys d.m_midiIfaceSetupWidgets)
    (hnd : (QMap.keys d.m_midiIfaceSetupWidgets).Nodup) :
    ∃ d', SetupDialog.midiInterfaceChanged d _iface = some d' ∧
      shownWidgets d'.m_midiIfaceSetupWidgets = [name] ∧
      d'.m_midiIfaceNames = d.m_midiIfaceNames ∧
      d'.m_midiInterfaces = d.m_midiInterfaces := by
  have hidx : QMap.index "" _iface d.m_midiIfaceNames = (name, d.m_midiIfaceNames) := by
    simp only [QMap.index, hfind]
  have hshow := derefShow_of_mem (hideAll d.m_midiIfaceSetupWidgets) name
    (by rw [keys_hideAll]; exact hname)
  refine ⟨{ d with
    m_midiIfaceSetupWidgets :=
      QMap.adjust SetupWidget.show name (hideAll d.m_midiIfaceSetupWidgets) },
    ?_, ?_, rfl, rfl⟩
  · simp only [SetupDialog.midiInterfaceChanged, hidx, hshow]
  · exact shownWidgets_show_hideAll name _ hname hnd

/-- The widgets the second loop leaves: those registered under a name of the
map are hidden, the others are as they were. -/
theorem hideAndAddItems_widgets :
    ∀ (names : List (QString × QString)) (widgets ws : QMap SetupWidget) (combo c : QComboBox),
      hideAndAddItems names widgets combo = some (ws, c) →
      ws = widgets.map fun e =>
        if e.1 ∈ names.map Prod.snd then (e.1, e.2.hide) else e
  | [], widgets, ws, combo, c, h => by
    simp only [hideAndAddItems, Option.some.injEq, Prod.mk.injEq] at h
    simp [h.1]
  | (label, name) :: rest, widgets, ws, combo, c, h => by
    simp only [hideAndAddItems, derefHide] at h
    cases hf : QMap.find name widgets with
    | none =>
      rw [hf] at h
      exact Option.noConfusion h
    | some v =>
      rw [hf] at h
      have ih := hideAndAddItems_widgets rest _ ws _ c h
      rw [ih]
      unfold QMap.adjust
      rw [List.map_map]
      apply List.map_congr_left
      intro e _
      simp only [Function.comp, List.map_cons, List.mem_cons]
      by_cases h1 : e.1 = name
      · by_cases h2 : e.1 ∈ rest.map Prod.snd
        · simp [h1, h2, SetupWidget.hide]
        · simp only [h1, if_true, true_or]
          rw [h1] at h2
          simp only [h2, if_false]
      · simp only [h1, if_false, false_or]

/-- The name maps a completed construction leaves. -/
theorem constructInterfaces_names (env : Env) (w : World) (d : SetupDialog) (w' : World)
    (d' : SetupDialog) (hc : SetupDialog.constructInterfaces env w d = some (w', d')) :
    d'.m_audioIfaceNames =
      ifaceNames env.tr (QMap.keys (audioIfaceSetupWidgets env.build env.audio)) [] ∧
    d'.m_midiIfaceNames =
      ifaceNames env.tr (QMap.keys (midiIfaceSetupWidgets env.build env.midi)) [] := by
  rcases constructAudio_spec env w d with
    ⟨-, hca⟩ | ⟨-, da, hca, -, -, -, -, ha5, -, -, -⟩
  · simp only [SetupDialog.constructInterfaces, hca] at hc
    exact Option.noConfusion hc
  · rcases constructMidi_spec env (resolveAudio env w).2 da with
      ⟨-, hcm⟩ | ⟨-, dm, hcm, -, -, -, -, hm5, -, -, hm8⟩
    · simp only [SetupDialog.constructInterfaces, hca, hcm] at hc
      exact Option.noConfusion hc
    · simp only [SetupDialog.constructInterfaces, hca, hcm, Option.some.injEq,
        Prod.mk.injEq] at hc
      rw [← hc.2]
      exact ⟨hm8.trans ha5, hm5⟩

/-- The audio widgets a completed construction leaves: the registry with the
widgets named by the name map hidden, then the resolved one shown. -/
theorem constructInterfaces_audio_widgets (env : Env) (w : World) (d : SetupDialog)
    (w' : World) (d' : SetupDialog)
    (hc : SetupDialog.constructInterfaces env w d = some (w', d')) :
    d'.m_audioIfaceSetupWidgets =
      QMap.adjust SetupWidget.show (resolveAudio env w).1
        ((audioIfaceSetupWidgets env.build env.audio).map fun e =>
          if e.1 ∈ (ifaceNames env.tr
              (QMap.keys (audioIfaceSetupWidgets env.build env.audio)) []).map Prod.snd
          then (e.1, e.2.hide) else e) := by
  obtain ⟨ws, c, h1, -, h3⟩ :=
    populate_spec env.tr (audioIfaceSetupWidgets env.build env.audio)
  have hws := hideAndAddItems_widgets _ _ _ _ _ h1
  have hr : resolveDevName "audiodev" env.audioDevName c w = resolveAudio env w :=
    resolveDevName_congr _ _ _ _ _ h3
  rcases constructMidi_spec env (resolveAudio env w).2
      { d with
        m_audioInterfaces := c.setCurrentIndex (c.findText (resolveAudio env w).1),
        m_audioIfaceSetupWidgets := QMap.adjust SetupWidget.show (resolveAudio env w).1 ws,
        m_audioIfaceNames :=
          ifaceNames env.tr (QMap.keys (audioIfaceSetupWidgets env.build env.audio)) [] } with
    ⟨-, hcm⟩ | ⟨-, dm, hcm, -, -, -, -, -, -, hm7, -⟩
  · simp only [SetupDialog.constructInterfaces, SetupDialog.constructAudio, h1, hr] at hc
    cases hs : derefShow ws (resolveAudio env w).1 with
    | none =>
      rw [hs] at hc
      exact Option.noConfusion hc
    | some ws' =>
      rw [hs] at hc
      simp only [derefShow] at hs
      cases hf : QMap.find (resolveAudio env w).1 ws with
      | none =>
        rw [hf] at hs
        exact Option.noConfusion hs
      | some v =>
        rw [hf] at hs
        rw [← Option.some.inj hs] at hc
        simp only [hcm] at hc
        exact Option.noConfusion hc
  · simp only [SetupDialog.constructInterfaces, SetupDialog.constructAudio, h1, hr] at hc
    cases hs : derefShow ws (resolveAudio env w).1 with
    | none =>
      rw [hs] at hc
      exact Option.noConfusion hc
    | some ws' =>
      rw [hs] at hc
      simp only [derefShow] at hs
      cases hf : QMap.find (resolveAudio env w).1 ws with
      | none =>
        rw [hf] at hs
        exact Option.noConfusion hs
      | some v =>
        rw [hf] at hs
        rw [← Option.some.inj hs] at hc
        simp only [hcm, Option.some.injEq, Prod.mk.injEq] at hc
        rw [← hc.2, hm7, hws]

/-- The MIDI widgets a completed construction leaves. -/
theorem constructInterfaces_midi_widgets (env : Env) (w : World) (d : SetupDialog)
    (w' : World) (d' : SetupDialog)
    (hc : SetupDialog.constructInterfaces env w d = some (w', d')) :
    d'.m_midiIfaceSetupWidgets =
      QMap.adjust SetupWidget.show (resolveMidi env w).1
        ((midiIfaceSetupWidgets env.build env.midi).map fun e =>
          if e.1 ∈ (ifaceNames env.tr
              (QMap.keys (midiIfaceSetupWidgets env.build env.midi)) []).map Prod.snd
          then (e.1, e.2.hide) else e) := by
  obtain ⟨ws, c, h1, -, h3⟩ :=
    populate_spec env.tr (midiIfaceSetupWidgets env.build env.midi)
  have hws := hideAndAddItems_widgets _ _ _ _ _ h1
  rcases constructAudio_spec env w d with ⟨-, hca⟩ | ⟨-, da, hca, -⟩
  · simp only [SetupDialog.constructInterfaces, hca] at hc
    exact Option.noConfusion hc
  · have hr : resolveDevName "mididev" env.midiClientName c (resolveAudio env w).2 =
        resolveMidi env (resolveAudio env w).2 :=
      resolveDevName_congr _ _ _ _ _ h3
    simp only [SetupDialog.constructInterfaces, hca, SetupDialog.constructMidi, h1, hr,
      resolveMidi_after_audio_fst] at hc
    cases hs : derefShow ws (resolveMidi env w).1 with
    | none =>
      rw [hs] at hc
      exact Option.noConfusion hc
    | some ws' =>
      rw [hs] at hc
      simp only [derefShow] at hs
      cases hf : QMap.find (resolveMidi env w).1 ws with
      | none =>
        rw [hf] at hs
        exact Option.noConfusion hs
      | some v =>
        rw [hf] at hs
        simp only [Option.some.injEq, Prod.mk.injEq] at hc
        rw [← hc.2, ← Option.some.inj hs, hws]

/-- With untranslated names every registered name is a value of the name map,
and each label stands for itself. -/
theorem ifaceNames_untranslated (tr : QString → QString) (widgets : QMap SetupWidget)
    (htr : ∀ k ∈ QMap.keys widgets, tr k = k) (k : QString) (hk : k ∈ QMap.keys widgets) :
    QMap.find k (ifaceNames tr (QMap.keys widgets) []) = some k ∧
    k ∈ (ifaceNames tr (QMap.keys widgets) []).map Prod.snd := by
  have hlab : k ∈ QMap.keys (ifaceNames tr (QMap.keys widgets) []) :=
    (mem_ifaceLabels_of_untranslated tr widgets htr k).mpr hk
  obtain ⟨v, hf, hm⟩ := QMap.find_of_mem_keys k _ hlab
  rcases mem_ifaceNames tr (k, v) _ _ hm with h | ⟨h1, h2⟩
  · simp at h
  · have hv : v = k := by
      simp only at h1 h2
      rw [htr v h1] at h2
      exact h2.symm
    subst hv
    exact ⟨hf, List.mem_map.mpr ⟨(v, v), hm, rfl⟩⟩

/-- With untranslated names the second loop hides every registered widget. -/
theorem hidden_registry_untranslated (tr : QString → QString) (widgets : QMap SetupWidget)
    (htr : ∀ k ∈ QMap.keys widgets, tr k = k) :
    (widgets.map fun e =>
      if e.1 ∈ (ifaceNames tr (QMap.keys widgets) []).map Prod.snd
      then (e.1, e.2.hide) else e) = hideAll widgets := by
  unfold hideAll
  apply List.map_congr_left
  intro e he
  have hk : e.1 ∈ QMap.keys widgets := List.mem_map.mpr ⟨e, he, rfl⟩
  rw [if_pos (ifaceNames_untranslated tr widgets htr e.1 hk).2]

/-- Where C8 holds after construction: when the registered names are offered
untranslated, every completed construction shows, for each kind, the widget of
the resolved name and no other, and the combo box selects that name. -/
theorem construct_untranslated_shown_selected (env : Env) (w : World) (d : SetupDialog)
    (w' : World) (d' : SetupDialog)
    (hc : SetupDialog.constructInterfaces env w d = some (w', d'))
    (htrA : ∀ k ∈ QMap.keys (audioIfaceSetupWidgets env.build env.audio), env.tr k = k)
    (htrM : ∀ k ∈ QMap.keys (midiIfaceSetupWidgets env.build env.midi), env.tr k = k) :
    shownWidgets d'.m_audioIfaceSetupWidgets = [(resolveAudio env w).1] ∧
    d'.selectedAudio = some (resolveAudio env w).1 ∧
    shownWidgets d'.m_midiIfaceSetupWidgets = [(resolveMidi env w).1] ∧
    d'.selectedMidi = some (resolveMidi env w).1 := by
  have hwA := constructInterfaces_audio_widgets env w d w' d' hc
  have hwM := constructInterfaces_midi_widgets env w d w' d' hc
  have hn := constructInterfaces_names env w d w' d' hc
  rw [hidden_registry_untranslated _ _ htrA] at hwA
  rw [hidden_registry_untranslated _ _ htrM] at hwM
  rcases constructInterfaces_spec env w d with
    ⟨-, hnone⟩ | ⟨hA, hM, d'', hs, ⟨-, -, ha3, ha4⟩, ⟨-, -, hm3, hm4⟩⟩
  · rw [hnone] at hc
    exact Option.noConfusion hc
  · rw [hs] at hc
    have hd : d'' = d' := congrArg Prod.snd (Option.some.inj hc)
    subst hd
    have hlA := (mem_ifaceLabels_of_untranslated _ _ htrA _).mpr hA
    have hlM := (mem_ifaceLabels_of_untranslated _ _ htrM _).mpr hM
    rw [if_pos hlA, ← ha3] at ha4
    rw [if_pos hlM, ← hm3] at hm4
    rw [← ha3] at hlA
    rw [← hm3] at hlM
    refine ⟨?_, ?_, ?_, ?_⟩
    · rw [hwA]
      exact shownWidgets_show_hideAll _ _ hA
        (QMap.nodup_keys_of_ordered _ (audioIfaceSetupWidgets_ordered _ _))
    · unfold SetupDialog.selectedAudio
      rw [QComboBox.currentText_of_index _ _ hlA ha4, hn.1]
      exact (ifaceNames_untranslated _ _ htrA _ hA).1
    · rw [hwM]
      exact shownWidgets_show_hideAll _ _ hM
        (QMap.nodup_keys_of_ordered _ (midiIfaceSetupWidgets_ordered _ _))
    · unfold SetupDialog.selectedMidi
      rw [QComboBox.currentText_of_index _ _ hlM hm4, hn.2]
      exact (ifaceNames_untranslated _ _ htrM _ hM).1

theorem QComboBox.currentText_setCurrentIndex (c : QComboBox) (i : Nat)
    (hi : i < c.items.length) :
    (c.setCurrentIndex i).currentText = c.items.getD i "" := by
  have h : (0 : Int) ≤ (i : Int) ∧ (i : Int) < (c.items.length : Int) := by
    constructor <;> omega
  simp only [QComboBox.currentText, QComboBox.setCurrentIndex, h, and_self, if_true,
    Int.ofNat_nonneg, Int.toNat_ofNat]

/-- Where C8 holds for the slots: after every completed construction, under
any translation, activating an item of the audio combo box runs
`audioInterfaceChanged` to completion, after which exactly one audio widget is
shown and it is the widget of the backend the combo box selects. -/
theorem activatedAudio_after_construct (env : Env) (w : World) (d : SetupDialog)
    (w' : World) (d' : SetupDialog)
    (hc : SetupDialog.constructInterfaces env w d = some (w', d'))
    (i : Nat) (hi : i < d'.m_audioInterfaces.items.length) :
    ∃ d'' name, d'.activatedAudio i = some d'' ∧
      shownWidgets d''.m_audioIfaceSetupWidgets = [name] ∧
      d''.selectedAudio = some name := by
  have hn := (constructInterfaces_names env w d w' d' hc).1
  rcases constructInterfaces_spec env w d with
    ⟨-, hnone⟩ | ⟨-, -, d₀, hs, ⟨ha1, -, ha3, -⟩, -⟩
  · rw [hnone] at hc
    exact Option.noConfusion hc
  · rw [hs] at hc
    have hd : d₀ = d' := congrArg Prod.snd (Option.some.inj hc)
    subst hd
    have hlab : d₀.m_audioInterfaces.items.getD i "" ∈
        QMap.keys d₀.m_audioIfaceNames := by
      rw [hn, List.getD_eq_getElem _ _ hi]
      have hmem : ∀ x ∈ d₀.m_audioInterfaces.items,
          x ∈ QMap.keys (ifaceNames env.tr
            (QMap.keys (audioIfaceSetupWidgets env.build env.audio)) []) := by
        rw [ha3]
        exact fun x hx => hx
      exact hmem _ (List.getElem_mem hi)
    obtain ⟨name, hf, hm⟩ := QMap.find_of_mem_keys _ _ hlab
    have hname : name ∈ QMap.keys d₀.m_audioIfaceSetupWidgets := by
      rw [hn] at hm
      rcases mem_ifaceNames _ _ _ _ hm with h | ⟨h, -⟩
      · simp at h
      · rw [ha1]
        exact h
    have hnd : (QMap.keys d₀.m_audioIfaceSetupWidgets).Nodup := by
      rw [ha1]
      exact QMap.nodup_keys_of_ordered _ (audioIfaceSetupWidgets_ordered _ _)
    obtain ⟨d'', h1, h2, h3, h4⟩ := audioInterfaceChanged_spec
      { d₀ with m_audioInterfaces := d₀.m_audioInterfaces.setCurrentIndex i }
      (d₀.m_audioInterfaces.items.getD i "") name hf hname hnd
    refine ⟨d'', name, ?_, h2, ?_⟩
    · simp only [SetupDialog.activatedAudio, hi, if_true]
      exact h1
    · unfold SetupDialog.selectedAudio
      rw [h3, h4]
      simp only [QComboBox.currentText_setCurrentIndex _ _ hi]
      exact hf

/-- The same for the MIDI combo box and `midiInterfaceChanged`. -/
theorem activatedMidi_after_construct (env : Env) (w : World) (d : SetupDialog)
    (w' : World) (d' : SetupDialog)
    (hc : SetupDialog.constructInterfaces env w d = some (w', d'))
    (i : Nat) (hi : i < d'.m_midiInterfaces.items.length) :
    ∃ d'' name, d'.activatedMidi i = some d'' ∧
      shownWidgets d''.m_midiIfaceSetupWidgets = [name] ∧
      d''.selectedMidi = some name := by
  have hn := (constructInterfaces_names env w d w' d' hc).2
  rcases constructInterfaces_spec env w d with
    ⟨-, hnone⟩ | ⟨-, -, d₀, hs, -, ⟨hm1, -, hm3, -⟩⟩
  · rw [hnone] at hc
    exact Option.noConfusion hc
  · rw [hs] at hc
    have hd : d₀ = d' := congrArg Prod.snd (Option.some.inj hc)
    subst hd
    have hlab : d₀.m_midiInterfaces.items.getD i "" ∈
        QMap.keys d₀.m_midiIfaceNames := by
      rw [hn, List.getD_eq_getElem _ _ hi]
      have hmem : ∀ x ∈ d₀.m_midiInterfaces.items,
          x ∈ QMap.keys (ifaceNames env.tr
            (QMap.keys (midiIfaceSetupWidgets env.build env.midi)) []) := by
        rw [hm3]
        exact fun x hx => hx
      exact hmem _ (List.getElem_mem hi)
    obtain ⟨name, hf, hm⟩ := QMap.find_of_mem_keys _ _ hlab
    have hname : name ∈ QMap.keys d₀.m_midiIfaceSetupWidgets := by
      rw [hn] at hm
      rcases mem_ifaceNames _ _ _ _ hm with h | ⟨h, -⟩
      · simp at h
      · rw [hm1]
        exact h
    have hnd : (QMap.keys d₀.m_midiIfaceSetupWidgets).Nodup := by
      rw [hm1]
      exact QMap.nodup_keys_of_ordered _ (midiIfaceSetupWidgets_ordered _ _)
    obtain ⟨d'', h1, h2, h3, h4⟩ := midiInterfaceChanged_spec
      { d₀ with m_midiInterfaces := d₀.m_midiInterfaces.setCurrentIndex i }
      (d₀.m_midiInterfaces.items.getD i "") name hf hname hnd
    refine ⟨d'', name, ?_, h2, ?_⟩
    · simp only [SetupDialog.activatedMidi, hi, if_true]
      exact h1
    · unfold SetupDialog.selectedMidi
      rw [h3, h4]
      simp only [QComboBox.currentText_setCurrentIndex _ _ hi]
      exact hf

/-! ## C1: the resolved name and the registry -/

/-- C1, as stated, fails. In the ALSA build without JACK, with untranslated
names and an empty preference, an engine that reports the JACK device makes the
constructor resolve to the JACK name, which is no key of the audio registry,
and the call through the missing widget ends the construction. With translated
labels, a preference equal to a label is found in the combo box and resolved to,
though the registry has no such key. -/
theorem C1_resolved_name_unregistered :
    ((resolveAudio { alsaEnv with audioDevName := "JACK (JACK Audio Connection Kit)" }
          (worldWith "" "")).1 = "JACK (JACK Audio Connection Kit)" ∧
      (resolveAudio { alsaEnv with audioDevName := "JACK (JACK Audio Connection Kit)" }
          (worldWith "" "")).1 ∉ QMap.keys (audioIfaceSetupWidgets alsaBuild upstreamAudio) ∧
      SetupDialog.constructAudio
          { alsaEnv with audioDevName := "JACK (JACK Audio Connection Kit)" }
          (worldWith "" "") SetupDialog.blank = none) ∧
    ((resolveMidi { alsaEnv with tr := trDe }
          (worldWith "" "Dummy (no MIDI support) [de]")).1 = "Dummy (no MIDI support) [de]" ∧
      (resolveMidi { alsaEnv with tr := trDe }
          (worldWith "" "Dummy (no MIDI support) [de]")).1 ∉
        QMap.keys (midiIfaceSetupWidgets alsaBuild upstreamMidi)) := by
  decide

/-- C1, amended: when the engine's audio device name and MIDI client name are
keys of the registries and the registered names are offered untranslated, then
for every persisted preference the name the constructor resolves to is a key of
the registry of its kind, the constructor completes, the widget registered
under the resolved name is shown and the combo box has the resolved name as its
current text. -/
theorem C1_resolved_name_registered (env : Env) (w : World) (d : SetupDialog)
    (htrA : ∀ k ∈ QMap.keys (audioIfaceSetupWidgets env.build env.audio), env.tr k = k)
    (htrM : ∀ k ∈ QMap.keys (midiIfaceSetupWidgets env.build env.midi), env.tr k = k)
    (hengA : env.audioDevName ∈ QMap.keys (audioIfaceSetupWidgets env.build env.audio))
    (hengM : env.midiClientName ∈ QMap.keys (midiIfaceSetupWidgets env.build env.midi)) :
    (resolveAudio env w).1 ∈ QMap.keys (audioIfaceSetupWidgets env.build env.audio) ∧
    (resolveMidi env w).1 ∈ QMap.keys (midiIfaceSetupWidgets env.build env.midi) ∧
    ∃ w' d', SetupDialog.constructInterfaces env w d = some (w', d') ∧
      QMap.find (resolveAudio env w).1 d'.m_audioIfaceSetupWidgets = some { hidden := false } ∧
      d'.m_audioInterfaces.currentText = (resolveAudio env w).1 ∧
      QMap.find (resolveMidi env w).1 d'.m_midiIfaceSetupWidgets = some { hidden := false } ∧
      d'.m_midiInterfaces.currentText = (resolveMidi env w).1 := by
  have hA : (resolveAudio env w).1 ∈
      QMap.keys (audioIfaceSetupWidgets env.build env.audio) := by
    rw [resolveAudio_fst]
    split
    · rename_i h
      exact (mem_ifaceLabels_of_untranslated _ _ htrA _).mp h
    · exact hengA
  have hM : (resolveMidi env w).1 ∈
      QMap.keys (midiIfaceSetupWidgets env.build env.midi) := by
    rw [resolveMidi_fst]
    split
    · rename_i h
      exact (mem_ifaceLabels_of_untranslated _ _ htrM _).mp h
    · exact hengM
  refine ⟨hA, hM, ?_⟩
  rcases constructInterfaces_spec env w d with
    ⟨h | h, -⟩ | ⟨-, -, d', hc, ⟨-, ha2, ha3, ha4⟩, ⟨-, hm2, hm3, hm4⟩⟩
  · exact absurd hA h
  · exact absurd hM h
  · have hlA := (mem_ifaceLabels_of_untranslated _ _ htrA _).mpr hA
    have hlM := (mem_ifaceLabels_of_untranslated _ _ htrM _).mpr hM
    rw [if_pos hlA, ← ha3] at ha4
    rw [if_pos hlM, ← hm3] at hm4
    rw [← ha3] at hlA
    rw [← hm3] at hlM
    exact ⟨_, d', hc, ha2, QComboBox.currentText_of_index _ _ hlA ha4, hm2,
      QComboBox.currentText_of_index _ _ hlM hm4⟩

/-- C1, amended, at the ALSA build with an empty audio preference and the
MIDI preference `Dummy (no MIDI support)`. -/
theorem C1_resolved_name_registered_witness :
    (resolveAudio alsaEnv (worldWith "" "Dummy (no MIDI support)")).1 ∈
      QMap.keys (audioIfaceSetupWidgets alsaEnv.build alsaEnv.audio) ∧
    (resolveMidi alsaEnv (worldWith "" "Dummy (no MIDI support)")).1 ∈
      QMap.keys (midiIfaceSetupWidgets alsaEnv.build alsaEnv.midi) ∧
    ∃ w' d', SetupDialog.constructInterfaces alsaEnv (worldWith "" "Dummy (no MIDI support)")
        SetupDialog.blank = some (w', d') ∧
      QMap.find (resolveAudio alsaEnv (worldWith "" "Dummy (no MIDI support)")).1
        d'.m_audioIfaceSetupWidgets = some { hidden := false } ∧
      d'.m_audioInterfaces.currentText =
        (resolveAudio alsaEnv (worldWith "" "Dummy (no MIDI support)")).1 ∧
      QMap.find (resolveMidi alsaEnv (worldWith "" "Dummy (no MIDI support)")).1
        d'.m_midiIfaceSetupWidgets = some { hidden := false } ∧
      d'.m_midiInterfaces.currentText =
        (resolveMidi alsaEnv (worldWith "" "Dummy (no MIDI support)")).1 :=
  C1_resolved_name_registered alsaEnv (worldWith "" "Dummy (no MIDI support)")
    SetupDialog.blank (by decide) (by decide) (by decide) (by decide)

/-! ## C2: a registered preference -/

/-- C2, on the code: with translated labels a registered preference is not
kept. The ALSA build offers its backends under translated labels; the
preference is the registered ALSA name and the engine runs the dummy device.
The lookup among the labels misses the preference: the constructor resolves to
the dummy device and writes its name over the preference, for audio and for
MIDI. -/
theorem C2_registered_preference_overwritten :
    "ALSA (Advanced Linux Sound Architecture)" ∈
      QMap.keys (audioIfaceSetupWidgets alsaBuild upstreamAudio) ∧
    "ALSA-Sequencer (Advanced Linux Sound Architecture)" ∈
      QMap.keys (midiIfaceSetupWidgets alsaBuild upstreamMidi) ∧
    (SetupDialog.constructInterfaces
        { alsaEnv with tr := trDe, audioDevName := "Dummy (no sound output)",
                       midiClientName := "Dummy (no MIDI support)" }
        (worldWith "ALSA (Advanced Linux Sound Architecture)"
          "ALSA-Sequencer (Advanced Linux Sound Architecture)")
        SetupDialog.blank).map
      (fun r => (r.1, shownWidgets r.2.m_audioIfaceSetupWidgets,
        shownWidgets r.2.m_midiIfaceSetupWidgets)) =
      some ({ settings := [(("mixer", "audiodev"), "Dummy (no sound output)"),
                           (("mixer", "mididev"), "Dummy (no MIDI support)")],
              calls := [Call.setValue "mixer" "audiodev" "Dummy (no sound output)",
                        Call.setValue "mixer" "mididev" "Dummy (no MIDI support)"] },
            ["Dummy (no sound output)"], ["Dummy (no MIDI support)"]) := by
  decide

/-! ## C3: a preference that is not offered -/

/-- C3: whenever the persisted audio preference is not among the labels of the
audio combo box, the constructor resolves to the engine's audio device name and
makes exactly one write, of that name, to `"mixer"/"audiodev"`, after which the
persisted preference is the resolved name; a construction that completes ends
with that preference. Likewise for MIDI with the engine's MIDI client name and
`"mixer"/"mididev"`. -/
theorem C3_unknown_preference_falls_back (env : Env) (w : World) :
    (w.value "mixer" "audiodev" ∉
        ifaceLabels env.tr (audioIfaceSetupWidgets env.build env.audio) →
      (resolveAudio env w).1 = env.audioDevName ∧
      (resolveAudio env w).2.calls =
        w.calls ++ [Call.setValue "mixer" "audiodev" env.audioDevName] ∧
      (resolveAudio env w).2.value "mixer" "audiodev" = (resolveAudio env w).1 ∧
      ∀ d w' d', SetupDialog.constructInterfaces env w d = some (w', d') →
        w'.value "mixer" "audiodev" = env.audioDevName) ∧
    (w.value "mixer" "mididev" ∉
        ifaceLabels env.tr (midiIfaceSetupWidgets env.build env.midi) →
      (resolveMidi env w).1 = env.midiClientName ∧
      (resolveMidi env w).2.calls =
        w.calls ++ [Call.setValue "mixer" "mididev" env.midiClientName] ∧
      (resolveMidi env w).2.value "mixer" "mididev" = (resolveMidi env w).1 ∧
      ∀ d w' d', SetupDialog.constructInterfaces env w d = some (w', d') →
        w'.value "mixer" "mididev" = env.midiClientName) := by
  constructor
  · intro h
    have h1 := resolveAudio_of_not_label env w h
    refine ⟨h1.1, h1.2, resolveAudio_value_audiodev env w, ?_⟩
    intro d w' d' hc
    rw [constructInterfaces_world env w d w' d' hc, resolveMidi_value_audiodev,
      resolveAudio_value_audiodev, h1.1]
  · intro h
    have h1 := resolveMidi_of_not_label env w h
    refine ⟨h1.1, h1.2, resolveMidi_value_mididev env w, ?_⟩
    intro d w' d' hc
    rw [constructInterfaces_world env w d w' d' hc, resolveMidi_value_mididev,
      resolveMidi_after_audio_fst, h1.1]

/-- C3 at the ALSA build with the preferences `jack` and `none`, neither
offered: both are replaced by the engine's names, and the construction
completes. -/
theorem C3_unknown_preference_falls_back_witness :
    ((resolveAudio alsaEnv (worldWith "jack" "none")).1 = alsaEnv.audioDevName ∧
      (resolveAudio alsaEnv (worldWith "jack" "none")).2.calls =
        (worldWith "jack" "none").calls ++
          [Call.setValue "mixer" "audiodev" alsaEnv.audioDevName] ∧
      (resolveAudio alsaEnv (worldWith "jack" "none")).2.value "mixer" "audiodev" =
        (resolveAudio alsaEnv (worldWith "jack" "none")).1 ∧
      ∀ d w' d', SetupDialog.constructInterfaces alsaEnv (worldWith "jack" "none") d =
          some (w', d') → w'.value "mixer" "audiodev" = alsaEnv.audioDevName) ∧
    ((resolveMidi alsaEnv (worldWith "jack" "none")).1 = alsaEnv.midiClientName ∧
      (resolveMidi alsaEnv (worldWith "jack" "none")).2.calls =
        (worldWith "jack" "none").calls ++
          [Call.setValue "mixer" "mididev" alsaEnv.midiClientName] ∧
      (resolveMidi alsaEnv (worldWith "jack" "none")).2.value "mixer" "mididev" =
        (resolveMidi alsaEnv (worldWith "jack" "none")).1 ∧
      ∀ d w' d', SetupDialog.constructInterfaces alsaEnv (worldWith "jack" "none") d =
          some (w', d') → w'.value "mixer" "mididev" = alsaEnv.midiClientName) ∧
    (SetupDialog.constructInterfaces alsaEnv (worldWith "jack" "none")
      SetupDialog.blank).isSome = true :=
  ⟨(C3_unknown_preference_falls_back alsaEnv (worldWith "jack" "none")).1 (by decide),
   (C3_unknown_preference_falls_back alsaEnv (worldWith "jack" "none")).2 (by decide),
   by decide⟩

/-! ## C4: the empty preference -/

/-- C4, as stated, fails: in the ALSA build without JACK, with both
preferences empty and untranslated names, an engine whose MIDI client is
`Jack-MIDI` makes the MIDI page call through a widget that is not registered,
and the construction does not complete. -/
theorem C4_empty_preference_not_completed :
    (worldWith "" "").value "mixer" "mididev" = "" ∧
    (resolveMidi { alsaEnv with midiClientName := "Jack-MIDI" } (worldWith "" "")).1 =
      "Jack-MIDI" ∧
    SetupDialog.constructMidi { alsaEnv with midiClientName := "Jack-MIDI" }
      (worldWith "" "") SetupDialog.blank = none ∧
    SetupDialog.constructInterfaces { alsaEnv with midiClientName := "Jack-MIDI" }
      (worldWith "" "") SetupDialog.blank = none := by
  decide

/-- C4, amended: for each kind, when the persisted preference is empty, no
label of the combo box is empty and the engine's name is a key of the registry,
the page of the constructor completes, resolves to the engine's name and shows
the widget registered under it. -/
theorem C4_empty_preference_resolves_to_engine (env : Env) (w : World) (d : SetupDialog) :
    (w.value "mixer" "audiodev" = "" →
      "" ∉ ifaceLabels env.tr (audioIfaceSetupWidgets env.build env.audio) →
      env.audioDevName ∈ QMap.keys (audioIfaceSetupWidgets env.build env.audio) →
      (resolveAudio env w).1 = env.audioDevName ∧
      ∃ d', SetupDialog.constructAudio env w d = some ((resolveAudio env w).2, d') ∧
        QMap.find env.audioDevName d'.m_audioIfaceSetupWidgets = some { hidden := false }) ∧
    (w.value "mixer" "mididev" = "" →
      "" ∉ ifaceLabels env.tr (midiIfaceSetupWidgets env.build env.midi) →
      env.midiClientName ∈ QMap.keys (midiIfaceSetupWidgets env.build env.midi) →
      (resolveMidi env w).1 = env.midiClientName ∧
      ∃ d', SetupDialog.constructMidi env w d = some ((resolveMidi env w).2, d') ∧
        QMap.find env.midiClientName d'.m_midiIfaceSetupWidgets = some { hidden := false }) := by
  constructor
  · intro hp hl heng
    have h1 : (resolveAudio env w).1 = env.audioDevName := by
      rw [resolveAudio_fst, hp, if_neg hl]
    refine ⟨h1, ?_⟩
    rcases constructAudio_spec env w d with ⟨h, -⟩ | ⟨-, d', hc, -, hf, -⟩
    · rw [h1] at h
      exact absurd heng h
    · rw [h1] at hf
      exact ⟨d', hc, hf⟩
  · intro hp hl heng
    have h1 : (resolveMidi env w).1 = env.midiClientName := by
      rw [resolveMidi_fst, hp, if_neg hl]
    refine ⟨h1, ?_⟩
    rcases constructMidi_spec env w d with ⟨h, -⟩ | ⟨-, d', hc, -, hf, -⟩
    · rw [h1] at h
      exact absurd heng h
    · rw [h1] at hf
      exact ⟨d', hc, hf⟩

/-- C4, amended, at the ALSA build with both preferences empty. -/
theorem C4_empty_preference_resolves_to_engine_witness :
    ((resolveAudio alsaEnv (worldWith "" "")).1 = alsaEnv.audioDevName ∧
      ∃ d', SetupDialog.constructAudio alsaEnv (worldWith "" "") SetupDialog.blank =
          some ((resolveAudio alsaEnv (worldWith "" "")).2, d') ∧
        QMap.find alsaEnv.audioDevName d'.m_audioIfaceSetupWidgets =
          some { hidden := false }) ∧
    ((resolveMidi alsaEnv (worldWith "" "")).1 = alsaEnv.midiClientName ∧
      ∃ d', SetupDialog.constructMidi alsaEnv (worldWith "" "") SetupDialog.blank =
          some ((resolveMidi alsaEnv (worldWith "" "")).2, d') ∧
        QMap.find alsaEnv.midiClientName d'.m_midiIfaceSetupWidgets =
          some { hidden := false }) :=
  ⟨(C4_empty_preference_resolves_to_engine alsaEnv (worldWith "" "") SetupDialog.blank).1
      (by decide) (by decide) (by decide),
   (C4_empty_preference_resolves_to_engine alsaEnv (worldWith "" "") SetupDialog.blank).2
      (by decide) (by decide) (by decide)⟩

/-! ## C5: idempotence -/

/-- C5: for a fixed environment (registry, translation, engine), resolving in
any world whose persisted preference is the name resolved from `w` gives that
same name, for audio and for MIDI; in particular resolving again in the world
the resolution leaves gives the same name. -/
theorem C5_resolution_idempotent (env : Env) (w w₂ : World) :
    (w₂.value "mixer" "audiodev" = (resolveAudio env w).1 →
      (resolveAudio env w₂).1 = (resolveAudio env w).1) ∧
    (w₂.value "mixer" "mididev" = (resolveMidi env w).1 →
      (resolveMidi env w₂).1 = (resolveMidi env w).1) ∧
    (resolveAudio env (resolveAudio env w).2).1 = (resolveAudio env w).1 ∧
    (resolveMidi env (resolveMidi env w).2).1 = (resolveMidi env w).1 := by
  have hA : ∀ w₂ : World, w₂.value "mixer" "audiodev" = (resolveAudio env w).1 →
      (resolveAudio env w₂).1 = (resolveAudio env w).1 := by
    intro w₂ h
    rw [resolveAudio_fst env w₂, h]
    split
    · rfl
    · rename_i hn
      rw [resolveAudio_fst] at hn ⊢
      split
      · rename_i hp
        rw [if_pos hp] at hn
        exact absurd hp hn
      · rfl
  have hM : ∀ w₂ : World, w₂.value "mixer" "mididev" = (resolveMidi env w).1 →
      (resolveMidi env w₂).1 = (resolveMidi env w).1 := by
    intro w₂ h
    rw [resolveMidi_fst env w₂, h]
    split
    · rfl
    · rename_i hn
      rw [resolveMidi_fst] at hn ⊢
      split
      · rename_i hp
        rw [if_pos hp] at hn
        exact absurd hp hn
      · rfl
  exact ⟨hA w₂, hM w₂, hA _ (resolveAudio_value_audiodev env w),
    hM _ (resolveMidi_value_mididev env w)⟩

/-- C5 at the ALSA build: the preferences `jack` and `Dummy (no MIDI support)`
resolve to the ALSA device and the dummy client, and these names resolve to
themselves. -/
theorem C5_resolution_idempotent_witness :
    (resolveAudio alsaEnv (worldWith "ALSA (Advanced Linux Sound Architecture)" "")).1 =
      (resolveAudio alsaEnv (worldWith "jack" "Dummy (no MIDI support)")).1 ∧
    (resolveMidi alsaEnv (worldWith "" "Dummy (no MIDI support)")).1 =
      (resolveMidi alsaEnv (worldWith "jack" "Dummy (no MIDI support)")).1 :=
  ⟨(C5_resolution_idempotent alsaEnv (worldWith "jack" "Dummy (no MIDI support)")
      (worldWith "ALSA (Advanced Linux Sound Architecture)" "")).1 (by decide),
   (C5_resolution_idempotent alsaEnv (worldWith "jack" "Dummy (no MIDI support)")
      (worldWith "" "Dummy (no MIDI support)")).2.1 (by decide)⟩

/-! ## C6: one dummy entry, no duplicate label -/

/-- C6: for every build, every choice of backend names and every translation,
the audio registry has exactly one entry under the name of `AudioDummy` and the
MIDI registry exactly one under the name of `MidiDummy`, the labels offered by
each combo box are pairwise different, and every construction that completes
ends with these registries and these combo boxes. -/
theorem C6_one_dummy_no_duplicates (env : Env) :
    (QMap.keys (audioIfaceSetupWidgets env.build env.audio)).count env.audio.AudioDummy = 1 ∧
    (ifaceLabels env.tr (audioIfaceSetupWidgets env.build env.audio)).Nodup ∧
    (QMap.keys (midiIfaceSetupWidgets env.build env.midi)).count env.midi.MidiDummy = 1 ∧
    (ifaceLabels env.tr (midiIfaceSetupWidgets env.build env.midi)).Nodup ∧
    ∀ w d w' d', SetupDialog.constructInterfaces env w d = some (w', d') →
      (QMap.keys d'.m_audioIfaceSetupWidgets).count env.audio.AudioDummy = 1 ∧
      d'.m_audioInterfaces.items.Nodup ∧
      (QMap.keys d'.m_midiIfaceSetupWidgets).count env.midi.MidiDummy = 1 ∧
      d'.m_midiInterfaces.items.Nodup := by
  have hA : (QMap.keys (audioIfaceSetupWidgets env.build env.audio)).count
      env.audio.AudioDummy = 1 :=
    List.count_eq_one_of_mem
      (QMap.nodup_keys_of_ordered _ (audioIfaceSetupWidgets_ordered _ _))
      ((mem_audioIfaceSetupWidgets _ _ _).mpr (Or.inl rfl))
  have hM : (QMap.keys (midiIfaceSetupWidgets env.build env.midi)).count
      env.midi.MidiDummy = 1 :=
    List.count_eq_one_of_mem
      (QMap.nodup_keys_of_ordered _ (midiIfaceSetupWidgets_ordered _ _))
      ((mem_midiIfaceSetupWidgets _ _ _).mpr (Or.inl rfl))
  refine ⟨hA, ifaceLabels_nodup _ _, hM, ifaceLabels_nodup _ _, ?_⟩
  intro w d w' d' hc
  rcases constructInterfaces_spec env w d with
    ⟨-, hn⟩ | ⟨-, -, d'', hs, ⟨ha1, -, ha3, -⟩, ⟨hm1, -, hm3, -⟩⟩
  · rw [hn] at hc
    exact Option.noConfusion hc
  · rw [hs] at hc
    have hd : d'' = d' := congrArg Prod.snd (Option.some.inj hc)
    subst hd
    rw [ha1, ha3, hm1, hm3]
    exact ⟨hA, ifaceLabels_nodup _ _, hM, ifaceLabels_nodup _ _⟩

/-- C6 on a completed construction: the ALSA build under the translation
`trDe`. -/
theorem C6_one_dummy_no_duplicates_witness :
    ∃ w' d', SetupDialog.constructInterfaces { alsaEnv with tr := trDe } (worldWith "" "")
        SetupDialog.blank = some (w', d') ∧
      (QMap.keys d'.m_audioIfaceSetupWidgets).count "Dummy (no sound output)" = 1 ∧
      d'.m_audioInterfaces.items.Nodup ∧
      (QMap.keys d'.m_midiIfaceSetupWidgets).count "Dummy (no MIDI support)" = 1 ∧
      d'.m_midiInterfaces.items.Nodup := by
  rcases constructInterfaces_spec { alsaEnv with tr := trDe } (worldWith "" "")
      SetupDialog.blank with ⟨-, hn⟩ | ⟨-, -, d', hs, -⟩
  · exact absurd hn (by decide)
  · exact ⟨_, d', hs,
      (C6_one_dummy_no_duplicates { alsaEnv with tr := trDe }).2.2.2.2 _ _ _ _ hs⟩

/-! ## C7: a preference for a backend that is compiled out -/

/-- C7, as stated, fails: in the ALSA build without JACK, with untranslated
names and an engine that runs the ALSA device and the ALSA sequencer, the
preferences `JACK (JACK Audio Connection Kit)` and `Jack-MIDI` are resolved to
the engine's ALSA names, not to the dummy backends, and the ALSA names are
what is persisted. -/
theorem C7_compiled_out_resolves_to_engine_not_dummy :
    alsaEnv.build.LMMS_HAVE_JACK = false ∧
    (SetupDialog.constructInterfaces alsaEnv
        (worldWith "JACK (JACK Audio Connection Kit)" "Jack-MIDI") SetupDialog.blank).map
      (fun r => (r.1.settings, shownWidgets r.2.m_audioIfaceSetupWidgets,
        shownWidgets r.2.m_midiIfaceSetupWidgets)) =
      some ([(("mixer", "audiodev"), "ALSA (Advanced Linux Sound Architecture)"),
             (("mixer", "mididev"), "ALSA-Sequencer (Advanced Linux Sound Architecture)")],
            ["ALSA (Advanced Linux Sound Architecture)"],
            ["ALSA-Sequencer (Advanced Linux Sound Architecture)"]) ∧
    (resolveAudio alsaEnv (worldWith "JACK (JACK Audio Connection Kit)" "Jack-MIDI")).1 ≠
      alsaEnv.audio.AudioDummy ∧
    (resolveMidi alsaEnv (worldWith "JACK (JACK Audio Connection Kit)" "Jack-MIDI")).1 ≠
      alsaEnv.midi.MidiDummy := by
  decide

/-- The added condition is needed: when a translation offers the ALSA device
under the name of `AudioJack`, the JACK preference is found among the labels
and kept, nothing is written, and the audio page ends in the call through the
widget that is not registered. -/
theorem jack_label_of_other_backend_kept :
    alsaBuild.LMMS_HAVE_JACK = false ∧
    resolveAudio { alsaEnv with tr := trJackForAlsa }
        (worldWith "JACK (JACK Audio Connection Kit)" "Jack-MIDI") =
      ("JACK (JACK Audio Connection Kit)",
        worldWith "JACK (JACK Audio Connection Kit)" "Jack-MIDI") ∧
    SetupDialog.constructAudio { alsaEnv with tr := trJackForAlsa }
      (worldWith "JACK (JACK Audio Connection Kit)" "Jack-MIDI") SetupDialog.blank = none := by
  decide

/-- C7, amended: in a build without JACK the registries hold no JACK entry:
every key is the name of one of the other backends. When the persisted audio
preference is the name of `AudioJack` and no label offered in the combo box is
that name, the constructor resolves to the engine's audio device name and
writes it to `"mixer"/"audiodev"`, where it is the persisted preference
afterwards and at the end of every construction that completes; when the
engine's name is a key of the registry the audio page completes and shows the
widget registered under it. Likewise for MIDI with the name of `MidiJack`, the
engine's MIDI client name and `"mixer"/"mididev"`. The translation is
arbitrary. -/
theorem C7_compiled_out_resolves_to_engine (env : Env) (w : World) (d : SetupDialog)
    (hjack : env.build.LMMS_HAVE_JACK = false) :
    ((∀ k ∈ QMap.keys (audioIfaceSetupWidgets env.build env.audio),
        k ∈ [env.audio.AudioAlsa, env.audio.AudioPulseAudio, env.audio.AudioPortAudio,
          env.audio.AudioSoundIo, env.audio.AudioSdl, env.audio.AudioOss,
          env.audio.AudioSndio, env.audio.AudioDummy]) ∧
      (w.value "mixer" "audiodev" = env.audio.AudioJack →
        env.audio.AudioJack ∉
          ifaceLabels env.tr (audioIfaceSetupWidgets env.build env.audio) →
        (resolveAudio env w).1 = env.audioDevName ∧
        (resolveAudio env w).2.calls =
          w.calls ++ [Call.setValue "mixer" "audiodev" env.audioDevName] ∧
        (resolveAudio env w).2.value "mixer" "audiodev" = env.audioDevName ∧
        (∀ w' d', SetupDialog.constructInterfaces env w d = some (w', d') →
          w'.value "mixer" "audiodev" = env.audioDevName) ∧
        (env.audioDevName ∈ QMap.keys (audioIfaceSetupWidgets env.build env.audio) →
          ∃ d', SetupDialog.constructAudio env w d = some ((resolveAudio env w).2, d') ∧
            QMap.find env.audioDevName d'.m_audioIfaceSetupWidgets =
              some { hidden := false }))) ∧
    ((∀ k ∈ QMap.keys (midiIfaceSetupWidgets env.build env.midi),
        k ∈ [env.midi.MidiAlsaSeq, env.midi.MidiAlsaRaw, env.midi.MidiOss,
          env.midi.MidiSndio, env.midi.MidiWinMM, env.midi.MidiApple, env.midi.MidiDummy]) ∧
      (w.value "mixer" "mididev" = env.midi.MidiJack →
        env.midi.MidiJack ∉
          ifaceLabels env.tr (midiIfaceSetupWidgets env.build env.midi) →
        (resolveMidi env w).1 = env.midiClientName ∧
        (resolveMidi env w).2.calls =
          w.calls ++ [Call.setValue "mixer" "mididev" env.midiClientName] ∧
        (resolveMidi env w).2.value "mixer" "mididev" = env.midiClientName ∧
        (∀ w' d', SetupDialog.constructInterfaces env w d = some (w', d') →
          w'.value "mixer" "mididev" = env.midiClientName) ∧
        (env.midiClientName ∈ QMap.keys (midiIfaceSetupWidgets env.build env.midi) →
          ∃ d', SetupDialog.constructMidi env w d = some ((resolveMidi env w).2, d') ∧
            QMap.find env.midiClientName d'.m_midiIfaceSetupWidgets =
              some { hidden := false }))) := by
  refine ⟨⟨?_, ?_⟩, ⟨?_, ?_⟩⟩
  · intro k hk
    rw [mem_audioIfaceSetupWidgets] at hk
    simp only [hjack, Bool.false_eq_true, false_and, or_false] at hk
    simp only [List.mem_cons, List.mem_singleton, List.not_mem_nil, or_false]
    tauto
  · intro hp hl
    rw [← hp] at hl
    have h1 := resolveAudio_of_not_label env w hl
    have hv : (resolveAudio env w).2.value "mixer" "audiodev" = env.audioDevName := by
      rw [resolveAudio_value_audiodev, h1.1]
    refine ⟨h1.1, h1.2, hv, ?_, ?_⟩
    · intro w' d' hc
      rw [constructInterfaces_world env w d w' d' hc, resolveMidi_value_audiodev, hv]
    · intro heng
      rcases constructAudio_spec env w d with ⟨h, -⟩ | ⟨-, d', hc, -, hf, -⟩
      · rw [h1.1] at h
        exact absurd heng h
      · rw [h1.1] at hf
        exact ⟨d', hc, hf⟩
  · intro k hk
    rw [mem_midiIfaceSetupWidgets] at hk
    simp only [hjack, Bool.false_eq_true, false_and, false_or] at hk
    simp only [List.mem_cons, List.mem_singleton, List.not_mem_nil, or_false]
    tauto
  · intro hp hl
    rw [← hp] at hl
    have h1 := resolveMidi_of_not_label env w hl
    have hv : (resolveMidi env w).2.value "mixer" "mididev" = env.midiClientName := by
      rw [resolveMidi_value_mididev, h1.1]
    refine ⟨h1.1, h1.2, hv, ?_, ?_⟩
    · intro w' d' hc
      rw [constructInterfaces_world env w d w' d' hc, resolveMidi_value_mididev,
        resolveMidi_after_audio_fst, h1.1]
    · intro heng
      rcases constructMidi_spec env w d with ⟨h, -⟩ | ⟨-, d', hc, -, hf, -⟩
      · rw [h1.1] at h
        exact absurd heng h
      · rw [h1.1] at hf
        exact ⟨d', hc, hf⟩

/-- C7, amended, at the ALSA build with every backend name offered in
translation and the preferences `JACK (JACK Audio Connection Kit)` and
`Jack-MIDI`: both are replaced by the engine's ALSA names, and the construction
completes with the ALSA widgets shown. -/
theorem C7_compiled_out_resolves_to_engine_witness :
    ((resolveAudio alsaEnvDe (worldWith "JACK (JACK Audio Connection Kit)" "Jack-MIDI")).1 =
        alsaEnvDe.audioDevName ∧
      (resolveAudio alsaEnvDe
          (worldWith "JACK (JACK Audio Connection Kit)" "Jack-MIDI")).2.calls =
        (worldWith "JACK (JACK Audio Connection Kit)" "Jack-MIDI").calls ++
          [Call.setValue "mixer" "audiodev" alsaEnvDe.audioDevName] ∧
      (resolveAudio alsaEnvDe
          (worldWith "JACK (JACK Audio Connection Kit)" "Jack-MIDI")).2.value
        "mixer" "audiodev" = alsaEnvDe.audioDevName ∧
      (∀ w' d', SetupDialog.constructInterfaces alsaEnvDe
          (worldWith "JACK (JACK Audio Connection Kit)" "Jack-MIDI") SetupDialog.blank =
            some (w', d') →
        w'.value "mixer" "audiodev" = alsaEnvDe.audioDevName) ∧
      (alsaEnvDe.audioDevName ∈
          QMap.keys (audioIfaceSetupWidgets alsaEnvDe.build alsaEnvDe.audio) →
        ∃ d', SetupDialog.constructAudio alsaEnvDe
            (worldWith "JACK (JACK Audio Connection Kit)" "Jack-MIDI") SetupDialog.blank =
            some ((resolveAudio alsaEnvDe
              (worldWith "JACK (JACK Audio Connection Kit)" "Jack-MIDI")).2, d') ∧
          QMap.find alsaEnvDe.audioDevName d'.m_audioIfaceSetupWidgets =
            some { hidden := false })) ∧
    ((resolveMidi alsaEnvDe (worldWith "JACK (JACK Audio Connection Kit)" "Jack-MIDI")).1 =
        alsaEnvDe.midiClientName ∧
      (resolveMidi alsaEnvDe
          (worldWith "JACK (JACK Audio Connection Kit)" "Jack-MIDI")).2.calls =
        (worldWith "JACK (JACK Audio Connection Kit)" "Jack-MIDI").calls ++
          [Call.setValue "mixer" "mididev" alsaEnvDe.midiClientName] ∧
      (resolveMidi alsaEnvDe
          (worldWith "JACK (JACK Audio Connection Kit)" "Jack-MIDI")).2.value
        "mixer" "mididev" = alsaEnvDe.midiClientName ∧
      (∀ w' d', SetupDialog.constructInterfaces alsaEnvDe
          (worldWith "JACK (JACK Audio Connection Kit)" "Jack-MIDI") SetupDialog.blank =
            some (w', d') →
        w'.value "mixer" "mididev" = alsaEnvDe.midiClientName) ∧
      (alsaEnvDe.midiClientName ∈
          QMap.keys (midiIfaceSetupWidgets alsaEnvDe.build alsaEnvDe.midi) →
        ∃ d', SetupDialog.constructMidi alsaEnvDe
            (worldWith "JACK (JACK Audio Connection Kit)" "Jack-MIDI") SetupDialog.blank =
            some ((resolveMidi alsaEnvDe
              (worldWith "JACK (JACK Audio Connection Kit)" "Jack-MIDI")).2, d') ∧
          QMap.find alsaEnvDe.midiClientName d'.m_midiIfaceSetupWidgets =
            some { hidden := false })) ∧
    (SetupDialog.constructInterfaces alsaEnvDe
        (worldWith "JACK (JACK Audio Connection Kit)" "Jack-MIDI") SetupDialog.blank).map
      (fun r => (r.1.settings, shownWidgets r.2.m_audioIfaceSetupWidgets,
        shownWidgets r.2.m_midiIfaceSetupWidgets)) =
      some ([(("mixer", "audiodev"), "ALSA (Advanced Linux Sound Architecture)"),
             (("mixer", "mididev"), "ALSA-Sequencer (Advanced Linux Sound Architecture)")],
            ["ALSA (Advanced Linux Sound Architecture)"],
            ["ALSA-Sequencer (Advanced Linux Sound Architecture)"]) :=
  ⟨(C7_compiled_out_resolves_to_engine alsaEnvDe
      (worldWith "JACK (JACK Audio Connection Kit)" "Jack-MIDI") SetupDialog.blank
      (by decide)).1.2 (by decide) (by decide),
   (C7_compiled_out_resolves_to_engine alsaEnvDe
      (worldWith "JACK (JACK Audio Connection Kit)" "Jack-MIDI") SetupDialog.blank
      (by decide)).2.2 (by decide) (by decide),
   by decide⟩

/-! ## C8: one setup widget shown -/

/-- C8, on the code: with translated labels the constructor does not leave the
shown widget and the selection in agreement. In the ALSA build under the
translation `trDe` (`alsaEnvDe`), with empty preferences and an engine that runs the ALSA
device, the construction completes and shows the ALSA widget alone, but the
lookup of the untranslated name among the translated labels fails: the combo
box is left without a current item and selects no backend, and `accept()` then
persists the empty string as the audio device. Activating the first item
brings selection and shown widget together. -/
theorem C8_shown_widget_not_selected :
    (SetupDialog.constructInterfaces alsaEnvDe (worldWith "" "") SetupDialog.blank).map
        (fun r => shownWidgets r.2.m_audioIfaceSetupWidgets) =
      some ["ALSA (Advanced Linux Sound Architecture)"] ∧
    (SetupDialog.constructInterfaces alsaEnvDe (worldWith "" "") SetupDialog.blank).map
        (fun r => (r.2.m_audioInterfaces.currentIndex, r.2.m_audioInterfaces.currentText)) =
      some (-1, "") ∧
    (SetupDialog.constructInterfaces alsaEnvDe (worldWith "" "") SetupDialog.blank).map
        (fun r => r.2.selectedAudio) = some none ∧
    (SetupDialog.constructInterfaces alsaEnvDe (worldWith "" "") SetupDialog.blank).map
        (fun r => ((SetupDialog.accept alsaEnvDe r.1 r.2).1).value "mixer" "audiodev") =
      some "" ∧
    (SetupDialog.constructInterfaces alsaEnvDe (worldWith "" "") SetupDialog.blank).map
        (fun r => (r.2.activatedAudio 0).map
          (fun d => (shownWidgets d.m_audioIfaceSetupWidgets, d.selectedAudio))) =
      some (some (["ALSA (Advanced Linux Sound Architecture)"],
        some "ALSA (Advanced Linux Sound Architecture)")) := by
  decide

/-! ## C9: accept saves every setup widget -/

theorem saveAll_calls (mk : QString → Call) :
    ∀ (m : QMap SetupWidget) (w : World),
      (saveAll mk m w).calls = w.calls ++ (QMap.keys m).map mk
  | [], w => by simp [saveAll, QMap.keys]
  | (name, _) :: rest, w => by
    rw [saveAll, saveAll_calls mk rest]
    simp [World.call, QMap.keys]

theorem CallsExtend.refl (w : World) : CallsExtend w w :=
  ⟨[], by simp, by simp⟩

theorem CallsExtend.call {w w₁ : World} (h : CallsExtend w w₁) (c : Call)
    (hc : Call.isSaveSettings c = false ∧ c ≠ Call.saveConfigFile) :
    CallsExtend w (w₁.call c) := by
  obtain ⟨pre, h1, h2⟩ := h
  refine ⟨pre ++ [c], by simp [World.call, h1], ?_⟩
  intro x hx
  rcases List.mem_append.mp hx with hx | hx
  · exact h2 x hx
  · rw [List.mem_singleton.mp hx]
    exact hc

theorem CallsExtend.setValue {w w₁ : World} (h : CallsExtend w w₁) (cls attr v : QString) :
    CallsExtend w (w₁.setValue cls attr v) := by
  obtain ⟨pre, h1, h2⟩ := h
  refine ⟨pre ++ [Call.setValue cls attr v], by simp [World.setValue, h1], ?_⟩
  intro x hx
  rcases List.mem_append.mp hx with hx | hx
  · exact h2 x hx
  · rw [List.mem_singleton.mp hx]
    exact ⟨rfl, fun e => Call.noConfusion e⟩

theorem CallsExtend.ite {w w₁ w₂ : World} (c : Bool) (h₁ : CallsExtend w w₁)
    (h₂ : CallsExtend w w₂) : CallsExtend w (if c = true then w₁ else w₂) := by
  cases c
  · simpa using h₂
  · simpa using h₁

set_option maxRecDepth 10000 in
/-- C9: for every dialog state and world, the calls `accept()` makes are, in
order: calls that are neither a `saveSettings()` nor `saveConfigFile()`; then
one `saveSettings()` for each entry of `m_audioIfaceSetupWidgets`, in key
order; then one for each entry of `m_midiIfaceSetupWidgets`; then, last,
`saveConfigFile()`. -/
theorem C9_accept_saves_every_widget (env : Env) (w : World) (d : SetupDialog) :
    ∃ pre, (SetupDialog.accept env w d).1.calls =
        w.calls ++ pre ++
          (QMap.keys d.m_audioIfaceSetupWidgets).map Call.audioSaveSettings ++
          (QMap.keys d.m_midiIfaceSetupWidgets).map Call.midiSaveSettings ++
          [Call.saveConfigFile] ∧
      ∀ c ∈ pre, Call.isSaveSettings c = false ∧ c ≠ Call.saveConfigFile := by
  have key : ∀ w₁ : World, CallsExtend w w₁ →
      ∃ pre, ((saveAll Call.midiSaveSettings d.m_midiIfaceSetupWidgets
          (saveAll Call.audioSaveSettings d.m_audioIfaceSetupWidgets w₁)).call
            Call.saveConfigFile).calls =
        w.calls ++ pre ++
          (QMap.keys d.m_audioIfaceSetupWidgets).map Call.audioSaveSettings ++
          (QMap.keys d.m_midiIfaceSetupWidgets).map Call.midiSaveSettings ++
          [Call.saveConfigFile] ∧
      ∀ c ∈ pre, Call.isSaveSettings c = false ∧ c ≠ Call.saveConfigFile := by
    rintro w₁ ⟨pre, h1, h2⟩
    refine ⟨pre, ?_, h2⟩
    simp only [World.call, saveAll_calls, h1]
  unfold SetupDialog.accept
  dsimp only
  with_reducible refine key _ ?_
  repeat first
    | with_reducible apply CallsExtend.setValue
    | with_reducible apply CallsExtend.ite
    | with_reducible exact CallsExtend.refl w
    | (with_reducible refine CallsExtend.call ?_ _ ?_
       rotate_left
       exact ⟨rfl, fun e => Call.noConfusion e⟩)

/-! ## C10: a cancelled picker -/

/-- C10: for every build, translation, list of image formats, picker and dialog
state, each of the slots `openWorkingDir`, `openGIGDir`, `openSF2Dir`,
`openVSTDir`, `openArtworkDir`, `openLADSPADir`, `openSTKDir`,
`openDefaultSoundfont` and `openBackgroundArtwork` leaves the dialog, with
every path member and every line edit, as it was when its picker returns the
empty string. -/
theorem C10_cancelled_picker_changes_nothing (b : BuildConfig) (tr : QString → QString)
    (supportedImageFormats : List QString) (fd : FileDialog) (d : SetupDialog) :
    (fd.getExistingDirectory (tr "Choose LMMS working directory") d.m_workingDir = "" →
      SetupDialog.openWorkingDir tr fd d = d) ∧
    (fd.getExistingDirectory (tr "Choose your GIG directory") d.m_gigDir = "" →
      SetupDialog.openGIGDir tr fd d = d) ∧
    (fd.getExistingDirectory (tr "Choose your SF2 directory") d.m_sf2Dir = "" →
      SetupDialog.openSF2Dir tr fd d = d) ∧
    (fd.getExistingDirectory (tr "Choose your VST-plugin directory") d.m_vstDir = "" →
      SetupDialog.openVSTDir tr fd d = d) ∧
    (fd.getExistingDirectory (tr "Choose artwork-theme directory") d.m_artworkDir = "" →
      SetupDialog.openArtworkDir tr fd d = d) ∧
    (fd.getExistingDirectory (tr "Choose LADSPA plugin directory") d.m_ladDir = "" →
      SetupDialog.openLADSPADir tr fd d = d) ∧
    (fd.getExistingDirectory (tr "Choose STK rawwave directory") d.m_stkDir = "" →
      SetupDialog.openSTKDir b tr fd d = d) ∧
    (fd.getOpenFileName (tr "Choose default SoundFont") d.m_defaultSoundfont
        "SoundFont2 Files (*.sf2)" = "" →
      SetupDialog.openDefaultSoundfont b tr fd d = d) ∧
    (fd.getOpenFileName (tr "Choose background artwork")
        (if d.m_backgroundArtwork.isEmpty then d.m_artworkDir else d.m_backgroundArtwork)
        ("Image Files (" ++ imageFileTypes supportedImageFormats "" ++ ")") = "" →
      SetupDialog.openBackgroundArtwork supportedImageFormats tr fd d = d) := by
  have he : (!("" : QString).isEmpty) = false := by decide
  refine ⟨?_, ?_, ?_, ?_, ?_, ?_, ?_, ?_, ?_⟩
  · intro h
    simp only [SetupDialog.openWorkingDir, h, he, Bool.false_eq_true, if_false]
  · intro h
    simp only [SetupDialog.openGIGDir, h, he, Bool.false_eq_true, if_false]
  · intro h
    simp only [SetupDialog.openSF2Dir, h, he, Bool.false_eq_true, if_false]
  · intro h
    simp only [SetupDialog.openVSTDir, h, he, Bool.false_eq_true, if_false]
  · intro h
    simp only [SetupDialog.openArtworkDir, h, he, Bool.false_eq_true, if_false]
  · intro h
    simp only [SetupDialog.openLADSPADir, h, he, Bool.false_eq_true, if_false]
  · intro h
    simp only [SetupDialog.openSTKDir, h, he, Bool.false_eq_true, if_false, ite_self]
  · intro h
    simp only [SetupDialog.openDefaultSoundfont, h, he, Bool.false_eq_true, if_false,
      ite_self]
  · intro h
    simp only [SetupDialog.openBackgroundArtwork, h, he, Bool.false_eq_true, if_false]

/-- C10 at a dialog with paths entered and a picker that is cancelled. -/
theorem C10_cancelled_picker_changes_nothing_witness :
    SetupDialog.openWorkingDir (fun s => s) cancelled SetupDialog.withPaths =
      SetupDialog.withPaths ∧
    SetupDialog.openGIGDir (fun s => s) cancelled SetupDialog.withPaths =
      SetupDialog.withPaths ∧
    SetupDialog.openSF2Dir (fun s => s) cancelled SetupDialog.withPaths =
      SetupDialog.withPaths ∧
    SetupDialog.openVSTDir (fun s => s) cancelled SetupDialog.withPaths =
      SetupDialog.withPaths ∧
    SetupDialog.openArtworkDir (fun s => s) cancelled SetupDialog.withPaths =
      SetupDialog.withPaths ∧
    SetupDialog.openLADSPADir (fun s => s) cancelled SetupDialog.withPaths =
      SetupDialog.withPaths ∧
    SetupDialog.openSTKDir alsaBuild (fun s => s) cancelled SetupDialog.withPaths =
      SetupDialog.withPaths ∧
    SetupDialog.openDefaultSoundfont alsaBuild (fun s => s) cancelled SetupDialog.withPaths =
      SetupDialog.withPaths ∧
    SetupDialog.openBackgroundArtwork ["png", "JPG", "bmp"] (fun s => s) cancelled
      SetupDialog.withPaths = SetupDialog.withPaths :=
  have h := C10_cancelled_picker_changes_nothing alsaBuild (fun s => s)
    ["png", "JPG", "bmp"] cancelled SetupDialog.withPaths
  ⟨h.1 rfl, h.2.1 rfl, h.2.2.1 rfl, h.2.2.2.1 rfl, h.2.2.2.2.1 rfl, h.2.2.2.2.2.1 rfl,
    h.2.2.2.2.2.2.1 rfl, h.2.2.2.2.2.2.2.1 rfl, h.2.2.2.2.2.2.2.2 rfl⟩

/-! ## What accept writes -/

theorem saveAll_settings (mk : QString → Call) :
    ∀ (m : QMap SetupWidget) (w : World), (saveAll mk m w).settings = w.settings
  | [], _ => rfl
  | (name, _) :: rest, w => by
    rw [saveAll, saveAll_settings mk rest]
    rfl

theorem writesAfter_refl (w : World) : WritesAfter w w [] :=
  ⟨rfl, fun _ h => absurd h (List.not_mem_nil _)⟩

theorem writesAfter_setValue {w w₁ : World} {l : List ((QString × QString) × QString)}
    (h : WritesAfter w w₁ l) (cls attr v : QString) :
    WritesAfter w (w₁.setValue cls attr v) (l ++ [((cls, attr), v)]) := by
  constructor
  · rw [List.foldl_append, ← h.1]
    rfl
  · intro e he
    simp only [World.setValue, List.mem_append, List.mem_singleton]
    rcases List.mem_append.mp he with he | he
    · exact Or.inl (h.2 e he)
    · rw [List.mem_singleton.mp he]
      exact Or.inr rfl

theorem writesAfter_call {w w₁ : World} {l : List ((QString × QString) × QString)}
    (h : WritesAfter w w₁ l) (c : Call) : WritesAfter w (w₁.call c) l :=
  ⟨h.1, fun e he => List.mem_append.mpr (Or.inl (h.2 e he))⟩

theorem writesAfter_ite {w w₁ w₂ : World} {l : List ((QString × QString) × QString)}
    (c : Bool) (h₁ : WritesAfter w w₁ l) (h₂ : WritesAfter w w₂ l) :
    WritesAfter w (if c = true then w₁ else w₂) l := by
  cases c
  · simpa using h₂
  · simpa using h₁

theorem writesAfter_saveAll {w w₁ : World} {l : List ((QString × QString) × QString)}
    (h : WritesAfter w w₁ l) (mk : QString → Call) (m : QMap SetupWidget) :
    WritesAfter w (saveAll mk m w₁) l := by
  constructor
  · rw [saveAll_settings, h.1]
  · intro e he
    rw [saveAll_calls]
    exact List.mem_append.mpr (Or.inl (h.2 e he))

theorem lookupSetting_foldl_of_not_mem (k : QString × QString) :
    ∀ (l : List ((QString × QString) × QString)) (s : List ((QString × QString) × QString)),
      k ∉ l.map Prod.fst →
      lookupSetting k (l.foldl (fun s e => upsert e.1 e.2 s) s) = lookupSetting k s
  | [], _, _ => rfl
  | x :: xs, s, h => by
    simp only [List.map_cons, List.mem_cons, not_or] at h
    rw [List.foldl_cons, lookupSetting_foldl_of_not_mem k xs _ h.2,
      lookupSetting_upsert_of_ne _ _ _ h.1]

/-- After writes under pairwise different keys, each key reads as the value
written under it. -/
theorem lookupSetting_foldl_of_mem (e : (QString × QString) × QString) :
    ∀ (l : List ((QString × QString) × QString)) (s : List ((QString × QString) × QString)),
      (l.map Prod.fst).Nodup → e ∈ l →
      lookupSetting e.1 (l.foldl (fun s e => upsert e.1 e.2 s) s) = e.2
  | [], _, _, h => absurd h (List.not_mem_nil _)
  | x :: xs, s, hnd, h => by
    simp only [List.map_cons, List.nodup_cons] at hnd
    rw [List.foldl_cons]
    rcases List.mem_cons.mp h with h | h
    · subst h
      rw [lookupSetting_foldl_of_not_mem _ xs _ hnd.1, lookupSetting_upsert_self]
    · exact lookupSetting_foldl_of_mem e xs _ hnd.2 h

set_option maxRecDepth 10000 in
/-- The settings `accept()` writes with `setValue`, in the order of the calls:
section, key and value. -/
theorem accept_writes (env : Env) (w : World) (d : SetupDialog) :
    WritesAfter w (SetupDialog.accept env w d).1
      [(("mixer", "framesperaudiobuffer"), numberOfInt d.m_bufferSize),
        (("mixer", "audiodev"),
          (QMap.index "" d.m_audioInterfaces.currentText d.m_audioIfaceNames).1),
        (("mixer", "mididev"),
          (QMap.index "" d.m_midiInterfaces.currentText d.m_midiIfaceNames).1),
        (("tooltips", "disabled"), numberOfBool (!d.m_toolTips)),
        (("app", "nomsgaftersetup"), numberOfBool (!d.m_warnAfterSetup)),
        (("app", "displaydbfs"), numberOfBool d.m_displaydBFS),
        (("app", "nommpz"), numberOfBool (!d.m_MMPZ)),
        (("app", "disablebackup"), numberOfBool (!d.m_disableBackup)),
        (("app", "openlastproject"), numberOfBool d.m_openLastProject),
        (("mixer", "hqaudio"), numberOfBool d.m_hqAudioDev),
        (("ui", "smoothscroll"), numberOfBool d.m_smoothScroll),
        (("ui", "enableautosave"), numberOfBool d.m_enableAutoSave),
        (("ui", "saveinterval"), numberOfInt d.m_saveInterval),
        (("ui", "enablerunningautosave"), numberOfBool d.m_enableRunningAutoSave),
        (("ui", "oneinstrumenttrackwindow"), numberOfBool d.m_oneInstrumentTrackWindow),
        (("ui", "compacttrackbuttons"), numberOfBool d.m_compactTrackButtons),
        (("ui", "syncvstplugins"), numberOfBool d.m_syncVSTPlugins),
        (("ui", "animateafp"), numberOfBool d.m_animateAFP),
        (("ui", "printnotelabels"), numberOfBool d.m_printNoteLabels),
        (("ui", "displaywaveform"), numberOfBool d.m_displayWaveform),
        (("ui", "disableautoquit"), numberOfBool d.m_disableAutoQuit),
        (("app", "language"), d.m_lang),
        (("ui", "vstembedmethod"), d.vstEmbedCurrentData)] := by
  have key : ∃ l, WritesAfter w (SetupDialog.accept env w d).1 l ∧ l =
      [(("mixer", "framesperaudiobuffer"), numberOfInt d.m_bufferSize),
        (("mixer", "audiodev"),
          (QMap.index "" d.m_audioInterfaces.currentText d.m_audioIfaceNames).1),
        (("mixer", "mididev"),
          (QMap.index "" d.m_midiInterfaces.currentText d.m_midiIfaceNames).1),
        (("tooltips", "disabled"), numberOfBool (!d.m_toolTips)),
        (("app", "nomsgaftersetup"), numberOfBool (!d.m_warnAfterSetup)),
        (("app", "displaydbfs"), numberOfBool d.m_displaydBFS),
        (("app", "nommpz"), numberOfBool (!d.m_MMPZ)),
        (("app", "disablebackup"), numberOfBool (!d.m_disableBackup)),
        (("app", "openlastproject"), numberOfBool d.m_openLastProject),
        (("mixer", "hqaudio"), numberOfBool d.m_hqAudioDev),
        (("ui", "smoothscroll"), numberOfBool d.m_smoothScroll),
        (("ui", "enableautosave"), numberOfBool d.m_enableAutoSave),
        (("ui", "saveinterval"), numberOfInt d.m_saveInterval),
        (("ui", "enablerunningautosave"), numberOfBool d.m_enableRunningAutoSave),
        (("ui", "oneinstrumenttrackwindow"), numberOfBool d.m_oneInstrumentTrackWindow),
        (("ui", "compacttrackbuttons"), numberOfBool d.m_compactTrackButtons),
        (("ui", "syncvstplugins"), numberOfBool d.m_syncVSTPlugins),
        (("ui", "animateafp"), numberOfBool d.m_animateAFP),
        (("ui", "printnotelabels"), numberOfBool d.m_printNoteLabels),
        (("ui", "displaywaveform"), numberOfBool d.m_displayWaveform),
        (("ui", "disableautoquit"), numberOfBool d.m_disableAutoQuit),
        (("app", "language"), d.m_lang),
        (("ui", "vstembedmethod"), d.vstEmbedCurrentData)] := by
    unfold SetupDialog.accept
    dsimp only
    apply Exists.intro
    apply And.intro
    · repeat first
        | with_reducible apply writesAfter_setValue
        | with_reducible apply writesAfter_call
        | with_reducible apply writesAfter_ite
        | with_reducible apply writesAfter_saveAll
        | with_reducible exact writesAfter_refl w
    · simp only [List.nil_append, List.cons_append, List.append_assoc, List.singleton_append]
  obtain ⟨l, h1, h2⟩ := key
  rw [← h2]
  exact h1

/-- Each write of `accept()` is among its calls, and is what its key reads as
afterwards. -/
theorem accept_written (env : Env) (w : World) (d : SetupDialog)
    (e : (QString × QString) × QString)
    (he : e ∈ [(("mixer", "framesperaudiobuffer"), numberOfInt d.m_bufferSize),
        (("mixer", "audiodev"),
          (QMap.index "" d.m_audioInterfaces.currentText d.m_audioIfaceNames).1),
        (("mixer", "mididev"),
          (QMap.index "" d.m_midiInterfaces.currentText d.m_midiIfaceNames).1),
        (("tooltips", "disabled"), numberOfBool (!d.m_toolTips)),
        (("app", "nomsgaftersetup"), numberOfBool (!d.m_warnAfterSetup)),
        (("app", "displaydbfs"), numberOfBool d.m_displaydBFS),
        (("app", "nommpz"), numberOfBool (!d.m_MMPZ)),
        (("app", "disablebackup"), numberOfBool (!d.m_disableBackup)),
        (("app", "openlastproject"), numberOfBool d.m_openLastProject),
        (("mixer", "hqaudio"), numberOfBool d.m_hqAudioDev),
        (("ui", "smoothscroll"), numberOfBool d.m_smoothScroll),
        (("ui", "enableautosave"), numberOfBool d.m_enableAutoSave),
        (("ui", "saveinterval"), numberOfInt d.m_saveInterval),
        (("ui", "enablerunningautosave"), numberOfBool d.m_enableRunningAutoSave),
        (("ui", "oneinstrumenttrackwindow"), numberOfBool d.m_oneInstrumentTrackWindow),
        (("ui", "compacttrackbuttons"), numberOfBool d.m_compactTrackButtons),
        (("ui", "syncvstplugins"), numberOfBool d.m_syncVSTPlugins),
        (("ui", "animateafp"), numberOfBool d.m_animateAFP),
        (("ui", "printnotelabels"), numberOfBool d.m_printNoteLabels),
        (("ui", "displaywaveform"), numberOfBool d.m_displayWaveform),
        (("ui", "disableautoquit"), numberOfBool d.m_disableAutoQuit),
        (("app", "language"), d.m_lang),
        (("ui", "vstembedmethod"), d.vstEmbedCurrentData)]) :
    Call.setValue e.1.1 e.1.2 e.2 ∈ (SetupDialog.accept env w d).1.calls ∧
    (SetupDialog.accept env w d).1.value e.1.1 e.1.2 = e.2 := by
  have h := accept_writes env w d
  refine ⟨h.2 e he, ?_⟩
  unfold World.value
  rw [h.1]
  refine lookupSetting_foldl_of_mem e _ _ ?_ he
  simp only [List.map_cons, List.map_nil]
  decide

/-! ## C11: accept persists every setting field -/

/-- C11: for every dialog state, `accept()` calls `setValue` with, and leaves
the configuration store holding, under `"mixer"/"framesperaudiobuffer"` the
decimal text of `m_bufferSize`, under `"ui"/"saveinterval"` the decimal text of
`m_saveInterval`, under `"app"/"language"` `m_lang`, under each positively
named flag key `"1"` or `"0"` for its field, and under each negatively named
key (`"tooltips"/"disabled"`, `"app"/"nomsgaftersetup"`, `"app"/"nommpz"`,
`"app"/"disablebackup"`) `"1"` or `"0"` for the negation of its field
(`m_toolTips`, `m_warnAfterSetup`, `m_MMPZ`, `m_disableBackup`). -/
theorem C11_accept_persists_fields (env : Env) (w : World) (d : SetupDialog) :
    ∀ e ∈ [(("mixer", "framesperaudiobuffer"), numberOfInt d.m_bufferSize),
        (("ui", "saveinterval"), numberOfInt d.m_saveInterval),
        (("app", "language"), d.m_lang),
        (("app", "displaydbfs"), if d.m_displaydBFS then "1" else "0"),
        (("app", "openlastproject"), if d.m_openLastProject then "1" else "0"),
        (("mixer", "hqaudio"), if d.m_hqAudioDev then "1" else "0"),
        (("ui", "smoothscroll"), if d.m_smoothScroll then "1" else "0"),
        (("ui", "enableautosave"), if d.m_enableAutoSave then "1" else "0"),
        (("ui", "enablerunningautosave"), if d.m_enableRunningAutoSave then "1" else "0"),
        (("ui", "oneinstrumenttrackwindow"),
          if d.m_oneInstrumentTrackWindow then "1" else "0"),
        (("ui", "compacttrackbuttons"), if d.m_compactTrackButtons then "1" else "0"),
        (("ui", "syncvstplugins"), if d.m_syncVSTPlugins then "1" else "0"),
        (("ui", "animateafp"), if d.m_animateAFP then "1" else "0"),
        (("ui", "printnotelabels"), if d.m_printNoteLabels then "1" else "0"),
        (("ui", "displaywaveform"), if d.m_displayWaveform then "1" else "0"),
        (("ui", "disableautoquit"), if d.m_disableAutoQuit then "1" else "0"),
        (("tooltips", "disabled"), if !d.m_toolTips then "1" else "0"),
        (("app", "nomsgaftersetup"), if !d.m_warnAfterSetup then "1" else "0"),
        (("app", "nommpz"), if !d.m_MMPZ then "1" else "0"),
        (("app", "disablebackup"), if !d.m_disableBackup then "1" else "0")],
      Call.setValue e.1.1 e.1.2 e.2 ∈ (SetupDialog.accept env w d).1.calls ∧
      (SetupDialog.accept env w d).1.value e.1.1 e.1.2 = e.2 := by
  intro e he
  apply accept_written env w d e
  simp only [List.mem_cons, List.mem_singleton, List.not_mem_nil, or_false] at he ⊢
  simp only [numberOfBool]
  tauto

/-- C11 at a dialog with 256 frames and tool tips enabled: `"256"` is written
under `"mixer"/"framesperaudiobuffer"` and `"0"` under `"tooltips"/"disabled"`. -/
theorem C11_accept_persists_fields_witness :
    (Call.setValue "mixer" "framesperaudiobuffer" "256" ∈
        (SetupDialog.accept alsaEnv (worldWith "" "") SetupDialog.blank).1.calls ∧
      (SetupDialog.accept alsaEnv (worldWith "" "") SetupDialog.blank).1.value
        "mixer" "framesperaudiobuffer" = "256") ∧
    (Call.setValue "tooltips" "disabled" "0" ∈
        (SetupDialog.accept alsaEnv (worldWith "" "") SetupDialog.blank).1.calls ∧
      (SetupDialog.accept alsaEnv (worldWith "" "") SetupDialog.blank).1.value
        "tooltips" "disabled" = "0") :=
  ⟨C11_accept_persists_fields alsaEnv (worldWith "" "") SetupDialog.blank
      (("mixer", "framesperaudiobuffer"), "256") (by decide),
   C11_accept_persists_fields alsaEnv (worldWith "" "") SetupDialog.blank
      (("tooltips", "disabled"), "0") (by decide)⟩

/-! ## The buffer size -/

/-- An invocation of `setBufferSize` with the slider at `v`, where `v` is at most
the step or a multiple of it: the slider is left alone and the buffer size and
its label are set, without a nested invocation. -/
theorem setBufferSize_at_rest (D : Int) (txt : Int → QString) (fuel : Nat)
    (d : SetupDialog) (v : Int) (hstep : D.tdiv BUFFERSIZE_RESOLUTION = 8)
    (hval : d.m_bufSizeSlider.value = v) (hv : 0 ≤ v) (hrest : v ≤ 8 ∨ v % 8 = 0) :
    SetupDialog.setBufferSize D txt (fuel + 1) d v =
      some { d with m_bufferSize := v * 32, m_bufSizeLbl := txt (v * 32) } := by
  have hmod : v.tmod 8 = v % 8 := Int.tmod_eq_emod hv (by norm_num)
  have hstep' : D.tdiv 32 = 8 := hstep
  simp only [SetupDialog.setBufferSize, BUFFERSIZE_RESOLUTION, hstep', hval, ne_eq,
    not_true_eq_false, if_false, hmod]
  by_cases h8 : v > 8
  · have h0 : v % 8 = 0 := by omega
    simp [h8, h0]
  · simp [h8]

/-- An invocation of `setBufferSize` with the slider at `v`, above the step and
no multiple of it: the slider is moved to the nearest multiple and the nested
invocation this triggers sets the buffer size and its label. -/
theorem setBufferSize_rounds (D : Int) (txt : Int → QString) (fuel : Nat)
    (d : SetupDialog) (v : Int) (hstep : D.tdiv BUFFERSIZE_RESOLUTION = 8)
    (hmin : d.m_bufSizeSlider.minimum = 1) (hmax : d.m_bufSizeSlider.maximum = 128)
    (hval : d.m_bufSizeSlider.value = v) (hv : v ≤ 128) (h8 : v > 8) (hm : v % 8 ≠ 0) :
    SetupDialog.setBufferSize D txt (fuel + 2) d v =
      some { d with
        m_bufSizeSlider := { d.m_bufSizeSlider with value := settledValue v },
        m_bufferSize := settledValue v * 32,
        m_bufSizeLbl := txt (settledValue v * 32) } := by
  have hmod : v.tmod 8 = v % 8 := Int.tmod_eq_emod (by omega) (by norm_num)
  have hdiv : (8 : Int).tdiv 2 = 4 := by decide
  have hs : settledValue v = if v % 8 < 4 then v - v % 8 else v + 8 - v % 8 := by
    unfold settledValue
    rw [if_neg (by omega)]
  have hs0 : settledValue v % 8 = 0 := by
    rw [hs]; split <;> omega
  have hsne : v ≠ settledValue v := by
    rw [hs]; split <;> omega
  have hslo : 1 ≤ settledValue v := by
    rw [hs]; split <;> omega
  have hshi : settledValue v ≤ 128 := by
    rw [hs]; split <;> omega
  have hbound : max d.m_bufSizeSlider.minimum (min d.m_bufSizeSlider.maximum (settledValue v)) =
      settledValue v := by
    rw [hmin, hmax]; omega
  have hset : d.m_bufSizeSlider.setValue (settledValue v) =
      ({ d.m_bufSizeSlider with value := settledValue v }, some (settledValue v)) := by
    unfold QSlider.setValue
    simp only [hbound, hval]
    rw [if_neg hsne]
  have hinner := setBufferSize_at_rest D txt fuel
    { d with m_bufSizeSlider := { d.m_bufSizeSlider with value := settledValue v } }
    (settledValue v) hstep rfl (by omega) (Or.inr hs0)
  have harg : (if v % 8 < 4 then v - v % 8 else v + 8 - v % 8) = settledValue v := hs.symm
  have hstep' : D.tdiv 32 = 8 := hstep
  rw [SetupDialog.setBufferSize]
  simp only [BUFFERSIZE_RESOLUTION, hstep', hmod, hdiv, h8, if_true]
  rw [if_neg (by norm_num), if_pos (by simpa using hm)]
  by_cases h4 : v % 8 < 4
  · rw [if_pos h4] at harg
    rw [if_pos h4, harg, hset]
    exact hinner
  · rw [if_neg h4] at harg
    rw [if_neg h4, harg, hset]
    exact hinner

/-- In both cases: with the slider at `v` in 1..128, two levels of invocation
are enough, and the dialog settles with the slider on `settledValue v` and the
buffer size at 32 times that. -/
theorem setBufferSize_settles (D : Int) (txt : Int → QString) (fuel : Nat)
    (d : SetupDialog) (v : Int) (hstep : D.tdiv BUFFERSIZE_RESOLUTION = 8)
    (hmin : d.m_bufSizeSlider.minimum = 1) (hmax : d.m_bufSizeSlider.maximum = 128)
    (hval : d.m_bufSizeSlider.value = v) (hlo : 1 ≤ v) (hhi : v ≤ 128) :
    SetupDialog.setBufferSize D txt (fuel + 2) d v =
      some { d with
        m_bufSizeSlider := { d.m_bufSizeSlider with value := settledValue v },
        m_bufferSize := settledValue v * 32,
        m_bufSizeLbl := txt (settledValue v * 32) } := by
  by_cases hrest : v ≤ 8 ∨ v % 8 = 0
  · have hs : settledValue v = v := by
      unfold settledValue
      rw [if_pos hrest]
    rw [setBufferSize_at_rest D txt (fuel + 1) d v hstep hval (by omega) hrest, hs]
    have hsl : ({ d.m_bufSizeSlider with value := v } : QSlider) = d.m_bufSizeSlider := by
      rw [← hval]
    rw [hsl]
  · exact setBufferSize_rounds D txt fuel d v hstep hmin hmax hval hhi (by omega) (by omega)

/-- The settled value of a slider value in 1..128 is in 1..128, is the value
itself at rest and otherwise the multiple of 8 nearest to it. -/
theorem settledValue_spec (v : Int) (hlo : 1 ≤ v) (hhi : v ≤ 128) :
    1 ≤ settledValue v ∧ settledValue v ≤ 128 ∧
    (v ≤ 8 ∨ v % 8 = 0 → settledValue v = v) ∧
    (¬ (v ≤ 8 ∨ v % 8 = 0) →
      settledValue v % 8 = 0 ∧
      (v % 8 < 4 → settledValue v = v - v % 8) ∧
      (4 ≤ v % 8 → settledValue v = v + 8 - v % 8) ∧
      ∀ m : Int, m % 8 = 0 → |settledValue v - v| ≤ |m - v|) := by
  unfold settledValue
  refine ⟨?_, ?_, ?_, ?_⟩
  · split
    · exact hlo
    · split <;> omega
  · split
    · exact hhi
    · split <;> omega
  · intro h
    rw [if_pos h]
  · intro h
    rw [if_neg h]
    refine ⟨?_, ?_, ?_, ?_⟩
    · split <;> omega
    · intro h4
      rw [if_pos h4]
    · intro h4
      rw [if_neg (by omega)]
    · intro m hm
      rcases le_or_lt v m with h2 | h2
      · rw [abs_of_nonneg (show (0 : Int) ≤ m - v by omega)]
        split
        · rw [abs_of_nonpos (by omega)]
          omega
        · rw [abs_of_nonneg (by omega)]
          omega
      · rw [abs_of_neg (show m - v < 0 by omega)]
        split
        · rw [abs_of_nonpos (by omega)]
          omega
        · rw [abs_of_nonneg (by omega)]
          omega

/-- An invocation of `setBufferSize` with the step itself, the slider being on
it: the buffer size and its label are set, without a nested invocation. -/
theorem setBufferSize_step_at_rest (D : Int) (txt : Int → QString) (fuel : Nat)
    (d : SetupDialog)
    (hval : d.m_bufSizeSlider.value = D.tdiv BUFFERSIZE_RESOLUTION) :
    SetupDialog.setBufferSize D txt (fuel + 1) d (D.tdiv BUFFERSIZE_RESOLUTION) =
      some { d with
        m_bufferSize := D.tdiv BUFFERSIZE_RESOLUTION * BUFFERSIZE_RESOLUTION,
        m_bufSizeLbl := txt (D.tdiv BUFFERSIZE_RESOLUTION * BUFFERSIZE_RESOLUTION) } := by
  simp only [SetupDialog.setBufferSize, gt_iff_lt, lt_self_iff_false, if_false, hval, ne_eq,
    not_true_eq_false]

/-- An invocation of `setBufferSize` with the step, wherever the slider is: when
the step is in the range of the slider, two levels of invocation are enough,
the slider ends on the step and the buffer size at the step times the
resolution. -/
theorem setBufferSize_step (D : Int) (txt : Int → QString) (fuel : Nat) (d : SetupDialog)
    (hmin : d.m_bufSizeSlider.minimum ≤ D.tdiv BUFFERSIZE_RESOLUTION)
    (hmax : D.tdiv BUFFERSIZE_RESOLUTION ≤ d.m_bufSizeSlider.maximum) :
    SetupDialog.setBufferSize D txt (fuel + 2) d (D.tdiv BUFFERSIZE_RESOLUTION) =
      some { d with
        m_bufSizeSlider := { d.m_bufSizeSlider with value := D.tdiv BUFFERSIZE_RESOLUTION },
        m_bufferSize := D.tdiv BUFFERSIZE_RESOLUTION * BUFFERSIZE_RESOLUTION,
        m_bufSizeLbl := txt (D.tdiv BUFFERSIZE_RESOLUTION * BUFFERSIZE_RESOLUTION) } := by
  by_cases hval : d.m_bufSizeSlider.value = D.tdiv BUFFERSIZE_RESOLUTION
  · rw [setBufferSize_step_at_rest D txt (fuel + 1) d hval]
    have hsl : ({ d.m_bufSizeSlider with value := D.tdiv BUFFERSIZE_RESOLUTION } : QSlider) =
        d.m_bufSizeSlider := by
      rw [← hval]
    rw [hsl]
  · have hbound : max d.m_bufSizeSlider.minimum
        (min d.m_bufSizeSlider.maximum (D.tdiv BUFFERSIZE_RESOLUTION)) =
        D.tdiv BUFFERSIZE_RESOLUTION := by
      rw [min_eq_right hmax, max_eq_right hmin]
    have hset : d.m_bufSizeSlider.setValue (D.tdiv BUFFERSIZE_RESOLUTION) =
        ({ d.m_bufSizeSlider with value := D.tdiv BUFFERSIZE_RESOLUTION },
          some (D.tdiv BUFFERSIZE_RESOLUTION)) := by
      unfold QSlider.setValue
      simp only [hbound]
      rw [if_neg hval]
    have hinner := setBufferSize_step_at_rest D txt fuel
      { d with
        m_bufSizeSlider := { d.m_bufSizeSlider with value := D.tdiv BUFFERSIZE_RESOLUTION } }
      rfl
    rw [SetupDialog.setBufferSize]
    simp only [gt_iff_lt, lt_self_iff_false, if_false, ne_eq, hval, not_false_eq_true,
      if_true, hset, hinner]

/-! ## C12: the buffer-size reset button -/

/-- C12: with `DEFAULT_BUFFER_SIZE` a multiple of the resolution 32 between 32
and 4096 (256 upstream), for every dialog state whose buffer-size slider has
the range 1..128 the constructor gives it, `resetBufSize()` completes within
two levels of invocation of `setBufferSize` (the call and the one the slider's
`valueChanged` signal triggers), and leaves the slider on
`DEFAULT_BUFFER_SIZE / BUFFERSIZE_RESOLUTION` and `m_bufferSize` equal to
`DEFAULT_BUFFER_SIZE`. -/
theorem C12_resetBufSize_resets_to_default (DEFAULT_BUFFER_SIZE : Int)
    (bufSizeText : Int → QString) (d : SetupDialog)
    (hmult : DEFAULT_BUFFER_SIZE % BUFFERSIZE_RESOLUTION = 0)
    (hlo : 32 ≤ DEFAULT_BUFFER_SIZE) (hhi : DEFAULT_BUFFER_SIZE ≤ 4096)
    (hmin : d.m_bufSizeSlider.minimum = 1) (hmax : d.m_bufSizeSlider.maximum = 128) :
    ∃ d', (∀ n, SetupDialog.resetBufSize DEFAULT_BUFFER_SIZE bufSizeText (n + 2) d = some d') ∧
      d'.m_bufSizeSlider.value = DEFAULT_BUFFER_SIZE / BUFFERSIZE_RESOLUTION ∧
      d'.m_bufferSize = DEFAULT_BUFFER_SIZE ∧
      d'.m_bufSizeLbl = bufSizeText DEFAULT_BUFFER_SIZE := by
  have hdiv : DEFAULT_BUFFER_SIZE.tdiv BUFFERSIZE_RESOLUTION =
      DEFAULT_BUFFER_SIZE / BUFFERSIZE_RESOLUTION :=
    Int.tdiv_eq_ediv (by omega) (by decide)
  have h32 : BUFFERSIZE_RESOLUTION = 32 := rfl
  have hmul : DEFAULT_BUFFER_SIZE.tdiv BUFFERSIZE_RESOLUTION * BUFFERSIZE_RESOLUTION =
      DEFAULT_BUFFER_SIZE := by
    rw [hdiv]
    rw [h32] at hmult ⊢
    omega
  have h1 : d.m_bufSizeSlider.minimum ≤ DEFAULT_BUFFER_SIZE.tdiv BUFFERSIZE_RESOLUTION := by
    rw [hmin, hdiv, h32]; omega
  have h2 : DEFAULT_BUFFER_SIZE.tdiv BUFFERSIZE_RESOLUTION ≤ d.m_bufSizeSlider.maximum := by
    rw [hmax, hdiv, h32]; omega
  refine ⟨_, fun n => setBufferSize_step DEFAULT_BUFFER_SIZE bufSizeText n d h1 h2, ?_, ?_, ?_⟩
  · exact hdiv
  · exact hmul
  · simp only [hmul]

/-- C12 at the upstream default 256, with the slider on 11 and 352 frames. -/
theorem C12_resetBufSize_resets_to_default_witness :
    ∃ d', (∀ n, SetupDialog.resetBufSize 256 framesText (n + 2)
          { SetupDialog.blank with
            m_bufferSize := 352,
            m_bufSizeSlider := { minimum := 1, maximum := 128, value := 11, enabled := true } } =
        some d') ∧
      d'.m_bufSizeSlider.value = 256 / BUFFERSIZE_RESOLUTION ∧
      d'.m_bufferSize = 256 ∧
      d'.m_bufSizeLbl = framesText 256 :=
  C12_resetBufSize_resets_to_default 256 framesText
    { SetupDialog.blank with
      m_bufferSize := 352,
      m_bufSizeSlider := { minimum := 1, maximum := 128, value := 11, enabled := true } }
    (by decide) (by decide) (by decide) rfl rfl

/-! ## The auto-save page -/

/-- A slider already at a value of its range emits nothing on `setValue`. -/
theorem QSlider.setValue_same (s : QSlider) (v : Int) (hlo : s.minimum ≤ v)
    (hhi : v ≤ s.maximum) (hval : s.value = v) : s.setValue v = (s, none) := by
  have hb : max s.minimum (min s.maximum v) = v := by omega
  unfold QSlider.setValue
  simp only [hb, hval, if_true]

/-- A slider at another value moves to a value of its range and emits it. -/
theorem QSlider.setValue_moves (s : QSlider) (v : Int) (hlo : s.minimum ≤ v)
    (hhi : v ≤ s.maximum) (hval : s.value ≠ v) :
    s.setValue v = ({ s with value := v }, some v) := by
  have hb : max s.minimum (min s.maximum v) = v := by omega
  unfold QSlider.setValue
  simp only [hb]
  rw [if_neg hval]

/-- An invocation of `setAutoSaveInterval` with the value the slider has: the
interval and the label are set without a nested invocation. -/
theorem setAutoSaveInterval_at_rest (tr : QString → QString) (fuel : Nat) (d : SetupDialog)
    (v : Int) (hlo : d.m_saveIntervalSlider.minimum ≤ v)
    (hhi : v ≤ d.m_saveIntervalSlider.maximum) (hval : d.m_saveIntervalSlider.value = v) :
    SetupDialog.setAutoSaveInterval tr (fuel + 1) d v =
      some { d with m_saveInterval := v,
                    m_saveIntervalLbl := saveIntervalText tr d.m_enableAutoSave v } := by
  rw [SetupDialog.setAutoSaveInterval]
  simp only [QSlider.setValue_same d.m_saveIntervalSlider v hlo hhi hval, saveIntervalText]

/-- An invocation of `setAutoSaveInterval` with a value of the slider's range:
within two levels of invocation the interval, the slider and the label are
set. -/
theorem setAutoSaveInterval_eq (tr : QString → QString) (fuel : Nat) (d : SetupDialog)
    (v : Int) (hlo : d.m_saveIntervalSlider.minimum ≤ v)
    (hhi : v ≤ d.m_saveIntervalSlider.maximum) :
    SetupDialog.setAutoSaveInterval tr (fuel + 2) d v =
      some { d with m_saveInterval := v,
                    m_saveIntervalSlider := { d.m_saveIntervalSlider with value := v },
                    m_saveIntervalLbl := saveIntervalText tr d.m_enableAutoSave v } := by
  by_cases hval : d.m_saveIntervalSlider.value = v
  · rw [setAutoSaveInterval_at_rest tr (fuel + 1) d v hlo hhi hval]
    have hs : ({ d.m_saveIntervalSlider with value := v } : QSlider) = d.m_saveIntervalSlider := by
      rw [← hval]
    rw [hs]
  · have hinner := setAutoSaveInterval_at_rest tr fuel
      { d with m_saveInterval := v,
               m_saveIntervalSlider := { d.m_saveIntervalSlider with value := v } } v hlo hhi rfl
    rw [SetupDialog.setAutoSaveInterval]
    simp only [QSlider.setValue_moves d.m_saveIntervalSlider v hlo hhi hval, hinner,
      saveIntervalText]

/-- A check box is determined by its two flags. -/
theorem LedCheckBox.eq_mk (b : LedCheckBox) (c v : Bool) (hc : b.checked = c)
    (hv : b.visible = v) : b = { checked := c, visible := v } := by
  cases b
  simp_all

/-- The slot `resetAutoSave` on a wired dialog whose check boxes agree with
their fields, for a default interval of the slider's range: the state it ends
in. -/
theorem resetAutoSave_eq (D : Int) (tr : QString → QString) (fuel : Nat) (d : SetupDialog)
    (hD : 1 ≤ D ∧ D ≤ 20) (hwired : d.AutoSaveWired)
    (hauto : d.m_autoSave.checked = d.m_enableAutoSave)
    (hrun : d.m_runningAutoSave.checked = d.m_enableRunningAutoSave) :
    SetupDialog.resetAutoSave D tr (fuel + 2) d =
      some { d with
        m_saveInterval := D,
        m_saveIntervalSlider := { minimum := 1, maximum := 20, value := D, enabled := true },
        m_saveIntervalLbl := saveIntervalText tr true D,
        m_enableAutoSave := true,
        m_enableRunningAutoSave := false,
        m_autoSave := { d.m_autoSave with checked := true },
        m_runningAutoSave := { checked := false, visible := true } } := by
  obtain ⟨hmin, hmax, hen, hvis⟩ := hwired
  have h1 := setAutoSaveInterval_eq tr fuel d D (by omega) (by omega)
  unfold SetupDialog.resetAutoSave
  rw [h1]
  dsimp only
  cases hc : d.m_autoSave.checked
  · have h2 := setAutoSaveInterval_at_rest tr (fuel + 1)
      { d with m_saveInterval := D,
               m_saveIntervalSlider := { d.m_saveIntervalSlider with value := D, enabled := true },
               m_saveIntervalLbl := saveIntervalText tr d.m_enableAutoSave D,
               m_enableAutoSave := true,
               m_autoSave := { d.m_autoSave with checked := true },
               m_runningAutoSave := { d.m_runningAutoSave with visible := true } } D
      (by show d.m_saveIntervalSlider.minimum ≤ D; omega)
      (by show D ≤ d.m_saveIntervalSlider.maximum; omega) rfl
    simp only [SetupDialog.setAutoSaveChecked, LedCheckBox.setChecked, hc,
      SetupDialog.toggleAutoSave, Bool.false_eq_true, if_false, h2]
    cases hr : d.m_runningAutoSave.checked <;>
      simp [SetupDialog.setRunningAutoSaveChecked, LedCheckBox.setChecked, hr,
        SetupDialog.toggleRunningAutoSave, hmin, hmax]
    · rw [← hrun, hr]
  · have he : d.m_enableAutoSave = true := by rw [← hauto, hc]
    simp only [SetupDialog.setAutoSaveChecked, LedCheckBox.setChecked, hc, if_true]
    have ha := LedCheckBox.eq_mk d.m_autoSave true d.m_autoSave.visible hc rfl
    cases hr : d.m_runningAutoSave.checked <;>
      simp [SetupDialog.setRunningAutoSaveChecked, LedCheckBox.setChecked, hr,
        SetupDialog.toggleRunningAutoSave, hmin, hmax, he, hen, hvis, hc]
    · exact ⟨by rw [← hrun, hr], ha,
        LedCheckBox.eq_mk d.m_runningAutoSave false true hr (by rw [hvis, he])⟩
    · exact ha

/-- The slot `setAutoSaveInterval` touches the interval, the slider's value and
the label only: whenever it returns, the slider's range and enabled flag, the
two check boxes and the two auto-save flags are as before. -/
theorem setAutoSaveInterval_frame (tr : QString → QString) (fuel : Nat) :
    ∀ (d d' : SetupDialog) (v : Int),
      SetupDialog.setAutoSaveInterval tr fuel d v = some d' →
      d'.m_saveIntervalSlider.minimum = d.m_saveIntervalSlider.minimum ∧
      d'.m_saveIntervalSlider.maximum = d.m_saveIntervalSlider.maximum ∧
      d'.m_saveIntervalSlider.enabled = d.m_saveIntervalSlider.enabled ∧
      d'.m_enableAutoSave = d.m_enableAutoSave ∧
      d'.m_enableRunningAutoSave = d.m_enableRunningAutoSave ∧
      d'.m_autoSave = d.m_autoSave ∧ d'.m_runningAutoSave = d.m_runningAutoSave := by
  induction fuel with
  | zero =>
    intro d d' v h
    simp [SetupDialog.setAutoSaveInterval] at h
  | succ n ih =>
    intro d d' v h
    rw [SetupDialog.setAutoSaveInterval] at h
    dsimp only at h
    by_cases hv : d.m_saveIntervalSlider.value =
        max d.m_saveIntervalSlider.minimum (min d.m_saveIntervalSlider.maximum v)
    · have hs : d.m_saveIntervalSlider.setValue v = (d.m_saveIntervalSlider, none) := by
        unfold QSlider.setValue
        dsimp only
        rw [if_pos hv]
      simp only [hs, Option.some.injEq] at h
      subst h
      simp
    · have hs : d.m_saveIntervalSlider.setValue v =
          ({ d.m_saveIntervalSlider with
              value := max d.m_saveIntervalSlider.minimum
                (min d.m_saveIntervalSlider.maximum v) },
            some (max d.m_saveIntervalSlider.minimum
              (min d.m_saveIntervalSlider.maximum v))) := by
        unfold QSlider.setValue
        dsimp only
        rw [if_neg hv]
      simp only [hs] at h
      cases hin : SetupDialog.setAutoSaveInterval tr n
          { d with m_saveInterval := v,
                   m_saveIntervalSlider := { d.m_saveIntervalSlider with
                     value := max d.m_saveIntervalSlider.minimum
                       (min d.m_saveIntervalSlider.maximum v) } }
          (max d.m_saveIntervalSlider.minimum (min d.m_saveIntervalSlider.maximum v)) with
      | none =>
        rw [hin] at h
        exact Option.noConfusion h
      | some d₁ =>
        have hd₁ := ih _ _ _ hin
        rw [hin] at h
        simp only [Option.some.injEq] at h
        subst h
        simpa using hd₁

/-- The slot `setAutoSaveInterval` keeps the wiring of the auto-save page. -/
theorem setAutoSaveInterval_wired (tr : QString → QString) (fuel : Nat)
    (d d' : SetupDialog) (v : Int) (h : SetupDialog.setAutoSaveInterval tr fuel d v = some d')
    (hwired : d.AutoSaveWired) : d'.AutoSaveWired := by
  obtain ⟨h1, h2, h3, h4, _, _, h7⟩ := setAutoSaveInterval_frame tr fuel d d' v h
  unfold SetupDialog.AutoSaveWired at hwired ⊢
  rw [h1, h2, h3, h4, h7]
  exact hwired

/-- The slot `toggleAutoSave` keeps the wiring of the auto-save page: it sets
the flag, the slider's enabled flag and the visibility of the second check box
together. -/
theorem toggleAutoSave_wired (tr : QString → QString) (fuel : Nat)
    (d d' : SetupDialog) (e : Bool) (h : SetupDialog.toggleAutoSave tr fuel d e = some d')
    (hwired : d.AutoSaveWired) : d'.AutoSaveWired ∧ d'.m_enableAutoSave = e := by
  unfold SetupDialog.toggleAutoSave at h
  obtain ⟨h1, h2, h3, h4, _, _, h7⟩ := setAutoSaveInterval_frame tr fuel _ d' _ h
  obtain ⟨hmin, hmax, _, _⟩ := hwired
  unfold SetupDialog.AutoSaveWired
  rw [h1, h2, h3, h4, h7]
  exact ⟨⟨hmin, hmax, rfl, rfl⟩, rfl⟩

/-- The auto-save page of the constructor completes within two levels of
invocation of `setAutoSaveInterval`, whatever the initialisers left in the
members, and leaves the page wired, with each check box agreeing with its
field. -/
theorem constructAutoSave_wired (tr : QString → QString) (fuel : Nat) (d : SetupDialog) :
    ∃ d', SetupDialog.constructAutoSave tr (fuel + 2) d = some d' ∧ d'.AutoSaveWired ∧
      d'.m_autoSave.checked = d'.m_enableAutoSave ∧
      d'.m_runningAutoSave.checked = d'.m_enableRunningAutoSave ∧
      d'.m_enableAutoSave = d.m_enableAutoSave ∧
      d'.m_enableRunningAutoSave = d.m_enableRunningAutoSave := by
  unfold SetupDialog.constructAutoSave
  dsimp only
  cases hin : SetupDialog.setAutoSaveInterval tr (fuel + 2)
      { d with m_saveIntervalSlider :=
                 (QSlider.setValue { minimum := 1, maximum := 20, value := 1, enabled := true }
                   d.m_saveInterval).1,
               m_saveIntervalLbl := "" }
      (QSlider.setValue { minimum := 1, maximum := 20, value := 1, enabled := true }
        d.m_saveInterval).1.value with
  | none =>
    exfalso
    have hrange : ∀ (s : QSlider) (v : Int), s.minimum ≤ s.value → s.value ≤ s.maximum →
        s.minimum ≤ s.maximum →
        (s.setValue v).1.minimum = s.minimum ∧ (s.setValue v).1.maximum = s.maximum ∧
        s.minimum ≤ (s.setValue v).1.value ∧ (s.setValue v).1.value ≤ s.maximum := by
      intro s v h1 h2 h3
      unfold QSlider.setValue
      dsimp only
      split
      · exact ⟨rfl, rfl, h1, h2⟩
      · exact ⟨rfl, rfl, le_max_left _ _, max_le h3 (min_le_left _ _)⟩
    obtain ⟨r1, r2, r3, r4⟩ := hrange { minimum := 1, maximum := 20, value := 1, enabled := true }
      d.m_saveInterval (by decide) (by decide) (by decide)
    have := setAutoSaveInterval_eq tr fuel
      { d with m_saveIntervalSlider :=
                 (QSlider.setValue { minimum := 1, maximum := 20, value := 1, enabled := true }
                   d.m_saveInterval).1,
               m_saveIntervalLbl := "" }
      (QSlider.setValue { minimum := 1, maximum := 20, value := 1, enabled := true }
        d.m_saveInterval).1.value (by rw [r1]; exact r3) (by rw [r2]; exact r4)
    rw [this] at hin
    exact Option.noConfusion hin
  | some d₁ =>
    obtain ⟨h1, h2, _, h4, h5, _, _⟩ := setAutoSaveInterval_frame tr _ _ _ _ hin
    have hmin : d₁.m_saveIntervalSlider.minimum = 1 := by
      rw [h1]; unfold QSlider.setValue; dsimp only; split <;> rfl
    have hmax : d₁.m_saveIntervalSlider.maximum = 20 := by
      rw [h2]; unfold QSlider.setValue; dsimp only; split <;> rfl
    refine ⟨_, rfl, ⟨hmin, hmax, rfl, rfl⟩, ?_, ?_, h4, h5⟩
    · show (LedCheckBox.setChecked _ d₁.m_enableAutoSave).1.checked = d₁.m_enableAutoSave
      unfold LedCheckBox.setChecked
      split
      · assumption
      · rfl
    · show (LedCheckBox.setChecked _ d₁.m_enableRunningAutoSave).1.checked =
        d₁.m_enableRunningAutoSave
      unfold LedCheckBox.setChecked
      split
      · assumption
      · rfl

/-- The label text for an interval of 1..20 minutes with the untranslated texts:
the interval and its unit, which is not the text shown when auto-save is
disabled. -/
theorem saveIntervalText_untranslated (D : Int) (hD : 1 ≤ D ∧ D ≤ 20) :
    saveIntervalText (fun s => s) true D =
        "Auto-save interval: " ++ numberOfInt D ++ (if D > 1 then " minutes" else " minute") ∧
      saveIntervalText (fun s => s) true D ≠ "Auto-save interval: Disabled" ∧
      saveIntervalText (fun s => s) false D = "Auto-save interval: Disabled" := by
  obtain ⟨h1, h2⟩ := hD
  interval_cases D <;> decide

/-! ## C13: the auto-save reset button -/

/-- C13: for a default interval `DEFAULT_SAVE_INTERVAL_MINUTES` within the
slider's range 1..20 and every dialog state wired as the constructor leaves it
in which each check box agrees with its field, `resetAutoSave()` completes
(within two levels of invocation of `setAutoSaveInterval`) and afterwards
`m_saveInterval` is the default, `m_enableAutoSave` is true,
`m_enableRunningAutoSave` is false, the interval slider is enabled and at the
default, the first check box is checked and the second is not, and the interval
label is the text built from the default interval in the enabled branch; with
the untranslated texts that is the interval followed by its unit and not
`"Auto-save interval: Disabled"`. The wiring is kept. -/
theorem C13_resetAutoSave_resets_to_default (DEFAULT_SAVE_INTERVAL_MINUTES : Int)
    (tr : QString → QString) (d : SetupDialog)
    (hD : 1 ≤ DEFAULT_SAVE_INTERVAL_MINUTES ∧ DEFAULT_SAVE_INTERVAL_MINUTES ≤ 20)
    (hwired : d.AutoSaveWired)
    (hauto : d.m_autoSave.checked = d.m_enableAutoSave)
    (hrun : d.m_runningAutoSave.checked = d.m_enableRunningAutoSave) :
    ∃ d', (∀ n, SetupDialog.resetAutoSave DEFAULT_SAVE_INTERVAL_MINUTES tr (n + 2) d = some d') ∧
      d'.m_saveInterval = DEFAULT_SAVE_INTERVAL_MINUTES ∧
      d'.m_enableAutoSave = true ∧ d'.m_enableRunningAutoSave = false ∧
      d'.m_saveIntervalSlider.enabled = true ∧
      d'.m_saveIntervalSlider.value = DEFAULT_SAVE_INTERVAL_MINUTES ∧
      d'.m_autoSave.checked = true ∧ d'.m_runningAutoSave.checked = false ∧
      d'.m_saveIntervalLbl = saveIntervalText tr true DEFAULT_SAVE_INTERVAL_MINUTES ∧
      ((∀ s, tr s = s) →
        d'.m_saveIntervalLbl =
          "Auto-save interval: " ++ numberOfInt DEFAULT_SAVE_INTERVAL_MINUTES ++
            (if DEFAULT_SAVE_INTERVAL_MINUTES > 1 then " minutes" else " minute") ∧
        d'.m_saveIntervalLbl ≠ "Auto-save interval: Disabled") ∧
      d'.AutoSaveWired := by
  refine ⟨_, fun n => resetAutoSave_eq DEFAULT_SAVE_INTERVAL_MINUTES tr n d hD hwired hauto hrun,
    rfl, rfl, rfl, rfl, rfl, rfl, rfl, rfl, ?_, ⟨rfl, rfl, rfl, rfl⟩⟩
  intro htr
  have h : tr = fun s => s := funext htr
  subst h
  have hu := saveIntervalText_untranslated DEFAULT_SAVE_INTERVAL_MINUTES hD
  exact ⟨hu.1, hu.2.1⟩

/-- C13 at the upstream default of 2 minutes, on a dialog with auto-save
switched off and the slider at 7: the reset enables auto-save and the label
reads `"Auto-save interval: 2 minutes"`. -/
theorem C13_resetAutoSave_resets_to_default_witness :
    ∃ d', (∀ n, SetupDialog.resetAutoSave 2 (fun s => s) (n + 2) SetupDialog.autoSaveOff =
          some d') ∧
      d'.m_saveInterval = 2 ∧
      d'.m_enableAutoSave = true ∧ d'.m_enableRunningAutoSave = false ∧
      d'.m_saveIntervalSlider.enabled = true ∧
      d'.m_saveIntervalSlider.value = 2 ∧
      d'.m_autoSave.checked = true ∧ d'.m_runningAutoSave.checked = false ∧
      d'.m_saveIntervalLbl = saveIntervalText (fun s => s) true 2 ∧
      ((∀ s, (fun (s : QString) => s) s = s) →
        d'.m_saveIntervalLbl =
          "Auto-save interval: " ++ numberOfInt 2 ++
            (if (2 : Int) > 1 then " minutes" else " minute") ∧
        d'.m_saveIntervalLbl ≠ "Auto-save interval: Disabled") ∧
      d'.AutoSaveWired :=
  C13_resetAutoSave_resets_to_default 2 (fun s => s) SetupDialog.autoSaveOff
    (by decide) (by decide) (by decide) (by decide)

/-! ## The language page -/

/-- The loop over the locale files appends the base name of each file to
`m_languages` and one item to the combo box, and leaves `m_lang` alone. -/
theorem addLanguages_spec (nativeLanguageName : QString → QString) (fileNames : List QString) :
    ∀ (acc : SetupDialog × QComboBox),
      (SetupDialog.addLanguages nativeLanguageName fileNames acc).1.m_languages =
        acc.1.m_languages ++
          fileNames.map (fun f => QString.truncate f (QString.lastIndexOf f '.')) ∧
      (SetupDialog.addLanguages nativeLanguageName fileNames acc).1.m_lang = acc.1.m_lang ∧
      (SetupDialog.addLanguages nativeLanguageName fileNames acc).2.items.length =
        acc.2.items.length + fileNames.length := by
  induction fileNames with
  | nil => intro acc; simp [SetupDialog.addLanguages]
  | cons f rest ih =>
    intro acc
    rw [SetupDialog.addLanguages]
    obtain ⟨h1, h2, h3⟩ := ih
      ({ acc.1 with m_languages := acc.1.m_languages ++
          [QString.truncate f (QString.lastIndexOf f '.')] },
        acc.2.addItem (nativeLanguageName
          ((acc.1.m_languages ++ [QString.truncate f (QString.lastIndexOf f '.')]).getLastD "")))
    refine ⟨?_, ?_, ?_⟩
    · rw [h1]; simp
    · rw [h2]
    · rw [h3]; simp [QComboBox.addItem]; omega

/-- The fallback leaves `m_languages` alone and sets `m_lang`, when it is empty,
to the two-letter system language if that is a language and to `"en"` if
not. -/
theorem fallbackLanguage_spec (systemLocaleName : QString) (d : SetupDialog) :
    (SetupDialog.fallbackLanguage systemLocaleName d).m_languages = d.m_languages ∧
    (SetupDialog.fallbackLanguage systemLocaleName d).m_lang =
      if d.m_lang = "" then
        if QString.left systemLocaleName 2 ∈ d.m_languages then QString.left systemLocaleName 2
        else "en"
      else d.m_lang := by
  unfold SetupDialog.fallbackLanguage
  by_cases hempty : d.m_lang = ""
  · rw [if_pos hempty, if_pos hempty]
    by_cases hmem : QString.left systemLocaleName 2 ∈ d.m_languages
    · rw [if_pos (List.elem_iff.mpr hmem), if_pos hmem]
      exact ⟨rfl, rfl⟩
    · rw [if_neg (fun h => hmem (List.elem_iff.mp h)), if_neg hmem]
      exact ⟨rfl, rfl⟩
  · rw [if_neg hempty, if_neg hempty]
    exact ⟨rfl, rfl⟩

/-- The selection loop, with as many combo-box items as languages: it completes
and leaves the dialog as it is: the nested `setLanguage` assigns `m_lang` the
language it already has. -/
theorem selectLang_keeps (n : Nat) :
    ∀ (i : Nat) (d : SetupDialog) (c : QComboBox),
      c.items.length = d.m_languages.length → i + n = d.m_languages.length →
      ∃ c', SetupDialog.selectLang n i d c = some (d, c') := by
  induction n with
  | zero => intro i d c _ _; exact ⟨c, rfl⟩
  | succ n ih =>
    intro i d c hlen hin
    have hi : i < d.m_languages.length := by omega
    have hget : d.m_languages.get? i = some (d.m_languages.get ⟨i, hi⟩) :=
      List.get?_eq_get hi
    rw [SetupDialog.selectLang]
    simp only [hget]
    by_cases hl : d.m_lang = d.m_languages.get ⟨i, hi⟩
    · rw [if_pos hl]
      have hidx : (c.setCurrentIndex i).currentIndex = (i : Int) := by
        unfold QComboBox.setCurrentIndex
        dsimp only
        rw [if_pos ⟨by omega, by omega⟩]
      cases hch : c.currentIndexChanged i with
      | none => exact ⟨_, rfl⟩
      | some e =>
        have he : e = (i : Int) := by
          unfold QComboBox.currentIndexChanged at hch
          split at hch
          · exact Option.noConfusion hch
          · rw [hidx] at hch
            exact (Option.some.inj hch).symm
        subst he
        have hset : d.setLanguage (i : Int) = some d := by
          unfold SetupDialog.setLanguage
          rw [if_pos (by omega)]
          simp only [Int.toNat_ofNat, hget]
          rw [← hl]
        simp only [hset]
        exact ⟨_, rfl⟩
    · rw [if_neg hl]
      exact ih (i + 1) d c hlen (by omega)

/-- The language page on the sample locale files with nothing stored: a French
system locale makes `m_lang` `"fr"` and the third item current, a Japanese one
`"en"`; a stored `"xx"` stays. -/
theorem constructLanguage_sample :
    (SetupDialog.constructLanguage sampleLocaleFiles sampleNativeName "fr_FR"
        (worldWithLanguage "") SetupDialog.blank).map
      (fun r => (r.1.m_lang, r.1.m_languages, r.2.currentIndex)) =
      some ("fr", ["de", "en", "fr", "pt_br"], 2) ∧
    (SetupDialog.constructLanguage sampleLocaleFiles sampleNativeName "ja_JP"
        (worldWithLanguage "") SetupDialog.blank).map (fun r => r.1.m_lang) = some "en" ∧
    (SetupDialog.constructLanguage sampleLocaleFiles sampleNativeName "fr_FR"
        (worldWithLanguage "xx") SetupDialog.blank).map (fun r => r.1.m_lang) = some "xx" := by
  decide

/-! ## C14: the language falls back to the system language -/

/-- C14: the language page of the constructor completes for every list of locale
files, native names, system locale name, stored settings and dialog;
`m_languages` is the list of the file names cut at their last dot, and `m_lang`
is, when the stored `"app"/"language"` is the empty string, the first two
characters of the system locale name if that is in `m_languages` and `"en"` if
it is not, and the stored language unchanged when it is not empty. -/
theorem C14_language_falls_back_to_system (fileNames : List QString)
    (nativeLanguageName : QString → QString) (systemLocaleName : QString)
    (w : World) (d : SetupDialog) :
    ∃ d' changeLang, SetupDialog.constructLanguage fileNames nativeLanguageName
        systemLocaleName w d = some (d', changeLang) ∧
      d'.m_languages =
        fileNames.map (fun f => QString.truncate f (QString.lastIndexOf f '.')) ∧
      d'.m_lang =
        if w.value "app" "language" = "" then
          if QString.left systemLocaleName 2 ∈ d'.m_languages then
            QString.left systemLocaleName 2
          else "en"
        else w.value "app" "language" := by
  obtain ⟨h1, h2, h3⟩ := addLanguages_spec nativeLanguageName fileNames
    ({ d with m_lang := w.value "app" "language", m_languages := [] }, QComboBox.new)
  simp only [List.nil_append, QComboBox.new, List.length_nil, Nat.zero_add] at h1 h2 h3
  obtain ⟨f1, f2⟩ := fallbackLanguage_spec systemLocaleName
    (SetupDialog.addLanguages nativeLanguageName fileNames
      ({ d with m_lang := w.value "app" "language", m_languages := [] },
        { items := [], currentIndex := -1 })).1
  rw [h1] at f1
  rw [h1, h2] at f2
  obtain ⟨c', hc'⟩ := selectLang_keeps fileNames.length 0 _ _
    (show _ = List.length _ by rw [f1, h3, List.length_map])
    (show _ = List.length _ by rw [f1, List.length_map, Nat.zero_add])
  unfold SetupDialog.constructLanguage
  dsimp only
  simp only [QComboBox.new]
  rw [h3]
  refine ⟨_, c', hc', f1, ?_⟩
  rw [f2, f1]

/-- With the slider at `v`, above the step and no multiple of it, one level of
invocation is not enough: the move of the slider triggers a nested one. -/
theorem setBufferSize_rounds_nested (D : Int) (txt : Int → QString)
    (d : SetupDialog) (v : Int) (hstep : D.tdiv BUFFERSIZE_RESOLUTION = 8)
    (hmin : d.m_bufSizeSlider.minimum = 1) (hmax : d.m_bufSizeSlider.maximum = 128)
    (hval : d.m_bufSizeSlider.value = v) (hv : v ≤ 128) (h8 : v > 8) (hm : v % 8 ≠ 0) :
    SetupDialog.setBufferSize D txt 1 d v = none := by
  have hmod : v.tmod 8 = v % 8 := Int.tmod_eq_emod (by omega) (by norm_num)
  have hdiv : (8 : Int).tdiv 2 = 4 := by decide
  have hstep' : D.tdiv 32 = 8 := hstep
  have hset : ∀ x : Int, 1 ≤ x → x ≤ 128 → x ≠ v →
      d.m_bufSizeSlider.setValue x = ({ d.m_bufSizeSlider with value := x }, some x) := by
    intro x h1 h2 h3
    have hbound : max d.m_bufSizeSlider.minimum (min d.m_bufSizeSlider.maximum x) = x := by
      rw [hmin, hmax]; omega
    unfold QSlider.setValue
    simp only [hbound, hval]
    rw [if_neg (fun e => h3 e.symm)]
  rw [SetupDialog.setBufferSize]
  simp only [BUFFERSIZE_RESOLUTION, hstep', hmod, hdiv, h8, if_true]
  rw [if_neg (by norm_num), if_pos (by simpa using hm)]
  by_cases h4 : v % 8 < 4
  · rw [if_pos h4, hset (v - v % 8) (by omega) (by omega) (by omega)]
    rfl
  · rw [if_neg h4, hset (v + 8 - v % 8) (by omega) (by omega) (by omega)]
    rfl

/-! ## C15: how setBufferSize settles -/

/-- C15: with the step `DEFAULT_BUFFER_SIZE / BUFFERSIZE_RESOLUTION` equal to 8
and the slider, of range 1..128, at the value `v` in 1..128, `setBufferSize( v )`
completes within two levels of invocation (at most one nested invocation) in a
state `d'`. If `v` is at most 8 or a multiple of 8, one level is enough and the
slider stays at `v`. Otherwise one level is not enough and the slider ends on a
multiple of 8 that is `v - v mod 8` when `v mod 8 < 4` and `v + 8 - v mod 8`
when `v mod 8 >= 4`, no farther from `v` than any other multiple of 8. In all
cases the slider ends within 1..128 and `m_bufferSize` is 32 times its value. -/
theorem C15_setBufferSize_settles (DEFAULT_BUFFER_SIZE : Int) (bufSizeText : Int → QString)
    (d : SetupDialog) (v : Int)
    (hstep : DEFAULT_BUFFER_SIZE.tdiv BUFFERSIZE_RESOLUTION = 8)
    (hmin : d.m_bufSizeSlider.minimum = 1) (hmax : d.m_bufSizeSlider.maximum = 128)
    (hval : d.m_bufSizeSlider.value = v) (hlo : 1 ≤ v) (hhi : v ≤ 128) :
    ∃ d', (∀ n, SetupDialog.setBufferSize DEFAULT_BUFFER_SIZE bufSizeText (n + 2) d v =
          some d') ∧
      (v ≤ 8 ∨ v % 8 = 0 →
        (∀ n, SetupDialog.setBufferSize DEFAULT_BUFFER_SIZE bufSizeText (n + 1) d v =
          some d') ∧
        d'.m_bufSizeSlider.value = v) ∧
      (¬ (v ≤ 8 ∨ v % 8 = 0) →
        SetupDialog.setBufferSize DEFAULT_BUFFER_SIZE bufSizeText 1 d v = none ∧
        d'.m_bufSizeSlider.value % 8 = 0 ∧
        (v % 8 < 4 → d'.m_bufSizeSlider.value = v - v % 8) ∧
        (4 ≤ v % 8 → d'.m_bufSizeSlider.value = v + 8 - v % 8) ∧
        ∀ m : Int, m % 8 = 0 → |d'.m_bufSizeSlider.value - v| ≤ |m - v|) ∧
      1 ≤ d'.m_bufSizeSlider.value ∧ d'.m_bufSizeSlider.value ≤ 128 ∧
      d'.m_bufferSize = 32 * d'.m_bufSizeSlider.value := by
  have hspec := settledValue_spec v hlo hhi
  refine ⟨_, fun n => setBufferSize_settles DEFAULT_BUFFER_SIZE bufSizeText n d v hstep
    hmin hmax hval hlo hhi, ?_, ?_, hspec.1, hspec.2.1, ?_⟩
  · intro hrest
    refine ⟨?_, hspec.2.2.1 hrest⟩
    intro n
    rw [setBufferSize_at_rest DEFAULT_BUFFER_SIZE bufSizeText n d v hstep hval (by omega)
      hrest, hspec.2.2.1 hrest]
    have hsl : ({ d.m_bufSizeSlider with value := v } : QSlider) = d.m_bufSizeSlider := by
      rw [← hval]
    rw [hsl]
  · intro hrest
    exact ⟨setBufferSize_rounds_nested DEFAULT_BUFFER_SIZE bufSizeText d v hstep hmin hmax
      hval hhi (by omega) (by omega), hspec.2.2.2 hrest⟩
  · show settledValue v * 32 = 32 * settledValue v
    omega

/-- C15 at the upstream default 256 with the slider at 13, which settles on 16
and 512 frames. -/
theorem C15_setBufferSize_settles_witness :
    ∃ d', (∀ n, SetupDialog.setBufferSize 256 framesText (n + 2)
          { SetupDialog.blank with
            m_bufSizeSlider := { minimum := 1, maximum := 128, value := 13, enabled := true } }
          13 = some d') ∧
      ((13 : Int) ≤ 8 ∨ (13 : Int) % 8 = 0 →
        (∀ n, SetupDialog.setBufferSize 256 framesText (n + 1)
          { SetupDialog.blank with
            m_bufSizeSlider := { minimum := 1, maximum := 128, value := 13, enabled := true } }
          13 = some d') ∧
        d'.m_bufSizeSlider.value = 13) ∧
      (¬ ((13 : Int) ≤ 8 ∨ (13 : Int) % 8 = 0) →
        SetupDialog.setBufferSize 256 framesText 1
          { SetupDialog.blank with
            m_bufSizeSlider := { minimum := 1, maximum := 128, value := 13, enabled := true } }
          13 = none ∧
        d'.m_bufSizeSlider.value % 8 = 0 ∧
        ((13 : Int) % 8 < 4 → d'.m_bufSizeSlider.value = 13 - 13 % 8) ∧
        (4 ≤ (13 : Int) % 8 → d'.m_bufSizeSlider.value = 13 + 8 - 13 % 8) ∧
        ∀ m : Int, m % 8 = 0 → |d'.m_bufSizeSlider.value - 13| ≤ |m - 13|) ∧
      1 ≤ d'.m_bufSizeSlider.value ∧ d'.m_bufSizeSlider.value ≤ 128 ∧
      d'.m_bufferSize = 32 * d'.m_bufSizeSlider.value :=
  C15_setBufferSize_settles 256 framesText
    { SetupDialog.blank with
      m_bufSizeSlider := { minimum := 1, maximum := 128, value := 13, enabled := true } }
    13 (by decide) rfl rfl rfl (by decide) (by decide)

/-- The slider as the constructor leaves it before `setBufferSize` is called:
the range 1..128 and the value `m_bufferSize / BUFFERSIZE_RESOLUTION` bounded to
it. -/
theorem constructed_slider (x : Int) :
    (({ minimum := 1, maximum := 128, value := 1, enabled := true } : QSlider).setValue x).1 =
      { minimum := 1, maximum := 128, value := max 1 (min 128 x), enabled := true } := by
  unfold QSlider.setValue
  by_cases h : (1 : Int) = max 1 (min 128 x)
  · rw [if_pos h, ← h]
  · rw [if_neg h]

/-- The buffer-size part of the constructor completes within two levels of
invocation of `setBufferSize`, with the slider on the settled value of the
stored size over the resolution, bounded to 1..128. -/
theorem constructBufferSize_eq (D : Int) (txt : Int → QString) (toInt : QString → Int)
    (fuel : Nat) (w : World) (d : SetupDialog) (hstep : D.tdiv BUFFERSIZE_RESOLUTION = 8) :
    SetupDialog.constructBufferSize D txt toInt (fuel + 2) w d =
      some { d with
        m_bufSizeSlider :=
          { minimum := 1, maximum := 128, enabled := true,
            value := settledValue (max 1 (min 128
              ((toInt (w.value "mixer" "framesperaudiobuffer")).tdiv 32))) },
        m_bufferSize := settledValue (max 1 (min 128
          ((toInt (w.value "mixer" "framesperaudiobuffer")).tdiv 32))) * 32,
        m_bufSizeLbl := txt (settledValue (max 1 (min 128
          ((toInt (w.value "mixer" "framesperaudiobuffer")).tdiv 32))) * 32) } := by
  unfold SetupDialog.constructBufferSize
  simp only [BUFFERSIZE_RESOLUTION, constructed_slider]
  rw [setBufferSize_settles D txt fuel _ _ hstep rfl rfl rfl (le_max_left _ _)
    (max_le (by norm_num) (min_le_left _ _))]

/-- The truncating division by 32 of a stored size, bounded to 1..128. -/
theorem bounded_tdiv (c : Int) :
    (0 ≤ c → max 1 (min 128 (c.tdiv 32)) = max 1 (min 128 (c / 32))) ∧
    (c < 0 → max 1 (min 128 (c.tdiv 32)) = 1) := by
  constructor
  · intro h
    rw [Int.tdiv_eq_ediv h (by norm_num)]
  · intro h
    have h1 : c.tdiv 32 = -((-c) / 32) := by
      have := Int.neg_tdiv (-c) 32
      rw [neg_neg] at this
      rw [this, Int.tdiv_eq_ediv (by omega) (by norm_num)]
    rw [h1]
    omega

/-- The size the dialog settles on for a stored size `c`: a multiple of 32 in
32..4096, equal to `c` exactly when `c` is 32 times a slider position that is
at most 8 or a multiple of 8. -/
theorem settled_size_spec (c : Int) :
    (settledValue (max 1 (min 128 (c.tdiv 32))) * 32) % 32 = 0 ∧
    32 ≤ settledValue (max 1 (min 128 (c.tdiv 32))) * 32 ∧
    settledValue (max 1 (min 128 (c.tdiv 32))) * 32 ≤ 4096 ∧
    (settledValue (max 1 (min 128 (c.tdiv 32))) * 32 = c ↔
      ∃ k : Int, c = 32 * k ∧ (1 ≤ k ∧ k ≤ 8 ∨ k % 8 = 0 ∧ 0 < k ∧ k ≤ 128)) := by
  have hb := bounded_tdiv c
  have hspec := settledValue_spec (max 1 (min 128 (c.tdiv 32))) (by omega) (by omega)
  refine ⟨by omega, by omega, by omega, ?_⟩
  constructor
  · intro h
    refine ⟨settledValue (max 1 (min 128 (c.tdiv 32))), by omega, ?_⟩
    by_cases hr : max 1 (min 128 (c.tdiv 32)) ≤ 8 ∨ max 1 (min 128 (c.tdiv 32)) % 8 = 0
    · have := hspec.2.2.1 hr
      omega
    · have := (hspec.2.2.2 hr).1
      omega
  · rintro ⟨k, hk, hk2⟩
    have hc : 0 ≤ c := by omega
    have hq : max 1 (min 128 (c.tdiv 32)) = k := by
      rw [hb.1 hc]
      omega
    rw [hq]
    have := (settledValue_spec k (by omega) (by omega)).2.2.1 (by omega)
    omega

/-! ## C16: the stored buffer size after opening and accepting the dialog -/

/-- C16, as stated, fails at `c = 0`, which is what a store without the key
`"mixer"/"framesperaudiobuffer"` reads as: 0 is `32 * 0` and 0 is a multiple of
8 not above 128, yet the slider cannot go below 1, so the dialog opens with 32
frames and `accept()` writes `"32"`. -/
theorem C16_zero_not_written_back :
    (∃ k : Int, (0 : Int) = 32 * k ∧ (1 ≤ k ∧ k ≤ 8 ∨ k % 8 = 0 ∧ k ≤ 128)) ∧
    (worldWith "" "").value "mixer" "framesperaudiobuffer" = "" ∧
    ∃ d', (∀ n, SetupDialog.constructBufferSize 256 framesText (fun _ => 0) (n + 2)
          (worldWith "" "") SetupDialog.blank = some d') ∧
      d'.m_bufferSize = 32 ∧
      (SetupDialog.accept alsaEnv (worldWith "" "") d').1.value
        "mixer" "framesperaudiobuffer" = "32" :=
  ⟨⟨0, by decide⟩, by decide, _,
    fun n => constructBufferSize_eq 256 framesText (fun _ => 0) n (worldWith "" "")
      SetupDialog.blank (by decide),
    by decide, by decide⟩

/-- C16, amended: with the step `DEFAULT_BUFFER_SIZE / BUFFERSIZE_RESOLUTION`
equal to 8, for every integer `c` that `"mixer"/"framesperaudiobuffer"` reads
as, the buffer-size part of the constructor completes (within two levels of
invocation of `setBufferSize`) with `m_bufferSize` a multiple of 32 in 32..4096;
`accept()` on that state writes the decimal text of this `m_bufferSize` under
`"mixer"/"framesperaudiobuffer"`; and this `m_bufferSize` is `c` exactly when
`c = 32 * k` with `k` in 1..8 or `k` a multiple of 8 from 8 to 128, so that for
every other `c` a different buffer size is persisted. -/
theorem C16_buffer_size_round_trip (DEFAULT_BUFFER_SIZE : Int) (bufSizeText : Int → QString)
    (toInt : QString → Int) (w : World) (d : SetupDialog) (c : Int)
    (hstep : DEFAULT_BUFFER_SIZE.tdiv BUFFERSIZE_RESOLUTION = 8)
    (hc : toInt (w.value "mixer" "framesperaudiobuffer") = c) :
    ∃ d', (∀ n, SetupDialog.constructBufferSize DEFAULT_BUFFER_SIZE bufSizeText toInt (n + 2)
          w d = some d') ∧
      d'.m_bufferSize % 32 = 0 ∧ 32 ≤ d'.m_bufferSize ∧ d'.m_bufferSize ≤ 4096 ∧
      (∀ (env : Env) (w₁ : World),
        Call.setValue "mixer" "framesperaudiobuffer" (numberOfInt d'.m_bufferSize) ∈
          (SetupDialog.accept env w₁ d').1.calls ∧
        (SetupDialog.accept env w₁ d').1.value "mixer" "framesperaudiobuffer" =
          numberOfInt d'.m_bufferSize) ∧
      (d'.m_bufferSize = c ↔
        ∃ k : Int, c = 32 * k ∧ (1 ≤ k ∧ k ≤ 8 ∨ k % 8 = 0 ∧ 0 < k ∧ k ≤ 128)) := by
  have hspec := settled_size_spec c
  refine ⟨_, fun n => constructBufferSize_eq DEFAULT_BUFFER_SIZE bufSizeText toInt n w d hstep,
    ?_, ?_, ?_, ?_, ?_⟩
  · simp only [hc]
    exact hspec.1
  · simp only [hc]
    exact hspec.2.1
  · simp only [hc]
    exact hspec.2.2.1
  · intro env w₁
    exact accept_written env w₁ _ (("mixer", "framesperaudiobuffer"), _)
      (List.mem_cons_self _ _)
  · simp only [hc]
    exact hspec.2.2.2

/-- C16 at the stored size 288 with the upstream default 256: the dialog opens
with 256 frames, which is what `accept()` writes, and 256 is not 288. -/
theorem C16_buffer_size_round_trip_witness :
    ∃ d', (∀ n, SetupDialog.constructBufferSize 256 framesText (fun _ => 288) (n + 2)
          (worldWith "" "") SetupDialog.blank = some d') ∧
      d'.m_bufferSize % 32 = 0 ∧ 32 ≤ d'.m_bufferSize ∧ d'.m_bufferSize ≤ 4096 ∧
      (∀ (env : Env) (w₁ : World),
        Call.setValue "mixer" "framesperaudiobuffer" (numberOfInt d'.m_bufferSize) ∈
          (SetupDialog.accept env w₁ d').1.calls ∧
        (SetupDialog.accept env w₁ d').1.value "mixer" "framesperaudiobuffer" =
          numberOfInt d'.m_bufferSize) ∧
      (d'.m_bufferSize = 288 ↔
        ∃ k : Int, (288 : Int) = 32 * k ∧ (1 ≤ k ∧ k ≤ 8 ∨ k % 8 = 0 ∧ 0 < k ∧ k ≤ 128)) :=
  C16_buffer_size_round_trip 256 framesText (fun _ => 288) (worldWith "" "")
    SetupDialog.blank 288 (by decide) rfl

end LMMS
